import Mathlib

/-!
# ps2pico: USB HID keyboard to PS/2 converter

Shallow embedding of `src/ps2pico.c` and verification of its frame codec,
host command interpreter and HID report translator, and of the key code
encoder `toOtrona` of `src/src/otronaphy.c`.

Machine integers are natural numbers, reduced modulo `2^w` where the C code
stores into a `uint8_t`, `uint16_t` or `uint32_t`.

The two input pins (`CLKIN`, `DTIN`) are read through `gpio_sample`: the field
`lines` of the state lists the levels the host puts on the bus at the coming
reads, one pair `(CLKIN, DTIN)` per read; once the list is used up nobody
drives the open collector bus and both lines read high (idle).

Everything the firmware does to the outside world is appended to a log field
of the state (`wire`, `tx`, `calls`, `usb_out`, ...), so that the bytes and
bits it emits can be compared with the specification.
-/

namespace Ps2pico

/-! ## Data model -/

/-- Alarm callbacks that the firmware registers with `add_alarm_in_ms`. -/
inductive Callback where
  | blink_callback
  | repeat_callback
deriving DecidableEq, Repr

/-- Globals of `ps2pico.c`, the pending bus input and the output logs. -/
structure State where
  /-- global `irq_enabled` -/
  irq_enabled : Bool
  /-- global `kbd_enabled` -/
  kbd_enabled : Bool
  /-- global `kbd_addr` -/
  kbd_addr : Nat
  /-- global `kbd_inst` -/
  kbd_inst : Nat
  /-- global `blinking` -/
  blinking : Bool
  /-- global `receiving` -/
  receiving : Bool
  /-- global `repeating` -/
  repeating : Bool
  /-- global `repeat_us` (uint32_t) -/
  repeat_us : Nat
  /-- global `delay_ms` (uint16_t) -/
  delay_ms : Nat
  /-- global `repeater` (alarm id, 0 when none) -/
  repeater : Nat
  /-- global `prev_rpt[8]` -/
  prev_rpt : List Nat
  /-- global `prev_ps2` -/
  prev_ps2 : Nat
  /-- global `resend` -/
  resend : Nat
  /-- global `repeat` (a keyword of Lean, hence the longer name) -/
  repeat_key : Nat
  /-- input: levels `(CLKIN, DTIN)` seen by the coming pin reads -/
  lines : List (Bool × Bool)
  /-- log: number of times the data line was released by `gpio_put(DTOUT, !1)`
  outside `ps2_set_bit` -/
  released : Nat
  /-- log: arguments of `ps2_set_bit`, in order -/
  wire : List Bool
  /-- log: number of clock pulses made by `ps2_cycle_clock` -/
  clocks : Nat
  /-- log: arguments of `ps2_send`, in order -/
  calls : List Nat
  /-- log: bytes whose frame `ps2_send` has clocked out, in order -/
  tx : List Nat
  /-- log: milliseconds spent in `sleep_ms` -/
  slept_ms : Nat
  /-- log: number of idle checks made by `ps2_send` -/
  checks : Nat
  /-- log: arguments of `kbd_set_leds`, in order -/
  led_calls : List Nat
  /-- log: output report bytes handed to `tuh_hid_set_report`, in order -/
  usb_out : List Nat
  /-- log: alarms added with `add_alarm_in_ms` (delay in ms, callback) -/
  alarms : List (Nat × Callback)
  /-- log: alarm ids passed to `cancel_alarm` -/
  cancelled : List Nat
  /-- last level written with `board_led_write` -/
  board_led : Bool
  /-- log: number of calls of `tuh_hid_receive_report` -/
  rx_requests : Nat
  /-- log: indices at which `hid2ps2` was read, in order -/
  reads : List Nat
deriving DecidableEq, Repr

/-- Table `mod2ps2`. -/
def mod2ps2 : List Nat := [0x14, 0x12, 0x11, 0x1f, 0x14, 0x59, 0x11, 0x27]

/-- Table `hid2ps2`. -/
def hid2ps2 : List Nat := [
  0x00, 0x00, 0xfc, 0x00, 0x1c, 0x32, 0x21, 0x23, 0x24, 0x2b, 0x34, 0x33, 0x43, 0x3b, 0x42, 0x4b,
  0x3a, 0x31, 0x44, 0x4d, 0x15, 0x2d, 0x1b, 0x2c, 0x3c, 0x2a, 0x1d, 0x22, 0x35, 0x1a, 0x16, 0x1e,
  0x26, 0x25, 0x2e, 0x36, 0x3d, 0x3e, 0x46, 0x45, 0x5a, 0x76, 0x66, 0x0d, 0x29, 0x4e, 0x55, 0x54,
  0x5b, 0x5d, 0x5d, 0x4c, 0x52, 0x0e, 0x41, 0x49, 0x4a, 0x58, 0x05, 0x06, 0x04, 0x0c, 0x03, 0x0b,
  0x83, 0x0a, 0x01, 0x09, 0x78, 0x07, 0x7c, 0x7e, 0x7e, 0x70, 0x6c, 0x7d, 0x71, 0x69, 0x7a, 0x74,
  0x6b, 0x72, 0x75, 0x77, 0x4a, 0x7c, 0x7b, 0x79, 0x5a, 0x69, 0x72, 0x7a, 0x6b, 0x73, 0x74, 0x6c,
  0x75, 0x7d, 0x70, 0x71, 0x61, 0x2f, 0x37, 0x0f, 0x08, 0x10, 0x18, 0x20, 0x28, 0x30, 0x38, 0x40,
  0x48, 0x50, 0x57, 0x5f]

/-- Constant `maparray = sizeof(hid2ps2) / sizeof(uint8_t)`, a `uint8_t`. -/
def maparray : Nat := hid2ps2.length % 256

/-- The globals as initialised at program start, with the bus input `lines`. -/
def init (lines : List (Bool × Bool)) : State :=
  { irq_enabled := true, kbd_enabled := true, kbd_addr := 0, kbd_inst := 0,
    blinking := false, receiving := false, repeating := false,
    repeat_us := 35000, delay_ms := 250, repeater := 0,
    prev_rpt := [0, 0, 0, 0, 0, 0, 0, 0], prev_ps2 := 0, resend := 0, repeat_key := 0,
    lines := lines, released := 0, wire := [], clocks := 0, calls := [], tx := [], slept_ms := 0,
    checks := 0, led_calls := [], usb_out := [], alarms := [], cancelled := [],
    board_led := false, rx_requests := 0, reads := [] }

/-! ## Line transport and frame codec -/

/-- One read of the input pins: the next pending pair of levels, or idle
(both high) when the host drives nothing. -/
def gpio_sample (s : State) : (Bool × Bool) × State :=
  match s.lines with
  | [] => ((true, true), s)
  | x :: rest => (x, { s with lines := rest })

/-- `ps2_cycle_clock`: one clock pulse. -/
def ps2_cycle_clock (s : State) : State :=
  { s with clocks := s.clocks + 1 }

/-- `ps2_set_bit(bt)`: drive the data line, then pulse the clock. -/
def ps2_set_bit (s : State) (bt : Bool) : State :=
  ps2_cycle_clock { s with wire := s.wire ++ [bt] }

/-- The `for` loop of `ps2_send` (lines 100-104), `n` iterations left; returns
the state and the accumulated `parity`. -/
def ps2_send_bits : Nat → State → Nat → Nat → State × Nat
  | 0, s, _, parity => (s, parity)
  | n + 1, s, data, parity =>
      ps2_send_bits n (ps2_set_bit s ((data &&& 0x01) != 0)) (data >>> 1)
        (parity ^^^ (data &&& 0x01))

/-- Body of the `if` of `ps2_send` (lines 94-110): the frame itself. -/
def ps2_send_frame (s : State) (data : Nat) : State :=
  let s := { s with resend := data }
  let s := { s with irq_enabled := false }
  let s := ps2_set_bit s false
  let r := ps2_send_bits 8 s data 1
  let s := ps2_set_bit r.1 (r.2 != 0)
  let s := ps2_set_bit s true
  let s := { s with tx := s.tx ++ [data] }
  { s with irq_enabled := true }

/-- The `while(timeout)` loop of `ps2_send`; the first argument is `timeout`. -/
def ps2_send_loop : Nat → State → Nat → State
  | 0, s, _ => s
  | timeout + 1, s, data =>
      let r := gpio_sample s
      let s := { r.2 with checks := r.2.checks + 1 }
      if r.1.1 && r.1.2 then
        ps2_send_frame s data
      else
        ps2_send_loop timeout { s with slept_ms := s.slept_ms + 1 } data

/-- `ps2_send(data)`; the argument is a `uint8_t`. -/
def ps2_send (s : State) (data : Nat) : State :=
  let data := data % 256
  ps2_send_loop 100 { s with calls := s.calls ++ [data] } data

/-- Condition of `maybe_send_e0`. -/
def is_e0 (data : Nat) : Bool :=
  data == 0x46 ||
  (data >= 0x48 && data <= 0x52) ||
  data == 0x54 || data == 0x58 ||
  data == 0x65 || data == 0x66 ||
  data >= 0x81

/-- `maybe_send_e0(data)`. -/
def maybe_send_e0 (s : State) (data : Nat) : State :=
  if is_e0 data then ps2_send s 0xe0 else s

/-- `tuh_hid_set_report` with a one byte output report `value`. -/
def tuh_hid_set_report (s : State) (value : Nat) : State :=
  { s with usb_out := s.usb_out ++ [value] }

/-- `kbd_set_leds(data)`. -/
def kbd_set_leds (s : State) (data : Nat) : State :=
  let s := { s with led_calls := s.led_calls ++ [data] }
  if data == 1 then tuh_hid_set_report s 4 else
  if data == 2 then tuh_hid_set_report s 1 else
  if data == 3 then tuh_hid_set_report s 5 else
  if data == 4 then tuh_hid_set_report s 2 else
  if data == 5 then tuh_hid_set_report s 6 else
  if data == 6 then tuh_hid_set_report s 3 else
  if data == 7 then tuh_hid_set_report s 7 else
  tuh_hid_set_report s 0

/-- `add_alarm_in_ms(ms, cb, NULL, false)`: the alarm is logged and gets a
fresh positive id. -/
def add_alarm_in_ms (s : State) (ms : Nat) (cb : Callback) : State × Nat :=
  ({ s with alarms := s.alarms ++ [(ms, cb)] }, s.alarms.length + 1)

/-- `cancel_alarm(id)`. -/
def cancel_alarm (s : State) (id : Nat) : State :=
  { s with cancelled := s.cancelled ++ [id] }

/-- `board_led_write(level)`. -/
def board_led_write (s : State) (level : Bool) : State :=
  { s with board_led := level }

/-- `sleep_ms(ms)`. -/
def sleep_ms (s : State) (ms : Nat) : State :=
  { s with slept_ms := s.slept_ms + ms }

/-- `tuh_hid_receive_report`: ask the USB stack for the next report. -/
def tuh_hid_receive_report (s : State) : State :=
  { s with rx_requests := s.rx_requests + 1 }

/-- The bits that the `for` loop of `ps2_send` hands to `ps2_set_bit` for
`data`, over `n` iterations (closed form of `ps2_send_bits`). -/
def data_bits : Nat → Nat → List Bool
  | 0, _ => []
  | n + 1, data => ((data &&& 0x01) != 0) :: data_bits n (data >>> 1)

/-- The value of `parity` after `n` iterations of the `for` loop of `ps2_send`
(closed form of `ps2_send_bits`). -/
def data_parity : Nat → Nat → Nat → Nat
  | 0, _, parity => parity
  | n + 1, data, parity => data_parity n (data >>> 1) (parity ^^^ (data &&& 0x01))

/-- The parity bit of the specification for the byte `B`:
1 XOR bit0 XOR bit1 XOR ... XOR bit7. -/
def parity_bit (B : Nat) : Bool :=
  xor (xor (xor (xor (xor (xor (xor (xor true (B.testBit 0)) (B.testBit 1)) (B.testBit 2))
    (B.testBit 3)) (B.testBit 4)) (B.testBit 5)) (B.testBit 6)) (B.testBit 7)

/-- The 11 bits of the frame of `data`: start, data, parity, stop. -/
def frame (data : Nat) : List Bool :=
  false :: data_bits 8 data ++ [data_parity 8 data 1 != 0, true]

/-- The state after `ps2_send` has clocked out `data` at its first idle check
(closed form, see `ps2_send_idle`). -/
def sent_ok (s : State) (data : Nat) : State :=
  { s with
    resend := data, irq_enabled := true,
    wire := s.wire ++ frame data, clocks := s.clocks + 11,
    calls := s.calls ++ [data], tx := s.tx ++ [data], checks := s.checks + 1 }

/-- The output report byte that `kbd_set_leds(data)` hands to the USB
keyboard (the constants `value` of lines 132-139). -/
def led_value (data : Nat) : Nat :=
  if data == 1 then 4 else
  if data == 2 then 1 else
  if data == 3 then 5 else
  if data == 4 then 2 else
  if data == 5 then 6 else
  if data == 6 then 3 else
  if data == 7 then 7 else
  0

/-! ## Receiving a host byte and the command interpreter -/

/-- The `while(bit < 0x100)` loop of `ps2_receive` (lines 165-175). The first
argument bounds the number of iterations; `bit` is a `uint16_t` that doubles
from 1, so 8 iterations are made and any bound of 8 or more is never reached.
Returns the state, `data` and `parity`. -/
def ps2_receive_bits : Nat → State → Nat → Nat → Nat → State × Nat × Nat
  | 0, s, _, data, parity => (s, data, parity)
  | fuel + 1, s, bit, data, parity =>
      if bit < 0x100 then
        let r := gpio_sample s
        let data := if r.1.2 then (data ||| bit) % 256 else data
        let parity := if r.1.2 then parity ^^^ 1 else parity ^^^ 0
        ps2_receive_bits fuel (ps2_cycle_clock r.2) ((bit <<< 1) % 65536) data parity
      else
        (s, data, parity)

/-- Lines 156-184 of `ps2_receive`: sample the frame of the host. Returns the
state, the byte `data` and the flag `parity` (1 when the sampled parity bit is
the expected one, else 0). -/
def ps2_receive_frame (s : State) : State × Nat × Nat :=
  let s := { s with irq_enabled := false }
  let s := board_led_write s true
  let s := ps2_cycle_clock s
  let r := ps2_receive_bits 16 s 1 0 1
  let s := r.1
  let data := r.2.1
  let parity := r.2.2
  let p := gpio_sample s
  let parity := if (if p.1.2 then 1 else 0) == parity then 1 else 0
  let s := ps2_cycle_clock p.2
  let s := ps2_set_bit s false
  let s := { s with released := s.released + 1 }
  let s := { s with irq_enabled := true }
  let s := board_led_write s false
  (s, data, parity)

/-- The inner `switch(data)` of `ps2_receive` (lines 211-258). The flag of the
result is true when the case ends in `return`, false when it falls out of the
switch to the final `ps2_send(0xfa)`. -/
def ps2_switch_data (s : State) (data : Nat) : State × Bool :=
  if data == 0xff then
    let s := ps2_send s 0xfa
    let s := { s with kbd_enabled := true }
    let s := { s with blinking := true }
    let s := (add_alarm_in_ms s 1 Callback.blink_callback).1
    let s := sleep_ms s 10
    let s := ps2_send s 0xaa
    (s, true)
  else if data == 0xfe then
    (ps2_send s s.resend, true)
  else if data == 0xee then
    (ps2_send s 0xee, true)
  else if data == 0xf2 then
    let s := ps2_send s 0xfa
    let s := ps2_send s 0xab
    let s := ps2_send s 0x83
    (s, true)
  else if data == 0xf3 || data == 0xed then
    ({ s with prev_ps2 := data }, false)
  else if data == 0xf4 then
    ({ s with kbd_enabled := true }, false)
  else if data == 0xf5 || data == 0xf6 then
    let s := { s with kbd_enabled := (data == 0xf6) }
    let s := { s with repeat_us := 35000 }
    let s := { s with delay_ms := 250 }
    let s := kbd_set_leds s 0
    (s, false)
  else
    (s, false)

/-- Lines 191-262 of `ps2_receive`: the command interpreter, run on a byte
`data` received with a good parity. -/
def ps2_command (s : State) (data : Nat) : State :=
  if s.prev_ps2 == 0xed then
    let s := { s with prev_ps2 := 0 }
    let s := kbd_set_leds s data
    ps2_send s 0xfa
  else if s.prev_ps2 == 0xf3 then
    let s := { s with prev_ps2 := 0 }
    let s := { s with repeat_us := data &&& 0x1f }
    let s := { s with delay_ms := data &&& 0x60 }
    let s := { s with repeat_us := (35000 + s.repeat_us * 15000) % 4294967296 }
    let s := if s.delay_ms == 0x00 then { s with delay_ms := 250 } else s
    let s := if s.delay_ms == 0x20 then { s with delay_ms := 500 } else s
    let s := if s.delay_ms == 0x40 then { s with delay_ms := 750 } else s
    let s := if s.delay_ms == 0x60 then { s with delay_ms := 1000 } else s
    ps2_send s 0xfa
  else
    let r := ps2_switch_data s data
    if r.2 then r.1 else ps2_send r.1 0xfa

/-- `ps2_receive()`. -/
def ps2_receive (s : State) : State :=
  let r := ps2_receive_frame s
  if r.2.2 == 0 then
    ps2_send r.1 0xfe
  else
    ps2_command r.1 r.2.1

/-- The byte assembled least significant bit first from 8 sampled bits. -/
def rx_byte (d0 d1 d2 d3 d4 d5 d6 d7 : Bool) : Nat :=
  d0.toNat + 2 * d1.toNat + 4 * d2.toNat + 8 * d3.toNat + 16 * d4.toNat + 32 * d5.toNat +
    64 * d6.toNat + 128 * d7.toNat

/-- The parity bit expected after 8 sampled data bits: 1 XOR their XOR. -/
def rx_parity (d0 d1 d2 d3 d4 d5 d6 d7 : Bool) : Bool :=
  xor (xor (xor (xor (xor (xor (xor (xor true d0) d1) d2) d3) d4) d5) d6) d7

/-- The state in which `ps2_receive` evaluates the received byte, after the
9 samples of the frame have been taken from `lines` and `rest` is left
(closed form, see `Receive.recv_frame_eq`). -/
def rx_done (s : State) (rest : List (Bool × Bool)) : State :=
  { s with lines := rest, irq_enabled := true, board_led := false,
           clocks := s.clocks + 11, wire := s.wire ++ [false], released := s.released + 1 }

/-- The delay selected by bits 5 and 6 of the typematic byte, as listed in the
specification: 0x00 gives 250 ms, 0x20 gives 500 ms, 0x40 gives 750 ms and
0x60 gives 1000 ms. -/
def typematic_delay (d : Nat) : Nat :=
  if d &&& 0x60 = 0x00 then 250
  else if d &&& 0x60 = 0x20 then 500
  else if d &&& 0x60 = 0x40 then 750
  else 1000

/-! ## HID report translator -/

/-- The modifier loop of `tuh_hid_report_received_cb` (lines 300-316): `n`
iterations left, loop variable `j`, shifted bytes `rbits` and `pbits`. -/
def mod_loop : Nat → State → Nat → Nat → Nat → State
  | 0, s, _, _, _ => s
  | n + 1, s, j, rbits, pbits =>
      let s :=
        if (rbits &&& 0x01) != (pbits &&& 0x01) then
          let s := if j > 2 && j != 5 then ps2_send s 0xe0 else s
          if (rbits &&& 0x01) != 0 then
            ps2_send s (mod2ps2.getD j 0)
          else
            let s := ps2_send s 0xf0
            ps2_send s (mod2ps2.getD j 0)
        else s
      mod_loop n s (j + 1) (rbits >>> 1) (pbits >>> 1)

/-- The bytes that the modifier loop hands to `ps2_send` (closed form of
`mod_loop`, see `Translate.mod_loop_calls`). -/
def mod_bytes : Nat → Nat → Nat → Nat → List Nat
  | 0, _, _, _ => []
  | n + 1, j, rbits, pbits =>
      (if (rbits &&& 0x01) != (pbits &&& 0x01) then
        (if j > 2 && j != 5 then [0xe0] else []) ++
          (if (rbits &&& 0x01) != 0 then [mod2ps2.getD j 0 % 256]
           else [0xf0, mod2ps2.getD j 0 % 256])
      else []) ++ mod_bytes n (j + 1) (rbits >>> 1) (pbits >>> 1)

/-- The two inner loops over `j = 2 .. 7` (lines 325-330 and 345-350): true
when `key` equals none of the key slots of `arr`. -/
def absent (key : Nat) (arr : List Nat) : Bool :=
  !(List.range' 2 6).any (fun j => key == arr.getD j 0)

/-- The break half of one iteration of the key loop (lines 322-340). The flag
of the result is true when the iteration ends in `continue`. The index of
every read of `hid2ps2` is logged in `reads`; a read at an index not below
116 is undefined in C, and its value is 0 here. -/
def key_break (s : State) (report : List Nat) (i : Nat) : State × Bool :=
  if s.prev_rpt.getD i 0 != 0 then
    let brk := absent (s.prev_rpt.getD i 0) report
    if brk && report.getD i 0 < maparray then
      if s.prev_rpt.getD i 0 == 0x48 then
        (s, true)
      else
        let s := { s with repeat_key := 0 }
        let s := maybe_send_e0 s (s.prev_rpt.getD i 0)
        let s := ps2_send s 0xf0
        let s := { s with reads := s.reads ++ [s.prev_rpt.getD i 0] }
        let s := ps2_send s (hid2ps2.getD (s.prev_rpt.getD i 0) 0)
        (s, false)
    else (s, false)
  else (s, false)

/-- The make half of one iteration of the key loop (lines 342-372). The flag
of the result is true when the iteration ends in `continue`. -/
def key_make (s : State) (report : List Nat) (i : Nat) : State × Bool :=
  if report.getD i 0 != 0 then
    let make := absent (report.getD i 0) s.prev_rpt
    if make && report.getD i 0 < maparray then
      if report.getD i 0 == 0x48 then
        if (report.getD 0 0 &&& 0x1) != 0 || (report.getD 0 0 &&& 0x10) != 0 then
          let s := ps2_send s 0xe0
          let s := ps2_send s 0x7e
          let s := ps2_send s 0xe0
          let s := ps2_send s 0xf0
          let s := ps2_send s 0x7e
          (s, true)
        else
          let s := ps2_send s 0xe1
          let s := ps2_send s 0x14
          let s := ps2_send s 0x77
          let s := ps2_send s 0xe1
          let s := ps2_send s 0xf0
          let s := ps2_send s 0x14
          let s := ps2_send s 0xf0
          let s := ps2_send s 0x77
          (s, true)
      else
        let s := { s with repeat_key := report.getD i 0 }
        let s := if s.repeater != 0 then cancel_alarm s s.repeater else s
        let r := add_alarm_in_ms s s.delay_ms Callback.repeat_callback
        let s := { r.1 with repeater := r.2 }
        let s := maybe_send_e0 s (report.getD i 0)
        let s := { s with reads := s.reads ++ [report.getD i 0] }
        let s := ps2_send s (hid2ps2.getD (report.getD i 0) 0)
        (s, false)
    else (s, false)
  else (s, false)

/-- One iteration of the key loop `for(i = 2; i < 8; i++)` (lines 322-374). -/
def key_slot (report : List Nat) (s : State) (i : Nat) : State :=
  let b := key_break s report i
  if b.2 then b.1 else
  let m := key_make b.1 report i
  if m.2 then m.1 else
  { m.1 with prev_rpt := m.1.prev_rpt.set i (report.getD i 0) }

/-- `tuh_hid_report_received_cb(dev_addr, instance, report, len)`; `report`
holds the bytes of the boot report. -/
def tuh_hid_report_received_cb (s : State) (dev_addr inst : Nat) (report : List Nat) : State :=
  if dev_addr == s.kbd_addr && inst == s.kbd_inst then
    if !s.kbd_enabled || report.getD 1 0 != 0 then
      tuh_hid_receive_report s
    else
      let s := board_led_write s true
      let s :=
        if report.getD 0 0 != s.prev_rpt.getD 0 0 then
          let s := mod_loop 8 s 0 (report.getD 0 0) (s.prev_rpt.getD 0 0)
          { s with prev_rpt := s.prev_rpt.set 0 (report.getD 0 0) }
        else s
      let s := (List.range' 2 6).foldl (key_slot report) s
      let s := board_led_write s false
      tuh_hid_receive_report s
  else s

/-! ## Callbacks and control loop -/

/-- `repeat_callback`: returns the state and the delay to the next firing. -/
def repeat_callback (s : State) : State × Nat :=
  if s.repeat_key != 0 then
    ({ s with repeating := true }, s.repeat_us)
  else
    ({ s with repeater := 0 }, 0)

/-- `blink_callback`: returns the state and the delay to the next firing. -/
def blink_callback (s : State) : State × Nat :=
  if s.kbd_addr != 0 then
    if s.blinking then
      let s := kbd_set_leds s 7
      ({ s with blinking := false }, 500000)
    else
      (kbd_set_leds s 0, 0)
  else (s, 0)

/-- `tuh_hid_mount_cb`; `is_keyboard` is the outcome of the protocol test. -/
def tuh_hid_mount_cb (s : State) (dev_addr inst : Nat) (is_keyboard : Bool) : State :=
  if is_keyboard then
    let s := { s with kbd_addr := dev_addr }
    let s := { s with kbd_inst := inst }
    let s := { s with blinking := true }
    let s := (add_alarm_in_ms s 1 Callback.blink_callback).1
    tuh_hid_receive_report s
  else s

/-- `tuh_hid_umount_cb`. -/
def tuh_hid_umount_cb (s : State) (dev_addr inst : Nat) : State :=
  if dev_addr == s.kbd_addr && inst == s.kbd_inst then
    { s with kbd_addr := 0, kbd_inst := 0 }
  else s

/-- `irq_callback`. -/
def irq_callback (s : State) : State :=
  if s.irq_enabled then
    let r := gpio_sample s
    if !r.1.2 then { r.2 with receiving := true } else r.2
  else s

/-- One turn of the `while(true)` loop of `main`, after `tuh_task()`. -/
def main_turn (s : State) : State :=
  let s := if s.receiving then ps2_receive { s with receiving := false } else s
  if s.repeating then
    let s := { s with repeating := false }
    if s.repeat_key != 0 then
      let s := maybe_send_e0 s s.repeat_key
      let s := { s with reads := s.reads ++ [s.repeat_key] }
      ps2_send s (hid2ps2.getD s.repeat_key 0)
    else s
  else s

/-! ## Reachable states -/

/-- Lines 294-319 of `tuh_hid_report_received_cb`: the state in which the key
loop starts (closed form, see `Reach.cb_eq_entry`). -/
def keys_entry (s : State) (report : List Nat) : State :=
  let s := board_led_write s true
  if report.getD 0 0 != s.prev_rpt.getD 0 0 then
    let s := mod_loop 8 s 0 (report.getD 0 0) (s.prev_rpt.getD 0 0)
    { s with prev_rpt := s.prev_rpt.set 0 (report.getD 0 0) }
  else s

/-- The states that the firmware reaches from its initial state, whatever the
host puts on the bus: by USB reports, by bytes of the host, by the mount and
unmount callbacks, by the alarm callbacks, by the interrupt handler and by
the turns of the control loop. -/
inductive Reachable : State → Prop where
  | start (lines : List (Bool × Bool)) : Reachable (init lines)
  | report (s : State) (dev_addr inst : Nat) (report : List Nat) :
      Reachable s → Reachable (tuh_hid_report_received_cb s dev_addr inst report)
  | command (s : State) : Reachable s → Reachable (ps2_receive s)
  | mount (s : State) (dev_addr inst : Nat) (is_keyboard : Bool) :
      Reachable s → Reachable (tuh_hid_mount_cb s dev_addr inst is_keyboard)
  | umount (s : State) (dev_addr inst : Nat) :
      Reachable s → Reachable (tuh_hid_umount_cb s dev_addr inst)
  | repeat_alarm (s : State) : Reachable s → Reachable (repeat_callback s).1
  | blink_alarm (s : State) : Reachable s → Reachable (blink_callback s).1
  | irq (s : State) : Reachable s → Reachable (irq_callback s)
  | turn (s : State) : Reachable s → Reachable (main_turn s)

/-- The invariant of the key state: no key slot of the snapshot holds Pause
(0x48), and `repeat` is 0 or a code below 116 other than Pause. -/
def NoPause (s : State) : Prop :=
  (∀ j, 2 ≤ j → j < 8 → s.prev_rpt.getD j 0 ≠ 0x48) ∧
  (s.repeat_key = 0 ∨ (s.repeat_key < 116 ∧ s.repeat_key ≠ 0x48))

/-- The states `a` and `b` have the same snapshot and the same `repeat`. -/
def SameKeys (a b : State) : Prop :=
  a.prev_rpt = b.prev_rpt ∧ a.repeat_key = b.repeat_key

/-! ## Predicates used by the proofs -/

namespace Send

/-- The fields that `ps2_send` never writes agree in `a` and `b`. -/
def Untouched (a b : State) : Prop :=
    a.kbd_enabled = b.kbd_enabled ∧
    a.kbd_addr = b.kbd_addr ∧
    a.kbd_inst = b.kbd_inst ∧
    a.blinking = b.blinking ∧
    a.receiving = b.receiving ∧
    a.repeating = b.repeating ∧
    a.repeat_us = b.repeat_us ∧
    a.delay_ms = b.delay_ms ∧
    a.repeater = b.repeater ∧
    a.prev_rpt = b.prev_rpt ∧
    a.prev_ps2 = b.prev_ps2 ∧
    a.repeat_key = b.repeat_key ∧
    a.released = b.released ∧
    a.led_calls = b.led_calls ∧
    a.usb_out = b.usb_out ∧
    a.alarms = b.alarms ∧
    a.cancelled = b.cancelled ∧
    a.board_led = b.board_led ∧
    a.rx_requests = b.rx_requests ∧
    a.reads = b.reads

end Send

namespace Translate

/-- On an idle bus the bytes transmitted since `s0` are the bytes handed to
`ps2_send` since `s0`, and the bus input is still used up. -/
def Sync (s0 s : State) : Prop :=
  s.lines = [] ∧ ∃ l, s.calls = s0.calls ++ l ∧ s.tx = s0.tx ++ l

end Translate

/-! ## Otrona keyboard output (`src/otronaphy.c`) -/

/-- Modelled from the spec: constant `HID_KEY_A` of the TinyUSB header
`class/hid/hid.h`, which is not among the sources (HID usage 0x04). -/
def HID_KEY_A : Nat := 0x04

/-- Modelled from the spec: constant `HID_KEY_SLASH` of the TinyUSB header
(HID usage 0x38). -/
def HID_KEY_SLASH : Nat := 0x38

/-- Modelled from the spec: constant `HID_KEY_CAPS_LOCK` of the TinyUSB header
(HID usage 0x39). -/
def HID_KEY_CAPS_LOCK : Nat := 0x39

/-- Modelled from the spec: constant `HID_KEY_DELETE` of the TinyUSB header
(HID usage 0x4C). -/
def HID_KEY_DELETE : Nat := 0x4c

/-- Modelled from the spec: constant `HID_KEY_END` of the TinyUSB header
(HID usage 0x4D). -/
def HID_KEY_END : Nat := 0x4d

/-- Modelled from the spec: constant `HID_KEY_ARROW_RIGHT` of the TinyUSB
header (HID usage 0x4F). -/
def HID_KEY_ARROW_RIGHT : Nat := 0x4f

/-- Modelled from the spec: constant `HID_KEY_ARROW_LEFT` of the TinyUSB
header (HID usage 0x50). -/
def HID_KEY_ARROW_LEFT : Nat := 0x50

/-- Modelled from the spec: constant `HID_KEY_ARROW_DOWN` of the TinyUSB
header (HID usage 0x51). -/
def HID_KEY_ARROW_DOWN : Nat := 0x51

/-- Modelled from the spec: constant `HID_KEY_ARROW_UP` of the TinyUSB header
(HID usage 0x52). -/
def HID_KEY_ARROW_UP : Nat := 0x52

/-- Modelled from the spec: constant `HID_KEY_6` of the TinyUSB header (HID
usage 0x23, the entry commented `6` of `hid2otrona`). -/
def HID_KEY_6 : Nat := 0x23

/-- Modelled from the spec: constant `HID_KEY_7` of the TinyUSB header (HID
usage 0x24). -/
def HID_KEY_7 : Nat := 0x24

/-- Modelled from the spec: constant `HID_KEY_8` of the TinyUSB header (HID
usage 0x25). -/
def HID_KEY_8 : Nat := 0x25

/-- Modelled from the spec: constant `HID_KEY_9` of the TinyUSB header (HID
usage 0x26). -/
def HID_KEY_9 : Nat := 0x26

/-- Modelled from the spec: constant `HID_KEY_0` of the TinyUSB header (HID
usage 0x27). -/
def HID_KEY_0 : Nat := 0x27

/-- Modelled from the spec: constant `KEYBOARD_MODIFIER_LEFTCTRL` of the
TinyUSB header (bit 0 of the modifier byte). -/
def KEYBOARD_MODIFIER_LEFTCTRL : Nat := 0x01

/-- Modelled from the spec: constant `KEYBOARD_MODIFIER_LEFTSHIFT` of the
TinyUSB header (bit 1 of the modifier byte). -/
def KEYBOARD_MODIFIER_LEFTSHIFT : Nat := 0x02

/-- Modelled from the spec: constant `KEYBOARD_MODIFIER_RIGHTCTRL` of the
TinyUSB header (bit 4 of the modifier byte). -/
def KEYBOARD_MODIFIER_RIGHTCTRL : Nat := 0x10

/-- Modelled from the spec: constant `KEYBOARD_MODIFIER_RIGHTSHIFT` of the
TinyUSB header (bit 5 of the modifier byte). -/
def KEYBOARD_MODIFIER_RIGHTSHIFT : Nat := 0x20

/-- Constant `INVALID_OTRONA_KEY`. -/
def INVALID_OTRONA_KEY : Nat := 0x03

/-- Table `hid2otrona`. -/
def hid2otrona : List Nat := [
  0x21, 0x22, 0x23, 0x24, 0x25, 0x26, 0x27,
  0x28, 0x29, 0x2a, 0x2b, 0x2c, 0x2d, 0x2e, 0x2f,
  0x30, 0x31, 0x32, 0x33, 0x34, 0x35, 0x36, 0x37,
  0x38, 0x39, 0x3a,
  0x11, 0x12, 0x13, 0x14, 0x15,
  0x16, 0x17, 0x18, 0x19, 0x10,
  0x05, 0x0b, 0x00, 0x01, 0x08, 0x3e, 0x1d,
  0x3b, 0x3d, 0x3c, INVALID_OTRONA_KEY, 0x1b, 0x1a,
  0x20, 0x1c, 0x1e, 0x1f]

/-- Lines 85-103 of `toOtrona`: the code of the key before the modifiers are
applied. -/
def toOtrona_base (key : Nat) : Nat :=
  if key >= HID_KEY_A && key <= HID_KEY_SLASH then hid2otrona.getD (key - HID_KEY_A) 0
  else if key == HID_KEY_DELETE then 0x3f
  else if key == HID_KEY_ARROW_RIGHT then 0x0d
  else if key == HID_KEY_ARROW_LEFT then 0x0c
  else if key == HID_KEY_ARROW_DOWN then 0x0f
  else if key == HID_KEY_ARROW_UP then 0x0e
  else if key == HID_KEY_END then 0x02
  else if key == HID_KEY_CAPS_LOCK then 0x07
  else INVALID_OTRONA_KEY

/-- Lines 109-128 of `toOtrona` with the two tests of the modifier byte
already evaluated: `noshift` is `!(modifiers & (LEFTSHIFT | RIGHTSHIFT))` and
`ctrl` is `modifiers & (LEFTCTRL | RIGHTCTRL)` (closed form, see
`Leds.toOtrona_eq`). -/
def toOtrona_mods (key otrona : Nat) (noshift ctrl : Bool) : Nat :=
  let otrona :=
    if noshift then
      (otrona ||| 0x80) % 256
    else
      if key == HID_KEY_6 then 0x10
      else if key == HID_KEY_7 then 0x16
      else if key == HID_KEY_8 then 0x17
      else if key == HID_KEY_9 then 0x18
      else if key == HID_KEY_0 then 0x19
      else otrona
  let otrona := if ctrl then (otrona ||| 0x40) % 256 else otrona
  otrona

/-- `toOtrona(key, modifiers)`; both arguments are `u8`. -/
def toOtrona (key modifiers : Nat) : Nat :=
  let otrona := toOtrona_base key
  if otrona == INVALID_OTRONA_KEY then
    otrona
  else
    let otrona :=
      if (modifiers &&& (KEYBOARD_MODIFIER_LEFTSHIFT ||| KEYBOARD_MODIFIER_RIGHTSHIFT)) == 0 then
        (otrona ||| 0x80) % 256
      else
        if key == HID_KEY_6 then 0x10
        else if key == HID_KEY_7 then 0x16
        else if key == HID_KEY_8 then 0x17
        else if key == HID_KEY_9 then 0x18
        else if key == HID_KEY_0 then 0x19
        else otrona
    let otrona :=
      if (modifiers &&& (KEYBOARD_MODIFIER_LEFTCTRL ||| KEYBOARD_MODIFIER_RIGHTCTRL)) != 0 then
        (otrona ||| 0x40) % 256
      else otrona
    otrona

/-! ## Frame codec: sending -/

namespace Send

theorem send_bits_eq (n : Nat) (s : State) (data parity : Nat) :
    ps2_send_bits n s data parity =
      ({ s with wire := s.wire ++ data_bits n data, clocks := s.clocks + n },
        data_parity n data parity) := by
  induction n generalizing s data parity with
  | zero => simp [ps2_send_bits, data_bits, data_parity]
  | succ n ih =>
    rw [ps2_send_bits, ih]
    simp [ps2_set_bit, ps2_cycle_clock, data_bits, data_parity]
    omega

theorem send_frame_eq (s : State) (data : Nat) :
    ps2_send_frame s data =
      { s with resend := data, irq_enabled := true, wire := s.wire ++ frame data,
               clocks := s.clocks + 11, tx := s.tx ++ [data] } := by
  simp [ps2_send_frame, send_bits_eq, ps2_set_bit, ps2_cycle_clock, frame]

theorem untouched_refl (s : State) : Untouched s s := by
  simp [Untouched]

theorem sample_nil (s : State) (h : s.lines = []) : gpio_sample s = ((true, true), s) := by
  simp [gpio_sample, h]

theorem sample_untouched (s : State) : Untouched (gpio_sample s).2 s := by
  unfold gpio_sample
  split <;> simp [Untouched]

theorem sample_calls (s : State) : (gpio_sample s).2.calls = s.calls := by
  unfold gpio_sample
  split <;> rfl

theorem sample_lines (s : State) : (gpio_sample s).2.lines = s.lines.tail := by
  unfold gpio_sample
  split <;> simp_all

theorem sample_eq (s : State) : (gpio_sample s).2 = { s with lines := s.lines.tail } := by
  cases s
  unfold gpio_sample
  split <;> simp_all

theorem loop_untouched (timeout : Nat) (s : State) (data : Nat) :
    Untouched (ps2_send_loop timeout s data) s ∧
      (ps2_send_loop timeout s data).calls = s.calls := by
  induction timeout generalizing s with
  | zero => simp [ps2_send_loop, Untouched]
  | succ n ih =>
    rw [ps2_send_loop]
    have hs := sample_untouched s
    have hc := sample_calls s
    simp only []
    split
    · rw [send_frame_eq]
      simp only [Untouched] at hs ⊢
      simp [hs, hc]
    · have h := ih { (gpio_sample s).2 with
          checks := (gpio_sample s).2.checks + 1, slept_ms := (gpio_sample s).2.slept_ms + 1 }
      simp only [Untouched] at hs h ⊢
      simp_all

theorem send_untouched (s : State) (data : Nat) : Untouched (ps2_send s data) s := by
  have h := (loop_untouched 100 { s with calls := s.calls ++ [data % 256] } (data % 256)).1
  simpa [ps2_send, Untouched] using h

@[simp] theorem send_kbd_enabled (s : State) (data : Nat) :
    (ps2_send s data).kbd_enabled = s.kbd_enabled := by
  have h := send_untouched s data
  simp only [Untouched] at h
  simp [h]

@[simp] theorem send_kbd_addr (s : State) (data : Nat) :
    (ps2_send s data).kbd_addr = s.kbd_addr := by
  have h := send_untouched s data
  simp only [Untouched] at h
  simp [h]

@[simp] theorem send_kbd_inst (s : State) (data : Nat) :
    (ps2_send s data).kbd_inst = s.kbd_inst := by
  have h := send_untouched s data
  simp only [Untouched] at h
  simp [h]

@[simp] theorem send_blinking (s : State) (data : Nat) :
    (ps2_send s data).blinking = s.blinking := by
  have h := send_untouched s data
  simp only [Untouched] at h
  simp [h]

@[simp] theorem send_receiving (s : State) (data : Nat) :
    (ps2_send s data).receiving = s.receiving := by
  have h := send_untouched s data
  simp only [Untouched] at h
  simp [h]

@[simp] theorem send_repeating (s : State) (data : Nat) :
    (ps2_send s data).repeating = s.repeating := by
  have h := send_untouched s data
  simp only [Untouched] at h
  simp [h]

@[simp] theorem send_repeat_us (s : State) (data : Nat) :
    (ps2_send s data).repeat_us = s.repeat_us := by
  have h := send_untouched s data
  simp only [Untouched] at h
  simp [h]

@[simp] theorem send_delay_ms (s : State) (data : Nat) :
    (ps2_send s data).delay_ms = s.delay_ms := by
  have h := send_untouched s data
  simp only [Untouched] at h
  simp [h]

@[simp] theorem send_repeater (s : State) (data : Nat) :
    (ps2_send s data).repeater = s.repeater := by
  have h := send_untouched s data
  simp only [Untouched] at h
  simp [h]

@[simp] theorem send_prev_rpt (s : State) (data : Nat) :
    (ps2_send s data).prev_rpt = s.prev_rpt := by
  have h := send_untouched s data
  simp only [Untouched] at h
  simp [h]

@[simp] theorem send_prev_ps2 (s : State) (data : Nat) :
    (ps2_send s data).prev_ps2 = s.prev_ps2 := by
  have h := send_untouched s data
  simp only [Untouched] at h
  simp [h]

@[simp] theorem send_repeat_key (s : State) (data : Nat) :
    (ps2_send s data).repeat_key = s.repeat_key := by
  have h := send_untouched s data
  simp only [Untouched] at h
  simp [h]

@[simp] theorem send_released (s : State) (data : Nat) :
    (ps2_send s data).released = s.released := by
  have h := send_untouched s data
  simp only [Untouched] at h
  simp [h]

@[simp] theorem send_led_calls (s : State) (data : Nat) :
    (ps2_send s data).led_calls = s.led_calls := by
  have h := send_untouched s data
  simp only [Untouched] at h
  simp [h]

@[simp] theorem send_usb_out (s : State) (data : Nat) :
    (ps2_send s data).usb_out = s.usb_out := by
  have h := send_untouched s data
  simp only [Untouched] at h
  simp [h]

@[simp] theorem send_alarms (s : State) (data : Nat) :
    (ps2_send s data).alarms = s.alarms := by
  have h := send_untouched s data
  simp only [Untouched] at h
  simp [h]

@[simp] theorem send_cancelled (s : State) (data : Nat) :
    (ps2_send s data).cancelled = s.cancelled := by
  have h := send_untouched s data
  simp only [Untouched] at h
  simp [h]

@[simp] theorem send_board_led (s : State) (data : Nat) :
    (ps2_send s data).board_led = s.board_led := by
  have h := send_untouched s data
  simp only [Untouched] at h
  simp [h]

@[simp] theorem send_rx_requests (s : State) (data : Nat) :
    (ps2_send s data).rx_requests = s.rx_requests := by
  have h := send_untouched s data
  simp only [Untouched] at h
  simp [h]

@[simp] theorem send_reads (s : State) (data : Nat) :
    (ps2_send s data).reads = s.reads := by
  have h := send_untouched s data
  simp only [Untouched] at h
  simp [h]

@[simp] theorem send_calls (s : State) (data : Nat) :
    (ps2_send s data).calls = s.calls ++ [data % 256] := by
  have h := (loop_untouched 100 { s with calls := s.calls ++ [data % 256] } (data % 256)).2
  simpa [ps2_send] using h

theorem loop_first_idle (timeout : Nat) (s : State) (data : Nat)
    (h : (gpio_sample s).1 = (true, true)) :
    ps2_send_loop (timeout + 1) s data =
      { s with resend := data, irq_enabled := true, wire := s.wire ++ frame data,
               clocks := s.clocks + 11, tx := s.tx ++ [data], checks := s.checks + 1,
               lines := s.lines.tail } := by
  rw [ps2_send_loop]
  simp only [h, Bool.and_self, if_true, send_frame_eq, sample_eq]

theorem send_first_idle (s : State) (data : Nat) (h : (gpio_sample s).1 = (true, true)) :
    ps2_send s data = { sent_ok s (data % 256) with lines := s.lines.tail } := by
  have h1 : (gpio_sample { s with calls := s.calls ++ [data % 256] }).1 = (true, true) := by
    revert h
    unfold gpio_sample
    simp only []
    split <;> simp_all
  unfold ps2_send
  simp only []
  rw [show (100 : Nat) = 99 + 1 from rfl, loop_first_idle _ _ _ h1]
  simp [sent_ok]

theorem send_idle (s : State) (data : Nat) (h : s.lines = []) :
    ps2_send s data = sent_ok s (data % 256) := by
  rw [send_first_idle s data (by simp [sample_nil s h])]
  simp [sent_ok, h]

theorem loop_tx_cases (timeout : Nat) (s : State) (data : Nat) :
    (ps2_send_loop timeout s data).tx = s.tx ∨
      (ps2_send_loop timeout s data).tx = s.tx ++ [data] := by
  induction timeout generalizing s with
  | zero => simp [ps2_send_loop]
  | succ n ih =>
    rw [ps2_send_loop]
    simp only []
    split
    · right
      rw [send_frame_eq, sample_eq]
    · have h := ih { (gpio_sample s).2 with
          checks := (gpio_sample s).2.checks + 1, slept_ms := (gpio_sample s).2.slept_ms + 1 }
      rw [sample_eq] at h
      rw [sample_eq]
      exact h

theorem send_tx_cases (s : State) (data : Nat) :
    (ps2_send s data).tx = s.tx ∨ (ps2_send s data).tx = s.tx ++ [data % 256] :=
  loop_tx_cases 100 { s with calls := s.calls ++ [data % 256] } (data % 256)

set_option maxRecDepth 100000 in
theorem frame_bits_eq : ∀ B : Nat, B < 256 →
    frame B = [false, B.testBit 0, B.testBit 1, B.testBit 2, B.testBit 3, B.testBit 4,
      B.testBit 5, B.testBit 6, B.testBit 7, parity_bit B, true] := by
  decide

set_option maxRecDepth 100000 in
theorem frame_odd : ∀ B : Nat, B < 256 →
    ([B.testBit 0, B.testBit 1, B.testBit 2, B.testBit 3, B.testBit 4,
      B.testBit 5, B.testBit 6, B.testBit 7, parity_bit B].count true) % 2 = 1 := by
  decide

/-- C1. For every byte `B`, when clock and data both read idle at the first
check, `ps2_send B` hands exactly 11 bits to `ps2_set_bit`: the start bit 0,
bit 0 to bit 7 of `B`, the parity bit 1 XOR bit0 XOR ... XOR bit7, and the
stop bit 1; the 8 data bits and the parity bit hold an odd number of ones;
afterwards `resend` is `B` and `irq_enabled` is true. -/
theorem ps2_send_emits_frame (s : State) (B : Nat) (hB : B < 256)
    (hidle : (gpio_sample s).1 = (true, true)) :
    (ps2_send s B).wire = s.wire ++
      [false, B.testBit 0, B.testBit 1, B.testBit 2, B.testBit 3, B.testBit 4,
        B.testBit 5, B.testBit 6, B.testBit 7, parity_bit B, true] ∧
    ([B.testBit 0, B.testBit 1, B.testBit 2, B.testBit 3, B.testBit 4,
        B.testBit 5, B.testBit 6, B.testBit 7, parity_bit B].count true) % 2 = 1 ∧
    (ps2_send s B).resend = B ∧
    (ps2_send s B).irq_enabled = true ∧
    (ps2_send s B).tx = s.tx ++ [B] := by
  have hm : B % 256 = B := Nat.mod_eq_of_lt hB
  rw [send_first_idle s B hidle, hm]
  refine ⟨?_, frame_odd B hB, rfl, rfl, rfl⟩
  simp [sent_ok, frame_bits_eq B hB]

/-- Witness of C1: the byte 0xA5 sent from the initial state on an idle bus. -/
theorem ps2_send_emits_frame_witness :
    (0xA5 < 256 ∧ (gpio_sample (init [])).1 = (true, true)) ∧
    (ps2_send (init []) 0xA5).wire =
      [false, true, false, true, false, false, true, false, true, true, true] :=
  ⟨⟨by decide, rfl⟩, (ps2_send_emits_frame (init []) 0xA5 (by decide) rfl).1⟩

end Send

/-! ## Projections of the closed forms -/

namespace Proj

theorem kbd_set_leds_eq (s : State) (data : Nat) :
    kbd_set_leds s data =
      { s with led_calls := s.led_calls ++ [data], usb_out := s.usb_out ++ [led_value data] } := by
  unfold kbd_set_leds led_value tuh_hid_set_report
  simp only []
  split_ifs <;> rfl

@[simp] theorem sent_ok_irq_enabled (s : State) (data : Nat) :
    (sent_ok s data).irq_enabled = true := rfl

@[simp] theorem sent_ok_kbd_enabled (s : State) (data : Nat) :
    (sent_ok s data).kbd_enabled = s.kbd_enabled := rfl

@[simp] theorem sent_ok_kbd_addr (s : State) (data : Nat) :
    (sent_ok s data).kbd_addr = s.kbd_addr := rfl

@[simp] theorem sent_ok_kbd_inst (s : State) (data : Nat) :
    (sent_ok s data).kbd_inst = s.kbd_inst := rfl

@[simp] theorem sent_ok_blinking (s : State) (data : Nat) :
    (sent_ok s data).blinking = s.blinking := rfl

@[simp] theorem sent_ok_receiving (s : State) (data : Nat) :
    (sent_ok s data).receiving = s.receiving := rfl

@[simp] theorem sent_ok_repeating (s : State) (data : Nat) :
    (sent_ok s data).repeating = s.repeating := rfl

@[simp] theorem sent_ok_repeat_us (s : State) (data : Nat) :
    (sent_ok s data).repeat_us = s.repeat_us := rfl

@[simp] theorem sent_ok_delay_ms (s : State) (data : Nat) :
    (sent_ok s data).delay_ms = s.delay_ms := rfl

@[simp] theorem sent_ok_repeater (s : State) (data : Nat) :
    (sent_ok s data).repeater = s.repeater := rfl

@[simp] theorem sent_ok_prev_rpt (s : State) (data : Nat) :
    (sent_ok s data).prev_rpt = s.prev_rpt := rfl

@[simp] theorem sent_ok_prev_ps2 (s : State) (data : Nat) :
    (sent_ok s data).prev_ps2 = s.prev_ps2 := rfl

@[simp] theorem sent_ok_resend (s : State) (data : Nat) :
    (sent_ok s data).resend = data := rfl

@[simp] theorem sent_ok_repeat_key (s : State) (data : Nat) :
    (sent_ok s data).repeat_key = s.repeat_key := rfl

@[simp] theorem sent_ok_lines (s : State) (data : Nat) :
    (sent_ok s data).lines = s.lines := rfl

@[simp] theorem sent_ok_released (s : State) (data : Nat) :
    (sent_ok s data).released = s.released := rfl

@[simp] theorem sent_ok_wire (s : State) (data : Nat) :
    (sent_ok s data).wire = s.wire ++ frame data := rfl

@[simp] theorem sent_ok_clocks (s : State) (data : Nat) :
    (sent_ok s data).clocks = s.clocks + 11 := rfl

@[simp] theorem sent_ok_calls (s : State) (data : Nat) :
    (sent_ok s data).calls = s.calls ++ [data] := rfl

@[simp] theorem sent_ok_tx (s : State) (data : Nat) :
    (sent_ok s data).tx = s.tx ++ [data] := rfl

@[simp] theorem sent_ok_slept_ms (s : State) (data : Nat) :
    (sent_ok s data).slept_ms = s.slept_ms := rfl

@[simp] theorem sent_ok_checks (s : State) (data : Nat) :
    (sent_ok s data).checks = s.checks + 1 := rfl

@[simp] theorem sent_ok_led_calls (s : State) (data : Nat) :
    (sent_ok s data).led_calls = s.led_calls := rfl

@[simp] theorem sent_ok_usb_out (s : State) (data : Nat) :
    (sent_ok s data).usb_out = s.usb_out := rfl

@[simp] theorem sent_ok_alarms (s : State) (data : Nat) :
    (sent_ok s data).alarms = s.alarms := rfl

@[simp] theorem sent_ok_cancelled (s : State) (data : Nat) :
    (sent_ok s data).cancelled = s.cancelled := rfl

@[simp] theorem sent_ok_board_led (s : State) (data : Nat) :
    (sent_ok s data).board_led = s.board_led := rfl

@[simp] theorem sent_ok_rx_requests (s : State) (data : Nat) :
    (sent_ok s data).rx_requests = s.rx_requests := rfl

@[simp] theorem sent_ok_reads (s : State) (data : Nat) :
    (sent_ok s data).reads = s.reads := rfl

@[simp] theorem rx_done_irq_enabled (s : State) (rest : List (Bool × Bool)) :
    (rx_done s rest).irq_enabled = true := rfl

@[simp] theorem rx_done_kbd_enabled (s : State) (rest : List (Bool × Bool)) :
    (rx_done s rest).kbd_enabled = s.kbd_enabled := rfl

@[simp] theorem rx_done_kbd_addr (s : State) (rest : List (Bool × Bool)) :
    (rx_done s rest).kbd_addr = s.kbd_addr := rfl

@[simp] theorem rx_done_kbd_inst (s : State) (rest : List (Bool × Bool)) :
    (rx_done s rest).kbd_inst = s.kbd_inst := rfl

@[simp] theorem rx_done_blinking (s : State) (rest : List (Bool × Bool)) :
    (rx_done s rest).blinking = s.blinking := rfl

@[simp] theorem rx_done_receiving (s : State) (rest : List (Bool × Bool)) :
    (rx_done s rest).receiving = s.receiving := rfl

@[simp] theorem rx_done_repeating (s : State) (rest : List (Bool × Bool)) :
    (rx_done s rest).repeating = s.repeating := rfl

@[simp] theorem rx_done_repeat_us (s : State) (rest : List (Bool × Bool)) :
    (rx_done s rest).repeat_us = s.repeat_us := rfl

@[simp] theorem rx_done_delay_ms (s : State) (rest : List (Bool × Bool)) :
    (rx_done s rest).delay_ms = s.delay_ms := rfl

@[simp] theorem rx_done_repeater (s : State) (rest : List (Bool × Bool)) :
    (rx_done s rest).repeater = s.repeater := rfl

@[simp] theorem rx_done_prev_rpt (s : State) (rest : List (Bool × Bool)) :
    (rx_done s rest).prev_rpt = s.prev_rpt := rfl

@[simp] theorem rx_done_prev_ps2 (s : State) (rest : List (Bool × Bool)) :
    (rx_done s rest).prev_ps2 = s.prev_ps2 := rfl

@[simp] theorem rx_done_resend (s : State) (rest : List (Bool × Bool)) :
    (rx_done s rest).resend = s.resend := rfl

@[simp] theorem rx_done_repeat_key (s : State) (rest : List (Bool × Bool)) :
    (rx_done s rest).repeat_key = s.repeat_key := rfl

@[simp] theorem rx_done_lines (s : State) (rest : List (Bool × Bool)) :
    (rx_done s rest).lines = rest := rfl

@[simp] theorem rx_done_released (s : State) (rest : List (Bool × Bool)) :
    (rx_done s rest).released = s.released + 1 := rfl

@[simp] theorem rx_done_wire (s : State) (rest : List (Bool × Bool)) :
    (rx_done s rest).wire = s.wire ++ [false] := rfl

@[simp] theorem rx_done_clocks (s : State) (rest : List (Bool × Bool)) :
    (rx_done s rest).clocks = s.clocks + 11 := rfl

@[simp] theorem rx_done_calls (s : State) (rest : List (Bool × Bool)) :
    (rx_done s rest).calls = s.calls := rfl

@[simp] theorem rx_done_tx (s : State) (rest : List (Bool × Bool)) :
    (rx_done s rest).tx = s.tx := rfl

@[simp] theorem rx_done_slept_ms (s : State) (rest : List (Bool × Bool)) :
    (rx_done s rest).slept_ms = s.slept_ms := rfl

@[simp] theorem rx_done_checks (s : State) (rest : List (Bool × Bool)) :
    (rx_done s rest).checks = s.checks := rfl

@[simp] theorem rx_done_led_calls (s : State) (rest : List (Bool × Bool)) :
    (rx_done s rest).led_calls = s.led_calls := rfl

@[simp] theorem rx_done_usb_out (s : State) (rest : List (Bool × Bool)) :
    (rx_done s rest).usb_out = s.usb_out := rfl

@[simp] theorem rx_done_alarms (s : State) (rest : List (Bool × Bool)) :
    (rx_done s rest).alarms = s.alarms := rfl

@[simp] theorem rx_done_cancelled (s : State) (rest : List (Bool × Bool)) :
    (rx_done s rest).cancelled = s.cancelled := rfl

@[simp] theorem rx_done_board_led (s : State) (rest : List (Bool × Bool)) :
    (rx_done s rest).board_led = false := rfl

@[simp] theorem rx_done_rx_requests (s : State) (rest : List (Bool × Bool)) :
    (rx_done s rest).rx_requests = s.rx_requests := rfl

@[simp] theorem rx_done_reads (s : State) (rest : List (Bool × Bool)) :
    (rx_done s rest).reads = s.reads := rfl

theorem sample_idle_of_lines (s : State) (rest : List (Bool × Bool))
    (h : s.lines = (true, true) :: rest) : (gpio_sample s).1 = (true, true) := by
  simp [gpio_sample, h]

theorem send_tx_first_idle (s : State) (data : Nat) (h : (gpio_sample s).1 = (true, true)) :
    (ps2_send s data).tx = s.tx ++ [data % 256] := by
  rw [Send.send_first_idle s data h]
  rfl

theorem send_lines_first_idle (s : State) (data : Nat) (h : (gpio_sample s).1 = (true, true)) :
    (ps2_send s data).lines = s.lines.tail := by
  rw [Send.send_first_idle s data h]

@[simp] theorem kbd_set_leds_irq_enabled (s : State) (data : Nat) :
    (kbd_set_leds s data).irq_enabled = s.irq_enabled := by
  rw [kbd_set_leds_eq]

@[simp] theorem kbd_set_leds_kbd_enabled (s : State) (data : Nat) :
    (kbd_set_leds s data).kbd_enabled = s.kbd_enabled := by
  rw [kbd_set_leds_eq]

@[simp] theorem kbd_set_leds_kbd_addr (s : State) (data : Nat) :
    (kbd_set_leds s data).kbd_addr = s.kbd_addr := by
  rw [kbd_set_leds_eq]

@[simp] theorem kbd_set_leds_kbd_inst (s : State) (data : Nat) :
    (kbd_set_leds s data).kbd_inst = s.kbd_inst := by
  rw [kbd_set_leds_eq]

@[simp] theorem kbd_set_leds_blinking (s : State) (data : Nat) :
    (kbd_set_leds s data).blinking = s.blinking := by
  rw [kbd_set_leds_eq]

@[simp] theorem kbd_set_leds_receiving (s : State) (data : Nat) :
    (kbd_set_leds s data).receiving = s.receiving := by
  rw [kbd_set_leds_eq]

@[simp] theorem kbd_set_leds_repeating (s : State) (data : Nat) :
    (kbd_set_leds s data).repeating = s.repeating := by
  rw [kbd_set_leds_eq]

@[simp] theorem kbd_set_leds_repeat_us (s : State) (data : Nat) :
    (kbd_set_leds s data).repeat_us = s.repeat_us := by
  rw [kbd_set_leds_eq]

@[simp] theorem kbd_set_leds_delay_ms (s : State) (data : Nat) :
    (kbd_set_leds s data).delay_ms = s.delay_ms := by
  rw [kbd_set_leds_eq]

@[simp] theorem kbd_set_leds_repeater (s : State) (data : Nat) :
    (kbd_set_leds s data).repeater = s.repeater := by
  rw [kbd_set_leds_eq]

@[simp] theorem kbd_set_leds_prev_rpt (s : State) (data : Nat) :
    (kbd_set_leds s data).prev_rpt = s.prev_rpt := by
  rw [kbd_set_leds_eq]

@[simp] theorem kbd_set_leds_prev_ps2 (s : State) (data : Nat) :
    (kbd_set_leds s data).prev_ps2 = s.prev_ps2 := by
  rw [kbd_set_leds_eq]

@[simp] theorem kbd_set_leds_resend (s : State) (data : Nat) :
    (kbd_set_leds s data).resend = s.resend := by
  rw [kbd_set_leds_eq]

@[simp] theorem kbd_set_leds_repeat_key (s : State) (data : Nat) :
    (kbd_set_leds s data).repeat_key = s.repeat_key := by
  rw [kbd_set_leds_eq]

@[simp] theorem kbd_set_leds_lines (s : State) (data : Nat) :
    (kbd_set_leds s data).lines = s.lines := by
  rw [kbd_set_leds_eq]

@[simp] theorem kbd_set_leds_released (s : State) (data : Nat) :
    (kbd_set_leds s data).released = s.released := by
  rw [kbd_set_leds_eq]

@[simp] theorem kbd_set_leds_wire (s : State) (data : Nat) :
    (kbd_set_leds s data).wire = s.wire := by
  rw [kbd_set_leds_eq]

@[simp] theorem kbd_set_leds_clocks (s : State) (data : Nat) :
    (kbd_set_leds s data).clocks = s.clocks := by
  rw [kbd_set_leds_eq]

@[simp] theorem kbd_set_leds_calls (s : State) (data : Nat) :
    (kbd_set_leds s data).calls = s.calls := by
  rw [kbd_set_leds_eq]

@[simp] theorem kbd_set_leds_tx (s : State) (data : Nat) :
    (kbd_set_leds s data).tx = s.tx := by
  rw [kbd_set_leds_eq]

@[simp] theorem kbd_set_leds_slept_ms (s : State) (data : Nat) :
    (kbd_set_leds s data).slept_ms = s.slept_ms := by
  rw [kbd_set_leds_eq]

@[simp] theorem kbd_set_leds_checks (s : State) (data : Nat) :
    (kbd_set_leds s data).checks = s.checks := by
  rw [kbd_set_leds_eq]

@[simp] theorem kbd_set_leds_led_calls (s : State) (data : Nat) :
    (kbd_set_leds s data).led_calls = s.led_calls ++ [data] := by
  rw [kbd_set_leds_eq]

@[simp] theorem kbd_set_leds_usb_out (s : State) (data : Nat) :
    (kbd_set_leds s data).usb_out = s.usb_out ++ [led_value data] := by
  rw [kbd_set_leds_eq]

@[simp] theorem kbd_set_leds_alarms (s : State) (data : Nat) :
    (kbd_set_leds s data).alarms = s.alarms := by
  rw [kbd_set_leds_eq]

@[simp] theorem kbd_set_leds_cancelled (s : State) (data : Nat) :
    (kbd_set_leds s data).cancelled = s.cancelled := by
  rw [kbd_set_leds_eq]

@[simp] theorem kbd_set_leds_board_led (s : State) (data : Nat) :
    (kbd_set_leds s data).board_led = s.board_led := by
  rw [kbd_set_leds_eq]

@[simp] theorem kbd_set_leds_rx_requests (s : State) (data : Nat) :
    (kbd_set_leds s data).rx_requests = s.rx_requests := by
  rw [kbd_set_leds_eq]

@[simp] theorem kbd_set_leds_reads (s : State) (data : Nat) :
    (kbd_set_leds s data).reads = s.reads := by
  rw [kbd_set_leds_eq]

@[simp] theorem led_write_irq_enabled (s : State) (level : Bool) :
    (board_led_write s level).irq_enabled = s.irq_enabled := rfl

@[simp] theorem led_write_kbd_enabled (s : State) (level : Bool) :
    (board_led_write s level).kbd_enabled = s.kbd_enabled := rfl

@[simp] theorem led_write_kbd_addr (s : State) (level : Bool) :
    (board_led_write s level).kbd_addr = s.kbd_addr := rfl

@[simp] theorem led_write_kbd_inst (s : State) (level : Bool) :
    (board_led_write s level).kbd_inst = s.kbd_inst := rfl

@[simp] theorem led_write_blinking (s : State) (level : Bool) :
    (board_led_write s level).blinking = s.blinking := rfl

@[simp] theorem led_write_receiving (s : State) (level : Bool) :
    (board_led_write s level).receiving = s.receiving := rfl

@[simp] theorem led_write_repeating (s : State) (level : Bool) :
    (board_led_write s level).repeating = s.repeating := rfl

@[simp] theorem led_write_repeat_us (s : State) (level : Bool) :
    (board_led_write s level).repeat_us = s.repeat_us := rfl

@[simp] theorem led_write_delay_ms (s : State) (level : Bool) :
    (board_led_write s level).delay_ms = s.delay_ms := rfl

@[simp] theorem led_write_repeater (s : State) (level : Bool) :
    (board_led_write s level).repeater = s.repeater := rfl

@[simp] theorem led_write_prev_rpt (s : State) (level : Bool) :
    (board_led_write s level).prev_rpt = s.prev_rpt := rfl

@[simp] theorem led_write_prev_ps2 (s : State) (level : Bool) :
    (board_led_write s level).prev_ps2 = s.prev_ps2 := rfl

@[simp] theorem led_write_resend (s : State) (level : Bool) :
    (board_led_write s level).resend = s.resend := rfl

@[simp] theorem led_write_repeat_key (s : State) (level : Bool) :
    (board_led_write s level).repeat_key = s.repeat_key := rfl

@[simp] theorem led_write_lines (s : State) (level : Bool) :
    (board_led_write s level).lines = s.lines := rfl

@[simp] theorem led_write_released (s : State) (level : Bool) :
    (board_led_write s level).released = s.released := rfl

@[simp] theorem led_write_wire (s : State) (level : Bool) :
    (board_led_write s level).wire = s.wire := rfl

@[simp] theorem led_write_clocks (s : State) (level : Bool) :
    (board_led_write s level).clocks = s.clocks := rfl

@[simp] theorem led_write_calls (s : State) (level : Bool) :
    (board_led_write s level).calls = s.calls := rfl

@[simp] theorem led_write_tx (s : State) (level : Bool) :
    (board_led_write s level).tx = s.tx := rfl

@[simp] theorem led_write_slept_ms (s : State) (level : Bool) :
    (board_led_write s level).slept_ms = s.slept_ms := rfl

@[simp] theorem led_write_checks (s : State) (level : Bool) :
    (board_led_write s level).checks = s.checks := rfl

@[simp] theorem led_write_led_calls (s : State) (level : Bool) :
    (board_led_write s level).led_calls = s.led_calls := rfl

@[simp] theorem led_write_usb_out (s : State) (level : Bool) :
    (board_led_write s level).usb_out = s.usb_out := rfl

@[simp] theorem led_write_alarms (s : State) (level : Bool) :
    (board_led_write s level).alarms = s.alarms := rfl

@[simp] theorem led_write_cancelled (s : State) (level : Bool) :
    (board_led_write s level).cancelled = s.cancelled := rfl

@[simp] theorem led_write_board_led (s : State) (level : Bool) :
    (board_led_write s level).board_led = level := rfl

@[simp] theorem led_write_rx_requests (s : State) (level : Bool) :
    (board_led_write s level).rx_requests = s.rx_requests := rfl

@[simp] theorem led_write_reads (s : State) (level : Bool) :
    (board_led_write s level).reads = s.reads := rfl

@[simp] theorem tuh_rx_irq_enabled (s : State) :
    (tuh_hid_receive_report s).irq_enabled = s.irq_enabled := rfl

@[simp] theorem tuh_rx_kbd_enabled (s : State) :
    (tuh_hid_receive_report s).kbd_enabled = s.kbd_enabled := rfl

@[simp] theorem tuh_rx_kbd_addr (s : State) :
    (tuh_hid_receive_report s).kbd_addr = s.kbd_addr := rfl

@[simp] theorem tuh_rx_kbd_inst (s : State) :
    (tuh_hid_receive_report s).kbd_inst = s.kbd_inst := rfl

@[simp] theorem tuh_rx_blinking (s : State) :
    (tuh_hid_receive_report s).blinking = s.blinking := rfl

@[simp] theorem tuh_rx_receiving (s : State) :
    (tuh_hid_receive_report s).receiving = s.receiving := rfl

@[simp] theorem tuh_rx_repeating (s : State) :
    (tuh_hid_receive_report s).repeating = s.repeating := rfl

@[simp] theorem tuh_rx_repeat_us (s : State) :
    (tuh_hid_receive_report s).repeat_us = s.repeat_us := rfl

@[simp] theorem tuh_rx_delay_ms (s : State) :
    (tuh_hid_receive_report s).delay_ms = s.delay_ms := rfl

@[simp] theorem tuh_rx_repeater (s : State) :
    (tuh_hid_receive_report s).repeater = s.repeater := rfl

@[simp] theorem tuh_rx_prev_rpt (s : State) :
    (tuh_hid_receive_report s).prev_rpt = s.prev_rpt := rfl

@[simp] theorem tuh_rx_prev_ps2 (s : State) :
    (tuh_hid_receive_report s).prev_ps2 = s.prev_ps2 := rfl

@[simp] theorem tuh_rx_resend (s : State) :
    (tuh_hid_receive_report s).resend = s.resend := rfl

@[simp] theorem tuh_rx_repeat_key (s : State) :
    (tuh_hid_receive_report s).repeat_key = s.repeat_key := rfl

@[simp] theorem tuh_rx_lines (s : State) :
    (tuh_hid_receive_report s).lines = s.lines := rfl

@[simp] theorem tuh_rx_released (s : State) :
    (tuh_hid_receive_report s).released = s.released := rfl

@[simp] theorem tuh_rx_wire (s : State) :
    (tuh_hid_receive_report s).wire = s.wire := rfl

@[simp] theorem tuh_rx_clocks (s : State) :
    (tuh_hid_receive_report s).clocks = s.clocks := rfl

@[simp] theorem tuh_rx_calls (s : State) :
    (tuh_hid_receive_report s).calls = s.calls := rfl

@[simp] theorem tuh_rx_tx (s : State) :
    (tuh_hid_receive_report s).tx = s.tx := rfl

@[simp] theorem tuh_rx_slept_ms (s : State) :
    (tuh_hid_receive_report s).slept_ms = s.slept_ms := rfl

@[simp] theorem tuh_rx_checks (s : State) :
    (tuh_hid_receive_report s).checks = s.checks := rfl

@[simp] theorem tuh_rx_led_calls (s : State) :
    (tuh_hid_receive_report s).led_calls = s.led_calls := rfl

@[simp] theorem tuh_rx_usb_out (s : State) :
    (tuh_hid_receive_report s).usb_out = s.usb_out := rfl

@[simp] theorem tuh_rx_alarms (s : State) :
    (tuh_hid_receive_report s).alarms = s.alarms := rfl

@[simp] theorem tuh_rx_cancelled (s : State) :
    (tuh_hid_receive_report s).cancelled = s.cancelled := rfl

@[simp] theorem tuh_rx_board_led (s : State) :
    (tuh_hid_receive_report s).board_led = s.board_led := rfl

@[simp] theorem tuh_rx_rx_requests (s : State) :
    (tuh_hid_receive_report s).rx_requests = s.rx_requests + 1 := rfl

@[simp] theorem tuh_rx_reads (s : State) :
    (tuh_hid_receive_report s).reads = s.reads := rfl

end Proj

/-! ## Frame codec: receiving -/

namespace Receive

theorem bits_step (fuel : Nat) (s : State) (bit bit2 data parity : Nat) (c d : Bool)
    (rest : List (Bool × Bool)) (k : Nat) (hb : bit < 0x100)
    (h2 : (bit <<< 1) % 65536 = bit2) :
    ps2_receive_bits (fuel + 1) { s with lines := (c, d) :: rest, clocks := k } bit data parity =
      ps2_receive_bits fuel { s with lines := rest, clocks := k + 1 }
        bit2 (if d then (data ||| bit) % 256 else data)
        (if d then parity ^^^ 1 else parity ^^^ 0) := by
  rw [ps2_receive_bits]
  simp [hb, gpio_sample, ps2_cycle_clock, h2]

theorem recv_bits_eq (n : Nat) (s : State) (c0 c1 c2 c3 c4 c5 c6 c7 d0 d1 d2 d3 d4 d5 d6 d7 : Bool)
    (rest : List (Bool × Bool)) (k : Nat) :
    ps2_receive_bits (n + 1 + 1 + 1 + 1 + 1 + 1 + 1 + 1 + 1)
        { s with lines := (c0, d0) :: (c1, d1) :: (c2, d2) :: (c3, d3) :: (c4, d4) ::
            (c5, d5) :: (c6, d6) :: (c7, d7) :: rest, clocks := k } 1 0 1 =
      ({ s with lines := rest, clocks := k + 8 }, rx_byte d0 d1 d2 d3 d4 d5 d6 d7,
        (rx_parity d0 d1 d2 d3 d4 d5 d6 d7).toNat) := by
  rw [bits_step _ s 1 2 _ _ c0 d0 _ _ (by decide) (by decide)]
  rw [bits_step _ s 2 4 _ _ c1 d1 _ _ (by decide) (by decide)]
  rw [bits_step _ s 4 8 _ _ c2 d2 _ _ (by decide) (by decide)]
  rw [bits_step _ s 8 16 _ _ c3 d3 _ _ (by decide) (by decide)]
  rw [bits_step _ s 16 32 _ _ c4 d4 _ _ (by decide) (by decide)]
  rw [bits_step _ s 32 64 _ _ c5 d5 _ _ (by decide) (by decide)]
  rw [bits_step _ s 64 128 _ _ c6 d6 _ _ (by decide) (by decide)]
  rw [bits_step _ s 128 256 _ _ c7 d7 _ _ (by decide) (by decide)]
  rw [ps2_receive_bits, if_neg (by decide)]
  refine Prod.ext ?_ (Prod.ext ?_ ?_)
  · rfl
  · simp only []
    revert d0 d1 d2 d3 d4 d5 d6 d7
    decide
  · simp only []
    revert d0 d1 d2 d3 d4 d5 d6 d7
    decide

theorem recv_bits_eq_of_lines (n : Nat) (s : State)
    (c0 c1 c2 c3 c4 c5 c6 c7 d0 d1 d2 d3 d4 d5 d6 d7 : Bool) (rest : List (Bool × Bool))
    (h : s.lines = (c0, d0) :: (c1, d1) :: (c2, d2) :: (c3, d3) :: (c4, d4) :: (c5, d5) ::
      (c6, d6) :: (c7, d7) :: rest) :
    ps2_receive_bits (n + 1 + 1 + 1 + 1 + 1 + 1 + 1 + 1 + 1) s 1 0 1 =
      ({ s with lines := rest, clocks := s.clocks + 8 }, rx_byte d0 d1 d2 d3 d4 d5 d6 d7,
        (rx_parity d0 d1 d2 d3 d4 d5 d6 d7).toNat) := by
  have key := recv_bits_eq n s c0 c1 c2 c3 c4 c5 c6 c7 d0 d1 d2 d3 d4 d5 d6 d7 rest s.clocks
  rw [← h] at key
  exact key

theorem recv_frame_eq (s : State) (c0 c1 c2 c3 c4 c5 c6 c7 c8 d0 d1 d2 d3 d4 d5 d6 d7 p : Bool)
    (rest : List (Bool × Bool))
    (h : s.lines = (c0, d0) :: (c1, d1) :: (c2, d2) :: (c3, d3) :: (c4, d4) :: (c5, d5) ::
      (c6, d6) :: (c7, d7) :: (c8, p) :: rest) :
    ps2_receive_frame s =
      (rx_done s rest, rx_byte d0 d1 d2 d3 d4 d5 d6 d7,
        if p = rx_parity d0 d1 d2 d3 d4 d5 d6 d7 then 1 else 0) := by
  unfold ps2_receive_frame
  simp only []
  rw [show (16 : Nat) = 7 + 1 + 1 + 1 + 1 + 1 + 1 + 1 + 1 + 1 from rfl,
    recv_bits_eq_of_lines 7 (ps2_cycle_clock (board_led_write { s with irq_enabled := false } true))
      c0 c1 c2 c3 c4 c5 c6 c7 d0 d1 d2 d3 d4 d5 d6 d7 ((c8, p) :: rest) h]
  refine Prod.ext ?_ (Prod.ext rfl ?_)
  · simp [gpio_sample, board_led_write, ps2_cycle_clock, ps2_set_bit, rx_done]
  · simp only [gpio_sample]
    generalize rx_parity d0 d1 d2 d3 d4 d5 d6 d7 = q
    cases p <;> cases q <;> rfl

theorem receive_eq (s : State)
    (c0 c1 c2 c3 c4 c5 c6 c7 c8 d0 d1 d2 d3 d4 d5 d6 d7 p : Bool) (rest : List (Bool × Bool))
    (h : s.lines = (c0, d0) :: (c1, d1) :: (c2, d2) :: (c3, d3) :: (c4, d4) :: (c5, d5) ::
      (c6, d6) :: (c7, d7) :: (c8, p) :: rest) :
    ps2_receive s =
      if p = rx_parity d0 d1 d2 d3 d4 d5 d6 d7 then
        ps2_command (rx_done s rest) (rx_byte d0 d1 d2 d3 d4 d5 d6 d7)
      else ps2_send (rx_done s rest) 0xfe := by
  have hf := recv_frame_eq s c0 c1 c2 c3 c4 c5 c6 c7 c8 d0 d1 d2 d3 d4 d5 d6 d7 p rest h
  unfold ps2_receive
  rw [hf]
  by_cases hp : p = rx_parity d0 d1 d2 d3 d4 d5 d6 d7
  · rw [if_pos hp, if_pos hp]
    show (if ((1 : Nat) == 0) = true then _ else _) = _
    rw [if_neg (by decide)]
  · rw [if_neg hp, if_neg hp]
    show (if ((0 : Nat) == 0) = true then _ else _) = _
    rw [if_pos (by decide)]

/-- C2. For every 8 sampled data bits and every sampled parity bit `p`,
`ps2_receive` assembles the data bits least significant first into the byte
`D = rx_byte d0 .. d7`; when `p` is 1 XOR the XOR of the data bits it runs the
command interpreter on `D`, and otherwise it runs no command: it only calls
`ps2_send 0xFE`, so the bytes handed to `ps2_send` grow by exactly `[0xFE]`,
the transmitted bytes grow by `[0xFE]` or (bus busy) by nothing, `prev_ps2`,
`kbd_enabled`, `repeat_us`, `delay_ms` and `blinking` keep their values and
neither `kbd_set_leds` nor the USB LED report is invoked. -/
theorem ps2_receive_parity_gate (s : State)
    (c0 c1 c2 c3 c4 c5 c6 c7 c8 d0 d1 d2 d3 d4 d5 d6 d7 p : Bool) (rest : List (Bool × Bool))
    (h : s.lines = (c0, d0) :: (c1, d1) :: (c2, d2) :: (c3, d3) :: (c4, d4) :: (c5, d5) ::
      (c6, d6) :: (c7, d7) :: (c8, p) :: rest) :
    (p = rx_parity d0 d1 d2 d3 d4 d5 d6 d7 →
      ps2_receive s = ps2_command (rx_done s rest) (rx_byte d0 d1 d2 d3 d4 d5 d6 d7)) ∧
    (p ≠ rx_parity d0 d1 d2 d3 d4 d5 d6 d7 →
      ps2_receive s = ps2_send (rx_done s rest) 0xfe ∧
      (ps2_receive s).calls = s.calls ++ [0xfe] ∧
      ((ps2_receive s).tx = s.tx ∨ (ps2_receive s).tx = s.tx ++ [0xfe]) ∧
      (ps2_receive s).prev_ps2 = s.prev_ps2 ∧
      (ps2_receive s).kbd_enabled = s.kbd_enabled ∧
      (ps2_receive s).repeat_us = s.repeat_us ∧
      (ps2_receive s).delay_ms = s.delay_ms ∧
      (ps2_receive s).blinking = s.blinking ∧
      (ps2_receive s).led_calls = s.led_calls ∧
      (ps2_receive s).usb_out = s.usb_out) := by
  have he := receive_eq s c0 c1 c2 c3 c4 c5 c6 c7 c8 d0 d1 d2 d3 d4 d5 d6 d7 p rest h
  constructor
  · intro hp
    rw [he, if_pos hp]
  · intro hp
    rw [he, if_neg hp]
    refine ⟨rfl, ?_, ?_, ?_, ?_, ?_, ?_, ?_, ?_, ?_⟩
    · rw [Send.send_calls]; rfl
    · exact Send.send_tx_cases (rx_done s rest) 0xfe
    · rw [Send.send_prev_ps2]; rfl
    · rw [Send.send_kbd_enabled]; rfl
    · rw [Send.send_repeat_us]; rfl
    · rw [Send.send_delay_ms]; rfl
    · rw [Send.send_blinking]; rfl
    · rw [Send.send_led_calls]; rfl
    · rw [Send.send_usb_out]; rfl

/-- Witness of C2: the host sends 0xF4 with a wrong parity bit to the initial
state; the only call of `ps2_send` is for 0xFE. -/
theorem ps2_receive_parity_gate_witness :
    (ps2_receive (init [(false, false), (true, false), (true, true), (true, false),
      (true, true), (true, true), (true, true), (true, true), (true, true)])).calls = [0xfe] :=
  ((ps2_receive_parity_gate
    (init [(false, false), (true, false), (true, true), (true, false),
      (true, true), (true, true), (true, true), (true, true), (true, true)])
    false true true true true true true true true
    false false true false true true true true true [] rfl).2 (by decide)).2.1

end Receive

/-! ## Command interpreter -/

namespace Command

/-- The answer of the specification to the command byte `b`, `r` being the
byte sent last. -/
theorem switch_idle_tx (s : State) (b : Nat) (hl : s.lines = []) (h0 : s.prev_ps2 = 0)
    (hr : s.resend < 256) :
    (ps2_command s b).tx = s.tx ++
      (if b = 0xff then [0xfa, 0xaa] else if b = 0xf2 then [0xfa, 0xab, 0x83]
       else if b = 0xee then [0xee] else if b = 0xfe then [s.resend] else [0xfa]) := by
  have hr2 : s.resend % 256 = s.resend := Nat.mod_eq_of_lt hr
  by_cases h1 : b = 0xff
  · subst h1
    simp [ps2_command, ps2_switch_data, h0, Send.send_idle, hl, add_alarm_in_ms, sleep_ms]
  by_cases h2 : b = 0xf2
  · subst h2
    simp [ps2_command, ps2_switch_data, h0, Send.send_idle, hl]
  by_cases h3 : b = 0xee
  · subst h3
    simp [ps2_command, ps2_switch_data, h0, Send.send_idle, hl]
  by_cases h4 : b = 0xfe
  · subst h4
    simp [ps2_command, ps2_switch_data, h0, Send.send_idle, hl, hr2]
  by_cases h5 : b = 0xf3
  · subst h5
    simp [ps2_command, ps2_switch_data, h0, Send.send_idle, hl]
  by_cases h6 : b = 0xed
  · subst h6
    simp [ps2_command, ps2_switch_data, h0, Send.send_idle, hl]
  by_cases h7 : b = 0xf4
  · subst h7
    simp [ps2_command, ps2_switch_data, h0, Send.send_idle, hl]
  by_cases h8 : b = 0xf5
  · subst h8
    simp [ps2_command, ps2_switch_data, h0, Send.send_idle, hl, Proj.kbd_set_leds_eq]
  by_cases h9 : b = 0xf6
  · subst h9
    simp [ps2_command, ps2_switch_data, h0, Send.send_idle, hl, Proj.kbd_set_leds_eq]
  simp [ps2_command, ps2_switch_data, h0, Send.send_idle, hl, h1, h2, h3, h4, h5, h6, h7, h8, h9]

theorem switch_state (s : State) (b : Nat) (h0 : s.prev_ps2 = 0) :
    (ps2_command s b).kbd_enabled =
      (if b = 0xff ∨ b = 0xf4 ∨ b = 0xf6 then true else if b = 0xf5 then false
       else s.kbd_enabled) ∧
    (ps2_command s b).prev_ps2 = (if b = 0xed then 0xed else if b = 0xf3 then 0xf3 else 0) ∧
    (ps2_command s b).repeat_us = (if b = 0xf5 ∨ b = 0xf6 then 35000 else s.repeat_us) ∧
    (ps2_command s b).delay_ms = (if b = 0xf5 ∨ b = 0xf6 then 250 else s.delay_ms) ∧
    (ps2_command s b).led_calls =
      (if b = 0xf5 ∨ b = 0xf6 then s.led_calls ++ [0] else s.led_calls) ∧
    (ps2_command s b).usb_out =
      (if b = 0xf5 ∨ b = 0xf6 then s.usb_out ++ [0] else s.usb_out) ∧
    (ps2_command s b).blinking = (if b = 0xff then true else s.blinking) := by
  by_cases h1 : b = 0xff
  · subst h1
    simp [ps2_command, ps2_switch_data, h0, add_alarm_in_ms, sleep_ms]
  by_cases h2 : b = 0xf2
  · subst h2
    simp [ps2_command, ps2_switch_data, h0]
  by_cases h3 : b = 0xee
  · subst h3
    simp [ps2_command, ps2_switch_data, h0]
  by_cases h4 : b = 0xfe
  · subst h4
    simp [ps2_command, ps2_switch_data, h0]
  by_cases h5 : b = 0xf3
  · subst h5
    simp [ps2_command, ps2_switch_data, h0]
  by_cases h6 : b = 0xed
  · subst h6
    simp [ps2_command, ps2_switch_data, h0]
  by_cases h7 : b = 0xf4
  · subst h7
    simp [ps2_command, ps2_switch_data, h0]
  by_cases h8 : b = 0xf5
  · subst h8
    simp [ps2_command, ps2_switch_data, h0, Proj.kbd_set_leds_eq, led_value]
  by_cases h9 : b = 0xf6
  · subst h9
    simp [ps2_command, ps2_switch_data, h0, Proj.kbd_set_leds_eq, led_value]
  simp [ps2_command, ps2_switch_data, h0, h1, h2, h3, h4, h5, h6, h7, h8, h9]

/-- C3. With no second byte pending (`prev_ps2 = 0`), a good parity and an
idle bus after the frame of the host, the bytes that `ps2_receive` transmits
in answer to the command byte `b` are exactly `[0xFA, 0xAA]` for `0xFF`,
`[0xFA, 0xAB, 0x83]` for `0xF2`, `[0xEE]` for `0xEE`, `[r]` for `0xFE` with
`r` the byte sent last before the command, and `[0xFA]` for every other `b`. -/
theorem ps2_receive_answer (s : State) (c0 c1 c2 c3 c4 c5 c6 c7 c8 d0 d1 d2 d3 d4 d5 d6 d7 : Bool)
    (b : Nat) (hb : rx_byte d0 d1 d2 d3 d4 d5 d6 d7 = b)
    (h : s.lines = [(c0, d0), (c1, d1), (c2, d2), (c3, d3), (c4, d4), (c5, d5),
      (c6, d6), (c7, d7), (c8, rx_parity d0 d1 d2 d3 d4 d5 d6 d7)])
    (h0 : s.prev_ps2 = 0) (hr : s.resend < 256) :
    (ps2_receive s).tx = s.tx ++
      (if b = 0xff then [0xfa, 0xaa] else if b = 0xf2 then [0xfa, 0xab, 0x83]
       else if b = 0xee then [0xee] else if b = 0xfe then [s.resend] else [0xfa]) := by
  rw [Receive.receive_eq s c0 c1 c2 c3 c4 c5 c6 c7 c8 d0 d1 d2 d3 d4 d5 d6 d7 _ [] h,
    if_pos rfl, hb]
  exact switch_idle_tx (rx_done s []) b rfl h0 hr

/-- Witness of C3: the host sends 0xF2 to the initial state. -/
theorem ps2_receive_answer_witness :
    (ps2_receive (init [(false, false), (true, true), (true, false), (true, false),
      (true, true), (true, true), (true, true), (true, true), (true, false)])).tx =
      [0xfa, 0xab, 0x83] :=
  ps2_receive_answer
    (init [(false, false), (true, true), (true, false), (true, false),
      (true, true), (true, true), (true, true), (true, true), (true, false)])
    false true true true true true true true true
    false true false false true true true true 0xf2 (by decide) rfl rfl (by decide)

/-- C4. With no second byte pending and a good parity, after `ps2_receive`
has handled the command byte `b`: `kbd_enabled` is true for `b` in
`{0xFF, 0xF4, 0xF6}`, false for `0xF5` and unchanged otherwise; `prev_ps2` is
`0xED` for `0xED`, `0xF3` for `0xF3` and stays 0 otherwise; `repeat_us` and
`delay_ms` are 35000 and 250 for `b` in `{0xF5, 0xF6}`, which also call
`kbd_set_leds(0)`, and unchanged (no LED call) otherwise; `blinking` is set
for `0xFF` and unchanged otherwise. This holds whatever the bus does after
the frame. -/
theorem ps2_receive_command_state (s : State)
    (c0 c1 c2 c3 c4 c5 c6 c7 c8 d0 d1 d2 d3 d4 d5 d6 d7 : Bool) (rest : List (Bool × Bool))
    (b : Nat) (hb : rx_byte d0 d1 d2 d3 d4 d5 d6 d7 = b)
    (h : s.lines = (c0, d0) :: (c1, d1) :: (c2, d2) :: (c3, d3) :: (c4, d4) :: (c5, d5) ::
      (c6, d6) :: (c7, d7) :: (c8, rx_parity d0 d1 d2 d3 d4 d5 d6 d7) :: rest)
    (h0 : s.prev_ps2 = 0) :
    (ps2_receive s).kbd_enabled =
      (if b = 0xff ∨ b = 0xf4 ∨ b = 0xf6 then true else if b = 0xf5 then false
       else s.kbd_enabled) ∧
    (ps2_receive s).prev_ps2 = (if b = 0xed then 0xed else if b = 0xf3 then 0xf3 else 0) ∧
    (ps2_receive s).repeat_us = (if b = 0xf5 ∨ b = 0xf6 then 35000 else s.repeat_us) ∧
    (ps2_receive s).delay_ms = (if b = 0xf5 ∨ b = 0xf6 then 250 else s.delay_ms) ∧
    (ps2_receive s).led_calls =
      (if b = 0xf5 ∨ b = 0xf6 then s.led_calls ++ [0] else s.led_calls) ∧
    (ps2_receive s).usb_out =
      (if b = 0xf5 ∨ b = 0xf6 then s.usb_out ++ [0] else s.usb_out) ∧
    (ps2_receive s).blinking = (if b = 0xff then true else s.blinking) := by
  rw [Receive.receive_eq s c0 c1 c2 c3 c4 c5 c6 c7 c8 d0 d1 d2 d3 d4 d5 d6 d7 _ rest h,
    if_pos rfl, hb]
  exact switch_state (rx_done s rest) b h0

/-- Witness of C4: the host sends 0xF5 to the initial state, which disables
scanning. -/
theorem ps2_receive_command_state_witness :
    (ps2_receive (init [(false, true), (true, false), (true, true), (true, false),
      (true, true), (true, true), (true, true), (true, true), (true, true)])).kbd_enabled =
      false :=
  (ps2_receive_command_state
    (init [(false, true), (true, false), (true, true), (true, false),
      (true, true), (true, true), (true, true), (true, true), (true, true)])
    false true true true true true true true true
    true false true false true true true true [] 0xf5 (by decide) rfl rfl).1

theorem command_ed (s : State) (h0 : s.prev_ps2 = 0) :
    ps2_command s 0xed = ps2_send { s with prev_ps2 := 0xed } 0xfa := by
  simp [ps2_command, ps2_switch_data, h0]

theorem command_led (s : State) (data : Nat) (h : s.prev_ps2 = 0xed) :
    ps2_command s data = ps2_send (kbd_set_leds { s with prev_ps2 := 0 } data) 0xfa := by
  simp [ps2_command, h]

theorem command_none (s : State) (data : Nat) (h : s.prev_ps2 = 0) :
    ps2_command s data =
      if (ps2_switch_data s data).2 then (ps2_switch_data s data).1
      else ps2_send (ps2_switch_data s data).1 0xfa := by
  simp [ps2_command, h]

/-- C5. Starting with no second byte pending, the host sends `0xED` and then
any byte `M`, both with a good parity, and the bus is idle when the device
answers: the device transmits exactly one `0xFA` after each of the two bytes,
calls `kbd_set_leds` exactly once, with `M`, and ends with no second byte
pending. `M` is never interpreted as a command (`kbd_enabled`, `repeat_us`,
`delay_ms` and `blinking` keep their values, whatever `M` is), and the next
byte is again handled by the command switch. -/
theorem set_leds_consumes_byte (s : State)
    (e0 e1 e2 e3 e4 e5 e6 e7 e8 c0 c1 c2 c3 c4 c5 c6 c7 c8 m0 m1 m2 m3 m4 m5 m6 m7 : Bool)
    (rest : List (Bool × Bool)) (M : Nat) (hM : rx_byte m0 m1 m2 m3 m4 m5 m6 m7 = M)
    (h : s.lines = (e0, true) :: (e1, false) :: (e2, true) :: (e3, true) :: (e4, false) ::
      (e5, true) :: (e6, true) :: (e7, true) :: (e8, true) :: (true, true) ::
      (c0, m0) :: (c1, m1) :: (c2, m2) :: (c3, m3) :: (c4, m4) :: (c5, m5) ::
      (c6, m6) :: (c7, m7) :: (c8, rx_parity m0 m1 m2 m3 m4 m5 m6 m7) :: (true, true) :: rest)
    (h0 : s.prev_ps2 = 0) :
    (ps2_receive s).tx = s.tx ++ [0xfa] ∧
    (ps2_receive s).led_calls = s.led_calls ∧
    (ps2_receive (ps2_receive s)).tx = (ps2_receive s).tx ++ [0xfa] ∧
    (ps2_receive (ps2_receive s)).led_calls = s.led_calls ++ [M] ∧
    (ps2_receive (ps2_receive s)).usb_out = s.usb_out ++ [led_value M] ∧
    (ps2_receive (ps2_receive s)).prev_ps2 = 0 ∧
    (ps2_receive (ps2_receive s)).kbd_enabled = s.kbd_enabled ∧
    (ps2_receive (ps2_receive s)).repeat_us = s.repeat_us ∧
    (ps2_receive (ps2_receive s)).delay_ms = s.delay_ms ∧
    (ps2_receive (ps2_receive s)).blinking = s.blinking ∧
    (∀ x, ps2_command (ps2_receive (ps2_receive s)) x =
      if (ps2_switch_data (ps2_receive (ps2_receive s)) x).2 then
        (ps2_switch_data (ps2_receive (ps2_receive s)) x).1
      else ps2_send (ps2_switch_data (ps2_receive (ps2_receive s)) x).1 0xfa) := by
  have hs1 : ps2_receive s = ps2_send { rx_done s ((true, true) ::
      (c0, m0) :: (c1, m1) :: (c2, m2) :: (c3, m3) :: (c4, m4) :: (c5, m5) ::
      (c6, m6) :: (c7, m7) :: (c8, rx_parity m0 m1 m2 m3 m4 m5 m6 m7) ::
      (true, true) :: rest) with prev_ps2 := 0xed } 0xfa := by
    rw [Receive.receive_eq s e0 e1 e2 e3 e4 e5 e6 e7 e8 true false true true false true true true
      true _ h, if_pos (by decide), show rx_byte true false true true false true true true = 0xed
      from by decide, command_ed (rx_done s _) h0]
  have l1 : (ps2_receive s).lines = (c0, m0) :: (c1, m1) :: (c2, m2) :: (c3, m3) :: (c4, m4) ::
      (c5, m5) :: (c6, m6) :: (c7, m7) :: (c8, rx_parity m0 m1 m2 m3 m4 m5 m6 m7) ::
      (true, true) :: rest := by
    rw [hs1, Proj.send_lines_first_idle _ _ (Proj.sample_idle_of_lines _ _ rfl)]
    rfl
  have t1 : (ps2_receive s).tx = s.tx ++ [0xfa] := by
    rw [hs1, Proj.send_tx_first_idle _ _ (Proj.sample_idle_of_lines _ _ rfl)]
    rfl
  have p1 : (ps2_receive s).prev_ps2 = 0xed := by
    rw [hs1, Send.send_prev_ps2]
  have hs2 : ps2_receive (ps2_receive s) =
      ps2_send (kbd_set_leds { rx_done (ps2_receive s) ((true, true) :: rest) with
        prev_ps2 := 0 } M) 0xfa := by
    rw [Receive.receive_eq (ps2_receive s) c0 c1 c2 c3 c4 c5 c6 c7 c8 m0 m1 m2 m3 m4 m5 m6 m7
      (rx_parity m0 m1 m2 m3 m4 m5 m6 m7) ((true, true) :: rest) l1,
      if_pos rfl, hM, command_led (rx_done (ps2_receive s) _) M p1]
  have p2 : (ps2_receive (ps2_receive s)).prev_ps2 = 0 := by
    rw [hs2, Send.send_prev_ps2, Proj.kbd_set_leds_prev_ps2]
  refine ⟨t1, ?_, ?_, ?_, ?_, p2, ?_, ?_, ?_, ?_, ?_⟩
  · rw [hs1, Send.send_led_calls]; rfl
  · rw [hs2, Proj.send_tx_first_idle _ _ (Proj.sample_idle_of_lines _ rest
      (by rw [Proj.kbd_set_leds_lines]; rfl))]
    rw [Proj.kbd_set_leds_tx]
    rfl
  · rw [hs2, Send.send_led_calls, Proj.kbd_set_leds_led_calls]
    show (ps2_receive s).led_calls ++ [M] = _
    rw [hs1, Send.send_led_calls]; rfl
  · rw [hs2, Send.send_usb_out, Proj.kbd_set_leds_usb_out]
    show (ps2_receive s).usb_out ++ [led_value M] = _
    rw [hs1, Send.send_usb_out]; rfl
  · rw [hs2, Send.send_kbd_enabled, Proj.kbd_set_leds_kbd_enabled]
    show (ps2_receive s).kbd_enabled = _
    rw [hs1, Send.send_kbd_enabled]; rfl
  · rw [hs2, Send.send_repeat_us, Proj.kbd_set_leds_repeat_us]
    show (ps2_receive s).repeat_us = _
    rw [hs1, Send.send_repeat_us]; rfl
  · rw [hs2, Send.send_delay_ms, Proj.kbd_set_leds_delay_ms]
    show (ps2_receive s).delay_ms = _
    rw [hs1, Send.send_delay_ms]; rfl
  · rw [hs2, Send.send_blinking, Proj.kbd_set_leds_blinking]
    show (ps2_receive s).blinking = _
    rw [hs1, Send.send_blinking]; rfl
  · intro x
    exact command_none _ x p2

/-- Witness of C5: after 0xED the host sends 0xF2; it is taken as the LED
mask and not as the identify command. -/
theorem set_leds_consumes_byte_witness :
    (ps2_receive (ps2_receive (init [(true, true), (true, false), (true, true), (true, true),
      (true, false), (true, true), (true, true), (true, true), (true, true), (true, true),
      (true, false), (true, true), (true, false), (true, false), (true, true), (true, true),
      (true, true), (true, true), (true, false), (true, true)]))).led_calls = [0xf2] :=
  (set_leds_consumes_byte
    (init [(true, true), (true, false), (true, true), (true, true),
      (true, false), (true, true), (true, true), (true, true), (true, true), (true, true),
      (true, false), (true, true), (true, false), (true, false), (true, true), (true, true),
      (true, true), (true, true), (true, false), (true, true)])
    true true true true true true true true true true true true true true true true true true
    false true false false true true true true [] 0xf2 (by decide) rfl rfl).2.2.2.1

theorem rx_byte_lt (d0 d1 d2 d3 d4 d5 d6 d7 : Bool) : rx_byte d0 d1 d2 d3 d4 d5 d6 d7 < 256 := by
  revert d0 d1 d2 d3 d4 d5 d6 d7
  decide

set_option maxRecDepth 100000 in
theorem typematic_arith : ∀ d : Nat, d < 256 →
    (35000 + (d &&& 0x1f) * 15000) % 4294967296 = 35000 + (d &&& 0x1f) * 15000 ∧
    35000 ≤ 35000 + (d &&& 0x1f) * 15000 ∧ 35000 + (d &&& 0x1f) * 15000 ≤ 500000 ∧
    (d &&& 0x60 = 0x00 ∨ d &&& 0x60 = 0x20 ∨ d &&& 0x60 = 0x40 ∨ d &&& 0x60 = 0x60) ∧
    (d % 128) &&& 0x1f = d &&& 0x1f ∧ (d % 128) &&& 0x60 = d &&& 0x60 := by
  decide

theorem command_typematic (s : State) (d : Nat) (hd : d < 256) (h : s.prev_ps2 = 0xf3) :
    ps2_command s d =
      ps2_send { s with prev_ps2 := 0, repeat_us := 35000 + (d &&& 0x1f) * 15000,
                        delay_ms := typematic_delay d } 0xfa := by
  obtain ⟨ha, -, -, hc, -, -⟩ := typematic_arith d hd
  unfold ps2_command typematic_delay
  simp only [h, ha]
  rcases hc with hc | hc | hc | hc <;> simp [hc]

/-- C6. When `prev_ps2` is `0xF3`, for every byte `d` received with a good
parity: `repeat_us` becomes exactly `35000 + (d AND 0x1F) * 15000`, which lies
between 35000 and 500000 (so the `uint32_t` does not overflow); `delay_ms`
becomes 250, 500, 750 or 1000 according to `d AND 0x60` being 0x00, 0x20,
0x40 or 0x60, the only four values possible; bit 7 of `d` has no effect (both
values are the same for `d % 128`); `prev_ps2` returns to 0; `ps2_send` is
called exactly once, with `0xFA`, and that byte is transmitted when the bus is
idle at the first check. -/
theorem typematic_byte_applied (s : State)
    (c0 c1 c2 c3 c4 c5 c6 c7 c8 d0 d1 d2 d3 d4 d5 d6 d7 : Bool) (rest : List (Bool × Bool))
    (d : Nat) (hd : rx_byte d0 d1 d2 d3 d4 d5 d6 d7 = d)
    (h : s.lines = (c0, d0) :: (c1, d1) :: (c2, d2) :: (c3, d3) :: (c4, d4) :: (c5, d5) ::
      (c6, d6) :: (c7, d7) :: (c8, rx_parity d0 d1 d2 d3 d4 d5 d6 d7) :: rest)
    (h3 : s.prev_ps2 = 0xf3) :
    (ps2_receive s).repeat_us = 35000 + (d &&& 0x1f) * 15000 ∧
    35000 ≤ (ps2_receive s).repeat_us ∧ (ps2_receive s).repeat_us ≤ 500000 ∧
    (ps2_receive s).delay_ms =
      (if d &&& 0x60 = 0x00 then 250 else if d &&& 0x60 = 0x20 then 500
       else if d &&& 0x60 = 0x40 then 750 else 1000) ∧
    (d &&& 0x60 = 0x00 ∨ d &&& 0x60 = 0x20 ∨ d &&& 0x60 = 0x40 ∨ d &&& 0x60 = 0x60) ∧
    (ps2_receive s).repeat_us = 35000 + ((d % 128) &&& 0x1f) * 15000 ∧
    (ps2_receive s).delay_ms = typematic_delay (d % 128) ∧
    (ps2_receive s).prev_ps2 = 0 ∧
    (ps2_receive s).calls = s.calls ++ [0xfa] ∧
    ((ps2_receive s).tx = s.tx ∨ (ps2_receive s).tx = s.tx ++ [0xfa]) ∧
    ((rest = [] ∨ rest.head? = some (true, true)) → (ps2_receive s).tx = s.tx ++ [0xfa]) := by
  have hlt : d < 256 := hd ▸ rx_byte_lt d0 d1 d2 d3 d4 d5 d6 d7
  obtain ⟨-, hlo, hhi, hc, hm1, hm2⟩ := typematic_arith d hlt
  have he : ps2_receive s =
      ps2_send
        { rx_done s rest with
          prev_ps2 := 0
          repeat_us := 35000 + (d &&& 0x1f) * 15000
          delay_ms := typematic_delay d } 0xfa := by
    rw [Receive.receive_eq s c0 c1 c2 c3 c4 c5 c6 c7 c8 d0 d1 d2 d3 d4 d5 d6 d7 _ rest h,
      if_pos rfl, hd, command_typematic (rx_done s rest) d hlt h3]
  have hr : (ps2_receive s).repeat_us = 35000 + (d &&& 0x1f) * 15000 := by
    rw [he, Send.send_repeat_us]
  have hdl : (ps2_receive s).delay_ms = typematic_delay d := by
    rw [he, Send.send_delay_ms]
  refine ⟨hr, hr ▸ hlo, hr ▸ hhi, hdl, hc, ?_, ?_, ?_, ?_, ?_, ?_⟩
  · rw [hr, hm1]
  · rw [hdl]
    unfold typematic_delay
    rw [hm2]
  · rw [he, Send.send_prev_ps2]
  · rw [he, Send.send_calls]; rfl
  · rw [he]
    exact Send.send_tx_cases _ 0xfa
  · intro hrest
    rw [he, Proj.send_tx_first_idle]
    · rfl
    · rcases hrest with hrest | hrest
      · subst hrest
        rfl
      · cases rest with
        | nil => rfl
        | cons x xs =>
          simp only [List.head?_cons, Option.some.injEq] at hrest
          subst hrest
          rfl

/-- Witness of C6: after 0xF3 the host sends 0x7F, the slowest setting. -/
theorem typematic_byte_applied_witness :
    (ps2_receive { init [(true, true), (true, true), (true, true), (true, true), (true, true),
      (true, true), (true, true), (true, false), (true, false)] with prev_ps2 := 0xf3 }).repeat_us
      = 500000 :=
  (typematic_byte_applied
    { init [(true, true), (true, true), (true, true), (true, true), (true, true),
      (true, true), (true, true), (true, false), (true, false)] with prev_ps2 := 0xf3 }
    true true true true true true true true true
    true true true true true true true false [] 0x7f (by decide) rfl rfl).1

end Command

/-! ## HID report translator -/

namespace Translate

theorem sync_refl (s : State) (h : s.lines = []) : Sync s s :=
  ⟨h, [], by simp, by simp⟩

theorem sync_of_eq (s0 s t : State) (h : Sync s0 s) (hl : t.lines = s.lines)
    (hc : t.calls = s.calls) (ht : t.tx = s.tx) : Sync s0 t := by
  obtain ⟨h1, l, h2, h3⟩ := h
  exact ⟨hl.trans h1, l, hc.trans h2, ht.trans h3⟩

theorem sync_send (s0 s : State) (data : Nat) (h : Sync s0 s) : Sync s0 (ps2_send s data) := by
  obtain ⟨h1, l, h2, h3⟩ := h
  rw [Send.send_idle s data h1]
  refine ⟨h1, l ++ [data % 256], ?_, ?_⟩
  · simp [h2]
  · simp [h3]

theorem sync_maybe_e0 (s0 s : State) (data : Nat) (h : Sync s0 s) :
    Sync s0 (maybe_send_e0 s data) := by
  unfold maybe_send_e0
  split
  · exact sync_send s0 s _ h
  · exact h

theorem sync_tx (s0 s : State) (l : List Nat) (h : Sync s0 s) (hc : s.calls = s0.calls ++ l) :
    s.tx = s0.tx ++ l := by
  obtain ⟨-, l2, h2, h3⟩ := h
  rw [h2] at hc
  rw [h3, List.append_cancel_left hc]

@[simp] theorem e0_kbd_enabled (s : State) (data : Nat) :
    (maybe_send_e0 s data).kbd_enabled = s.kbd_enabled := by
  unfold maybe_send_e0
  split <;> simp

@[simp] theorem e0_kbd_addr (s : State) (data : Nat) :
    (maybe_send_e0 s data).kbd_addr = s.kbd_addr := by
  unfold maybe_send_e0
  split <;> simp

@[simp] theorem e0_kbd_inst (s : State) (data : Nat) :
    (maybe_send_e0 s data).kbd_inst = s.kbd_inst := by
  unfold maybe_send_e0
  split <;> simp

@[simp] theorem e0_blinking (s : State) (data : Nat) :
    (maybe_send_e0 s data).blinking = s.blinking := by
  unfold maybe_send_e0
  split <;> simp

@[simp] theorem e0_receiving (s : State) (data : Nat) :
    (maybe_send_e0 s data).receiving = s.receiving := by
  unfold maybe_send_e0
  split <;> simp

@[simp] theorem e0_repeating (s : State) (data : Nat) :
    (maybe_send_e0 s data).repeating = s.repeating := by
  unfold maybe_send_e0
  split <;> simp

@[simp] theorem e0_repeat_us (s : State) (data : Nat) :
    (maybe_send_e0 s data).repeat_us = s.repeat_us := by
  unfold maybe_send_e0
  split <;> simp

@[simp] theorem e0_delay_ms (s : State) (data : Nat) :
    (maybe_send_e0 s data).delay_ms = s.delay_ms := by
  unfold maybe_send_e0
  split <;> simp

@[simp] theorem e0_repeater (s : State) (data : Nat) :
    (maybe_send_e0 s data).repeater = s.repeater := by
  unfold maybe_send_e0
  split <;> simp

@[simp] theorem e0_prev_rpt (s : State) (data : Nat) :
    (maybe_send_e0 s data).prev_rpt = s.prev_rpt := by
  unfold maybe_send_e0
  split <;> simp

@[simp] theorem e0_prev_ps2 (s : State) (data : Nat) :
    (maybe_send_e0 s data).prev_ps2 = s.prev_ps2 := by
  unfold maybe_send_e0
  split <;> simp

@[simp] theorem e0_repeat_key (s : State) (data : Nat) :
    (maybe_send_e0 s data).repeat_key = s.repeat_key := by
  unfold maybe_send_e0
  split <;> simp

@[simp] theorem e0_released (s : State) (data : Nat) :
    (maybe_send_e0 s data).released = s.released := by
  unfold maybe_send_e0
  split <;> simp

@[simp] theorem e0_led_calls (s : State) (data : Nat) :
    (maybe_send_e0 s data).led_calls = s.led_calls := by
  unfold maybe_send_e0
  split <;> simp

@[simp] theorem e0_usb_out (s : State) (data : Nat) :
    (maybe_send_e0 s data).usb_out = s.usb_out := by
  unfold maybe_send_e0
  split <;> simp

@[simp] theorem e0_alarms (s : State) (data : Nat) :
    (maybe_send_e0 s data).alarms = s.alarms := by
  unfold maybe_send_e0
  split <;> simp

@[simp] theorem e0_cancelled (s : State) (data : Nat) :
    (maybe_send_e0 s data).cancelled = s.cancelled := by
  unfold maybe_send_e0
  split <;> simp

@[simp] theorem e0_board_led (s : State) (data : Nat) :
    (maybe_send_e0 s data).board_led = s.board_led := by
  unfold maybe_send_e0
  split <;> simp

@[simp] theorem e0_rx_requests (s : State) (data : Nat) :
    (maybe_send_e0 s data).rx_requests = s.rx_requests := by
  unfold maybe_send_e0
  split <;> simp

@[simp] theorem e0_reads (s : State) (data : Nat) :
    (maybe_send_e0 s data).reads = s.reads := by
  unfold maybe_send_e0
  split <;> simp

@[simp] theorem e0_calls (s : State) (data : Nat) :
    (maybe_send_e0 s data).calls = s.calls ++ (if is_e0 data then [0xe0] else []) := by
  unfold maybe_send_e0
  split <;> simp

theorem sync_key_break (s0 s : State) (report : List Nat) (i : Nat) (h : Sync s0 s) :
    Sync s0 (key_break s report i).1 := by
  unfold key_break
  simp only []
  split_ifs
  all_goals first
    | exact h
    | (apply sync_send
       refine sync_of_eq s0 (ps2_send (maybe_send_e0 { s with repeat_key := 0 } _) 0xf0) _
         ?_ rfl rfl rfl
       apply sync_send
       apply sync_maybe_e0
       exact sync_of_eq s0 s _ h rfl rfl rfl)

theorem sync_key_make (s0 s : State) (report : List Nat) (i : Nat) (h : Sync s0 s) :
    Sync s0 (key_make s report i).1 := by
  unfold key_make
  simp only []
  split_ifs
  all_goals first
    | exact h
    | (iterate 5 apply sync_send
       exact h)
    | (iterate 8 apply sync_send
       exact h)
    | (apply sync_send
       refine sync_of_eq s0 (maybe_send_e0 _ (report.getD i 0)) _ ?_ rfl rfl rfl
       apply sync_maybe_e0
       refine sync_of_eq s0 s _ h ?_ ?_ ?_ <;>
         rfl)

theorem sync_key_slot (s0 s : State) (report : List Nat) (i : Nat) (h : Sync s0 s) :
    Sync s0 (key_slot report s i) := by
  have hb := sync_key_break s0 s report i h
  have hm := sync_key_make s0 (key_break s report i).1 report i hb
  unfold key_slot
  simp only []
  split
  · exact hb
  · split
    · exact hm
    · exact sync_of_eq s0 _ _ hm rfl rfl rfl

theorem sync_fold (s0 : State) (report : List Nat) (l : List Nat) (s : State) (h : Sync s0 s) :
    Sync s0 (l.foldl (key_slot report) s) := by
  induction l generalizing s with
  | nil => exact h
  | cons i l ih => exact ih _ (sync_key_slot s0 s report i h)

theorem sync_mod_loop (s0 : State) (n : Nat) (s : State) (j rbits pbits : Nat) (h : Sync s0 s) :
    Sync s0 (mod_loop n s j rbits pbits) := by
  induction n generalizing s j rbits pbits with
  | zero => exact h
  | succ n ih =>
    rw [mod_loop]
    apply ih
    simp only []
    split_ifs
    all_goals first
      | exact h
      | exact sync_send _ _ _ h
      | exact sync_send _ _ _ (sync_send _ _ _ h)
      | exact sync_send _ _ _ (sync_send _ _ _ (sync_send _ _ _ h))

theorem sync_led (s0 s : State) (level : Bool) (h : Sync s0 s) :
    Sync s0 (board_led_write s level) :=
  sync_of_eq s0 s _ h rfl rfl rfl

theorem sync_rx (s0 s : State) (h : Sync s0 s) : Sync s0 (tuh_hid_receive_report s) :=
  sync_of_eq s0 s _ h rfl rfl rfl

theorem sync_set_prev (s0 s : State) (v : List Nat) (h : Sync s0 s) :
    Sync s0 { s with prev_rpt := v } :=
  sync_of_eq s0 s _ h rfl rfl rfl

theorem sync_cb (s : State) (dev_addr inst : Nat) (report : List Nat) (h : s.lines = []) :
    Sync s (tuh_hid_report_received_cb s dev_addr inst report) := by
  have h0 := sync_refl s h
  unfold tuh_hid_report_received_cb
  simp only []
  split_ifs
  · exact sync_rx _ _ h0
  · apply sync_rx
    apply sync_led
    apply sync_fold
    apply sync_set_prev
    apply sync_mod_loop
    exact sync_led _ _ _ h0
  · apply sync_rx
    apply sync_led
    apply sync_fold
    exact sync_led _ _ _ h0
  · exact h0

/-! ### One key slot -/

theorem set_getD_self (l : List Nat) (i d : Nat) : l.set i (l.getD i d) = l := by
  induction l generalizing i with
  | nil => simp
  | cons a l ih => cases i <;> simp_all

theorem getD_set_self (l : List Nat) (i v d : Nat) (h : i < l.length) :
    (l.set i v).getD i d = v := by
  induction l generalizing i with
  | nil => simp at h
  | cons a l ih =>
    cases i with
    | zero => simp
    | succ i => simpa using ih i (by simpa using h)

theorem getD_set_ne (l : List Nat) (i j v d : Nat) (h : i ≠ j) :
    (l.set i v).getD j d = l.getD j d := by
  induction l generalizing i j with
  | nil => simp
  | cons a l ih =>
    cases i with
    | zero =>
      cases j with
      | zero => exact absurd rfl h
      | succ j => simp
    | succ i =>
      cases j with
      | zero => simp
      | succ j => simpa using ih i j (by omega)

theorem absent_iff (key : Nat) (arr : List Nat) :
    absent key arr = true ↔ ∀ j, 2 ≤ j → j < 8 → arr.getD j 0 ≠ key := by
  unfold absent
  simp only [Bool.not_eq_true', List.any_eq_false, List.mem_range'_1, beq_iff_eq]
  constructor
  · intro h j h2 h8 he
    exact h j ⟨h2, by omega⟩ he.symm
  · intro h j hj he
    exact h j hj.1 (by omega) he.symm

theorem absent_of_mem (key : Nat) (arr : List Nat) (j : Nat) (h2 : 2 ≤ j) (h8 : j < 8)
    (he : arr.getD j 0 = key) : absent key arr = false := by
  cases hab : absent key arr with
  | false => rfl
  | true => exact absurd he ((absent_iff key arr).1 hab j h2 h8)

/-- A key slot whose snapshot value equals the report value leaves the state
as it is. -/
theorem key_slot_same (report : List Nat) (s : State) (i : Nat) (h2 : 2 ≤ i) (h8 : i < 8)
    (h : s.prev_rpt.getD i 0 = report.getD i 0) : key_slot report s i = s := by
  have hset : { s with prev_rpt := s.prev_rpt.set i (report.getD i 0) } = s := by
    rw [← h, set_getD_self]
  by_cases hv : report.getD i 0 = 0
  · have hb : key_break s report i = (s, false) := by
      unfold key_break
      simp [h, hv, -List.getD_eq_getElem?_getD]
    have hm : key_make s report i = (s, false) := by
      unfold key_make
      simp [hv, -List.getD_eq_getElem?_getD]
    unfold key_slot
    simp only [hb, hm]
    exact hset
  · have hb : key_break s report i = (s, false) := by
      unfold key_break
      simp [h, hv, absent_of_mem (report.getD i 0) report i h2 h8 rfl,
        -List.getD_eq_getElem?_getD]
    have hm : key_make s report i = (s, false) := by
      unfold key_make
      simp [hv, absent_of_mem (report.getD i 0) s.prev_rpt i h2 h8 h,
        -List.getD_eq_getElem?_getD]
    unfold key_slot
    simp only [hb, hm]
    exact hset

/-- When the report differs from the snapshot in the key slot `i` only, the
key loop comes down to the iteration for slot `i`. -/
theorem fold_single (report : List Nat) (s : State) (i : Nat) (h2 : 2 ≤ i) (h8 : i < 8)
    (hbefore : ∀ j, 2 ≤ j → j < 8 → j ≠ i → s.prev_rpt.getD j 0 = report.getD j 0)
    (hafter : ∀ j, j ≠ i → (key_slot report s i).prev_rpt.getD j 0 = s.prev_rpt.getD j 0) :
    (List.range' 2 6).foldl (key_slot report) s = key_slot report s i := by
  have pre : ∀ j, 2 ≤ j → j < 8 → j ≠ i → key_slot report s j = s := fun j a b c =>
    key_slot_same report s j a b (hbefore j a b c)
  have post : ∀ j, 2 ≤ j → j < 8 → j ≠ i →
      key_slot report (key_slot report s i) j = key_slot report s i := fun j a b c =>
    key_slot_same report _ j a b ((hafter j c).trans (hbefore j a b c))
  have hr : List.range' 2 6 = [2, 3, 4, 5, 6, 7] := by decide
  rw [hr]
  simp only [List.foldl]
  interval_cases i
  · rw [post 3 (by decide) (by decide) (by decide), post 4 (by decide) (by decide) (by decide),
      post 5 (by decide) (by decide) (by decide), post 6 (by decide) (by decide) (by decide),
      post 7 (by decide) (by decide) (by decide)]
  · rw [pre 2 (by decide) (by decide) (by decide), post 4 (by decide) (by decide) (by decide),
      post 5 (by decide) (by decide) (by decide), post 6 (by decide) (by decide) (by decide),
      post 7 (by decide) (by decide) (by decide)]
  · rw [pre 2 (by decide) (by decide) (by decide), pre 3 (by decide) (by decide) (by decide),
      post 5 (by decide) (by decide) (by decide), post 6 (by decide) (by decide) (by decide),
      post 7 (by decide) (by decide) (by decide)]
  · rw [pre 2 (by decide) (by decide) (by decide), pre 3 (by decide) (by decide) (by decide),
      pre 4 (by decide) (by decide) (by decide), post 6 (by decide) (by decide) (by decide),
      post 7 (by decide) (by decide) (by decide)]
  · rw [pre 2 (by decide) (by decide) (by decide), pre 3 (by decide) (by decide) (by decide),
      pre 4 (by decide) (by decide) (by decide), pre 5 (by decide) (by decide) (by decide),
      post 7 (by decide) (by decide) (by decide)]
  · rw [pre 2 (by decide) (by decide) (by decide), pre 3 (by decide) (by decide) (by decide),
      pre 4 (by decide) (by decide) (by decide), pre 5 (by decide) (by decide) (by decide),
      pre 6 (by decide) (by decide) (by decide)]

/-- The report callback on a report of the mounted keyboard that passes the
guard of line 289 and leaves the modifier byte as it is. -/
theorem cb_keys (s : State) (report : List Nat) (hen : s.kbd_enabled = true)
    (h1 : report.getD 1 0 = 0) (h0 : report.getD 0 0 = s.prev_rpt.getD 0 0) :
    tuh_hid_report_received_cb s s.kbd_addr s.kbd_inst report =
      tuh_hid_receive_report (board_led_write
        ((List.range' 2 6).foldl (key_slot report) (board_led_write s true)) false) := by
  unfold tuh_hid_report_received_cb
  simp only [beq_self_eq_true, Bool.and_self, if_true, hen, Bool.not_true, h1, bne_self_eq_false,
    Bool.or_self, Bool.false_eq_true, if_false]
  have : (board_led_write s true).prev_rpt = s.prev_rpt := rfl
  simp only [this, h0, bne_self_eq_false, Bool.false_eq_true, if_false]

theorem maparray_eq : maparray = 116 := by decide

/-- The iteration of the key loop for a slot that is empty in the snapshot and
holds a new key `K` other than Pause in the report. -/
theorem key_slot_make (report : List Nat) (s : State) (i K : Nat)
    (hp : s.prev_rpt.getD i 0 = 0) (hr : report.getD i 0 = K)
    (hK0 : K ≠ 0) (hK : K < 116) (hKp : K ≠ 0x48)
    (habs : ∀ j, 2 ≤ j → j < 8 → s.prev_rpt.getD j 0 ≠ K) :
    (key_slot report s i).calls =
      s.calls ++ (if is_e0 K then [0xe0] else []) ++ [hid2ps2.getD K 0 % 256] ∧
    (key_slot report s i).repeat_key = K ∧
    (key_slot report s i).prev_rpt = s.prev_rpt.set i K ∧
    (key_slot report s i).kbd_enabled = s.kbd_enabled := by
  have ha : absent K s.prev_rpt = true := (absent_iff K s.prev_rpt).2 habs
  have hb : key_break s report i = (s, false) := by
    unfold key_break
    simp [hp, -List.getD_eq_getElem?_getD]
  unfold key_slot
  simp only [hb]
  unfold key_make
  by_cases hrep : s.repeater = 0 <;>
    simp [hr, hK0, ha, maparray_eq, hK, hKp, -List.getD_eq_getElem?_getD, add_alarm_in_ms,
      cancel_alarm, hrep]

set_option maxRecDepth 100000 in
theorem hid2ps2_byte_lt : ∀ K : Nat, K < 116 → hid2ps2.getD K 0 < 256 := by
  decide

theorem hid2ps2_mod (K : Nat) (hK : K < 116) : hid2ps2.getD K 0 % 256 = hid2ps2.getD K 0 :=
  Nat.mod_eq_of_lt (hid2ps2_byte_lt K hK)

theorem is_e0_iff (K : Nat) :
    is_e0 K = true ↔ (K = 0x46 ∨ (0x48 ≤ K ∧ K ≤ 0x52) ∨ K = 0x54 ∨ K = 0x58 ∨ K = 0x65 ∨
      K = 0x66 ∨ 0x81 ≤ K) := by
  unfold is_e0
  simp only [Bool.or_eq_true, Bool.and_eq_true, beq_iff_eq, ge_iff_le, decide_eq_true_eq]
  tauto

/-- C7. For an accepted report (keyboard enabled, reserved byte 0, modifier
byte unchanged) whose key slots equal those of the snapshot except for one
slot `i` that is 0 in the snapshot and holds `K` in the report, with `K` not
Pause (0x48), `K < 116` and `K` in no slot of the snapshot: the bytes handed
to `ps2_send` are exactly `[hid2ps2[K]]`, preceded by `0xE0` if and only if
`K` is in the extended set; on an idle bus these are the bytes transmitted;
afterwards `repeat` is `K`. (The entry `hid2ps2[K]` need not be non-zero.) -/
theorem make_event (s : State) (report : List Nat) (i K : Nat)
    (hen : s.kbd_enabled = true) (h1 : report.getD 1 0 = 0)
    (h0 : report.getD 0 0 = s.prev_rpt.getD 0 0) (h2 : 2 ≤ i) (h8 : i < 8)
    (hsame : ∀ j, 2 ≤ j → j < 8 → j ≠ i → report.getD j 0 = s.prev_rpt.getD j 0)
    (hp : s.prev_rpt.getD i 0 = 0) (hr : report.getD i 0 = K)
    (hKp : K ≠ 0x48) (hK : K < 116)
    (habs : ∀ j, 2 ≤ j → j < 8 → s.prev_rpt.getD j 0 ≠ K) :
    (tuh_hid_report_received_cb s s.kbd_addr s.kbd_inst report).calls =
      s.calls ++ (if (K = 0x46 ∨ (0x48 ≤ K ∧ K ≤ 0x52) ∨ K = 0x54 ∨ K = 0x58 ∨ K = 0x65 ∨
        K = 0x66 ∨ 0x81 ≤ K) then [0xe0, hid2ps2.getD K 0] else [hid2ps2.getD K 0]) ∧
    (s.lines = [] →
      (tuh_hid_report_received_cb s s.kbd_addr s.kbd_inst report).tx =
        s.tx ++ (if (K = 0x46 ∨ (0x48 ≤ K ∧ K ≤ 0x52) ∨ K = 0x54 ∨ K = 0x58 ∨ K = 0x65 ∨
          K = 0x66 ∨ 0x81 ≤ K) then [0xe0, hid2ps2.getD K 0] else [hid2ps2.getD K 0])) ∧
    (tuh_hid_report_received_cb s s.kbd_addr s.kbd_inst report).repeat_key = K := by
  have hK0 : K ≠ 0 := fun hz => habs i h2 h8 (hp.trans hz.symm)
  obtain ⟨hc, hrk, hpr, -⟩ := key_slot_make report (board_led_write s true) i K hp hr hK0 hK hKp habs
  have hfold := fold_single report (board_led_write s true) i h2 h8
    (fun j a b c => (hsame j a b c).symm)
    (fun j c => by rw [hpr]; exact getD_set_ne _ i j K 0 (Ne.symm c))
  have hcalls : (tuh_hid_report_received_cb s s.kbd_addr s.kbd_inst report).calls =
      s.calls ++ (if (K = 0x46 ∨ (0x48 ≤ K ∧ K ≤ 0x52) ∨ K = 0x54 ∨ K = 0x58 ∨ K = 0x65 ∨
        K = 0x66 ∨ 0x81 ≤ K) then [0xe0, hid2ps2.getD K 0] else [hid2ps2.getD K 0]) := by
    rw [cb_keys s report hen h1 h0, hfold]
    show (key_slot report (board_led_write s true) i).calls = _
    rw [hc, hid2ps2_mod K hK]
    show s.calls ++ _ ++ _ = _
    by_cases he : is_e0 K = true
    · rw [if_pos he, if_pos ((is_e0_iff K).1 he)]
      simp
    · rw [if_neg he, if_neg (fun hh => he ((is_e0_iff K).2 hh))]
      simp
  refine ⟨hcalls, fun hl => sync_tx s _ _ (sync_cb s _ _ report hl) hcalls, ?_⟩
  rw [cb_keys s report hen h1 h0, hfold]
  exact hrk

/-- Witness of C7: the right arrow key (0x4F) pressed on an empty snapshot. -/
theorem make_event_witness :
    (tuh_hid_report_received_cb (init []) 0 0 [0, 0, 0x4f, 0, 0, 0, 0, 0]).calls =
      [0xe0, 0x74] :=
  (make_event (init []) [0, 0, 0x4f, 0, 0, 0, 0, 0] 2 0x4f rfl rfl rfl (by decide) (by decide)
    (fun j a b c => by interval_cases j <;> first | rfl | exact absurd rfl c)
    rfl rfl (by decide) (by decide)
    (fun j a b => by interval_cases j <;> decide)).1

/-- The iteration of the key loop for a slot that holds a key `K` other than
Pause in the snapshot and is empty in the report. -/
theorem key_slot_break (report : List Nat) (s : State) (i K : Nat)
    (hp : s.prev_rpt.getD i 0 = K) (hr : report.getD i 0 = 0)
    (hK0 : K ≠ 0) (hKp : K ≠ 0x48)
    (habs : ∀ j, 2 ≤ j → j < 8 → report.getD j 0 ≠ K) :
    (key_slot report s i).calls =
      s.calls ++ (if is_e0 K then [0xe0] else []) ++ [0xf0, hid2ps2.getD K 0 % 256] ∧
    (key_slot report s i).repeat_key = 0 ∧
    (key_slot report s i).prev_rpt = s.prev_rpt.set i 0 ∧
    (key_slot report s i).kbd_enabled = s.kbd_enabled := by
  have ha : absent K report = true := (absent_iff K report).2 habs
  unfold key_slot key_break key_make
  simp [hp, hr, hK0, ha, maparray_eq, hKp, -List.getD_eq_getElem?_getD]

/-- C8. For an accepted report (keyboard enabled, reserved byte 0, modifier
byte unchanged) whose key slots equal those of the snapshot except for one
slot `i` that holds `K` in the snapshot and 0 in the report (so `K` is not
0), with `K` not Pause (0x48), `K < 116` and `K` in no other slot: the bytes
handed to
`ps2_send` are exactly `[0xF0, hid2ps2[K]]`, preceded by `0xE0` if and only if
`K` is in the extended set; on an idle bus these are the bytes transmitted;
afterwards `repeat` is 0. -/
theorem break_event (s : State) (report : List Nat) (i K : Nat)
    (hen : s.kbd_enabled = true) (h1 : report.getD 1 0 = 0)
    (h0 : report.getD 0 0 = s.prev_rpt.getD 0 0) (h2 : 2 ≤ i) (h8 : i < 8)
    (hsame : ∀ j, 2 ≤ j → j < 8 → j ≠ i → report.getD j 0 = s.prev_rpt.getD j 0)
    (hp : s.prev_rpt.getD i 0 = K) (hr : report.getD i 0 = 0) (hK0 : K ≠ 0)
    (hKp : K ≠ 0x48) (hK : K < 116)
    (habs : ∀ j, 2 ≤ j → j < 8 → j ≠ i → s.prev_rpt.getD j 0 ≠ K) :
    (tuh_hid_report_received_cb s s.kbd_addr s.kbd_inst report).calls =
      s.calls ++ (if (K = 0x46 ∨ (0x48 ≤ K ∧ K ≤ 0x52) ∨ K = 0x54 ∨ K = 0x58 ∨ K = 0x65 ∨
        K = 0x66 ∨ 0x81 ≤ K) then [0xe0, 0xf0, hid2ps2.getD K 0] else [0xf0, hid2ps2.getD K 0]) ∧
    (s.lines = [] →
      (tuh_hid_report_received_cb s s.kbd_addr s.kbd_inst report).tx =
        s.tx ++ (if (K = 0x46 ∨ (0x48 ≤ K ∧ K ≤ 0x52) ∨ K = 0x54 ∨ K = 0x58 ∨ K = 0x65 ∨
        K = 0x66 ∨ 0x81 ≤ K) then [0xe0, 0xf0, hid2ps2.getD K 0] else [0xf0, hid2ps2.getD K 0])) ∧
    (tuh_hid_report_received_cb s s.kbd_addr s.kbd_inst report).repeat_key = 0 := by
  have habs2 : ∀ j, 2 ≤ j → j < 8 → report.getD j 0 ≠ K := by
    intro j a b
    by_cases c : j = i
    · subst c
      rw [hr]
      exact Ne.symm hK0
    · rw [hsame j a b c]
      exact habs j a b c
  obtain ⟨hc, hrk, hpr, -⟩ := key_slot_break report (board_led_write s true) i K hp hr hK0 hKp habs2
  have hfold := fold_single report (board_led_write s true) i h2 h8
    (fun j a b c => (hsame j a b c).symm)
    (fun j c => by rw [hpr]; exact getD_set_ne _ i j 0 0 (Ne.symm c))
  have hcalls : (tuh_hid_report_received_cb s s.kbd_addr s.kbd_inst report).calls =
      s.calls ++ (if (K = 0x46 ∨ (0x48 ≤ K ∧ K ≤ 0x52) ∨ K = 0x54 ∨ K = 0x58 ∨ K = 0x65 ∨
        K = 0x66 ∨ 0x81 ≤ K) then [0xe0, 0xf0, hid2ps2.getD K 0] else [0xf0, hid2ps2.getD K 0]) := by
    rw [cb_keys s report hen h1 h0, hfold]
    show (key_slot report (board_led_write s true) i).calls = _
    rw [hc, hid2ps2_mod K hK]
    show s.calls ++ _ ++ _ = _
    by_cases he : is_e0 K = true
    · rw [if_pos he, if_pos ((is_e0_iff K).1 he)]
      simp
    · rw [if_neg he, if_neg (fun hh => he ((is_e0_iff K).2 hh))]
      simp
  refine ⟨hcalls, fun hl => sync_tx s _ _ (sync_cb s _ _ report hl) hcalls, ?_⟩
  rw [cb_keys s report hen h1 h0, hfold]
  exact hrk

/-- Witness of C8: the key A (0x04) released from a snapshot that holds it in
slot 2. -/
theorem break_event_witness :
    (tuh_hid_report_received_cb { init [] with prev_rpt := [0, 0, 4, 0, 0, 0, 0, 0] } 0 0
      [0, 0, 0, 0, 0, 0, 0, 0]).calls = [0xf0, 0x1c] :=
  (break_event { init [] with prev_rpt := [0, 0, 4, 0, 0, 0, 0, 0] } [0, 0, 0, 0, 0, 0, 0, 0] 2 4
    rfl rfl rfl (by decide) (by decide)
    (fun j a b c => by interval_cases j <;> first | rfl | exact absurd rfl c)
    rfl rfl (by decide) (by decide) (by decide)
    (fun j a b c => by interval_cases j <;> first | decide | exact absurd rfl c)).1

/-- When every key slot of the report equals the snapshot, the key loop
leaves the state as it is. -/
theorem fold_same (report : List Nat) (s : State)
    (h : ∀ j, 2 ≤ j → j < 8 → s.prev_rpt.getD j 0 = report.getD j 0) :
    (List.range' 2 6).foldl (key_slot report) s = s := by
  have hr : List.range' 2 6 = [2, 3, 4, 5, 6, 7] := by decide
  rw [hr]
  simp only [List.foldl]
  rw [key_slot_same report s 2 (by decide) (by decide) (h 2 (by decide) (by decide)),
    key_slot_same report s 3 (by decide) (by decide) (h 3 (by decide) (by decide)),
    key_slot_same report s 4 (by decide) (by decide) (h 4 (by decide) (by decide)),
    key_slot_same report s 5 (by decide) (by decide) (h 5 (by decide) (by decide)),
    key_slot_same report s 6 (by decide) (by decide) (h 6 (by decide) (by decide)),
    key_slot_same report s 7 (by decide) (by decide) (h 7 (by decide) (by decide))]

/-- An accepted report that equals the snapshot in the modifier byte and in
every key slot makes no call of `ps2_send`. -/
theorem cb_same (s : State) (report : List Nat) (hen : s.kbd_enabled = true)
    (h1 : report.getD 1 0 = 0) (h0 : report.getD 0 0 = s.prev_rpt.getD 0 0)
    (h : ∀ j, 2 ≤ j → j < 8 → s.prev_rpt.getD j 0 = report.getD j 0) :
    tuh_hid_report_received_cb s s.kbd_addr s.kbd_inst report =
      tuh_hid_receive_report (board_led_write (board_led_write s true) false) := by
  rw [cb_keys s report hen h1 h0, fold_same report (board_led_write s true) h]

theorem key_make_pause (report : List Nat) (s : State) (i : Nat)
    (hr : report.getD i 0 = 0x48) (ha : absent 0x48 s.prev_rpt = true) :
    key_make s report i =
      (if ((report.getD 0 0 &&& 0x1) != 0 || (report.getD 0 0 &&& 0x10) != 0) = true then
        ps2_send (ps2_send (ps2_send (ps2_send (ps2_send s 0xe0) 0x7e) 0xe0) 0xf0) 0x7e
      else
        ps2_send (ps2_send (ps2_send (ps2_send (ps2_send (ps2_send (ps2_send (ps2_send s
          0xe1) 0x14) 0x77) 0xe1) 0xf0) 0x14) 0xf0) 0x77, true) := by
  unfold key_make
  simp only [hr, ha]
  rw [if_pos (by decide), if_pos (by decide), if_pos (by decide)]
  split <;> rfl

/-- The iteration of the key loop for a slot that is empty in the snapshot and
holds Pause (0x48) in the report. -/
theorem key_slot_pause (report : List Nat) (s : State) (i : Nat)
    (hp : s.prev_rpt.getD i 0 = 0) (hr : report.getD i 0 = 0x48)
    (habs : ∀ j, 2 ≤ j → j < 8 → s.prev_rpt.getD j 0 ≠ 0x48) :
    (key_slot report s i).calls = s.calls ++ (if ((report.getD 0 0 &&& 0x1) ≠ 0 ∨ (report.getD 0 0 &&& 0x10) ≠ 0) then [0xe0, 0x7e, 0xe0, 0xf0, 0x7e] else [0xe1, 0x14, 0x77, 0xe1, 0xf0, 0x14, 0xf0, 0x77]) ∧
    (key_slot report s i).repeat_key = s.repeat_key ∧
    (key_slot report s i).prev_rpt = s.prev_rpt ∧
    (key_slot report s i).kbd_enabled = s.kbd_enabled ∧
    (key_slot report s i).kbd_addr = s.kbd_addr ∧
    (key_slot report s i).kbd_inst = s.kbd_inst := by
  have ha : absent 0x48 s.prev_rpt = true := (absent_iff 0x48 s.prev_rpt).2 habs
  have hb : key_break s report i = (s, false) := by
    unfold key_break
    simp [hp, -List.getD_eq_getElem?_getD]
  unfold key_slot
  simp only [hb, key_make_pause report s i hr ha, Bool.false_eq_true, if_false, if_true]
  by_cases hc : ((report.getD 0 0 &&& 0x1) ≠ 0 ∨ (report.getD 0 0 &&& 0x10) ≠ 0)
  · have hc2 : ((report.getD 0 0 &&& 0x1) != 0 || (report.getD 0 0 &&& 0x10) != 0) = true := by
      rw [Bool.or_eq_true, bne_iff_ne, bne_iff_ne]
      exact hc
    rw [if_pos hc, if_pos hc2]
    simp
  · have hc2 : ¬ ((report.getD 0 0 &&& 0x1) != 0 || (report.getD 0 0 &&& 0x10) != 0) = true := by
      rw [Bool.or_eq_true, bne_iff_ne, bne_iff_ne]
      exact hc
    rw [if_neg hc, if_neg hc2]
    simp

/-- C9. When an accepted report newly holds Pause (0x48) in a slot `i` that is
empty in the snapshot (modifier byte and other slots unchanged, 0x48 in no
slot of the snapshot), the bytes handed to `ps2_send` are exactly
`[0xE0, 0x7E, 0xE0, 0xF0, 0x7E]` if bit 0 or bit 4 of the modifier byte of the
report is set and `[0xE1, 0x14, 0x77, 0xE1, 0xF0, 0x14, 0xF0, 0x77]`
otherwise; on an idle bus these are the bytes transmitted; `repeat` is left
unchanged. When a following report `report2` has slot `i` back at 0 and
nothing else changed, no byte is handed to `ps2_send` and none is transmitted. -/
theorem pause_event (s : State) (report report2 : List Nat) (i : Nat)
    (hen : s.kbd_enabled = true) (h1 : report.getD 1 0 = 0)
    (h0 : report.getD 0 0 = s.prev_rpt.getD 0 0) (h2 : 2 ≤ i) (h8 : i < 8)
    (hsame : ∀ j, 2 ≤ j → j < 8 → j ≠ i → report.getD j 0 = s.prev_rpt.getD j 0)
    (hp : s.prev_rpt.getD i 0 = 0) (hr : report.getD i 0 = 0x48)
    (habs : ∀ j, 2 ≤ j → j < 8 → s.prev_rpt.getD j 0 ≠ 0x48)
    (k1 : report2.getD 1 0 = 0) (k0 : report2.getD 0 0 = report.getD 0 0)
    (ki : report2.getD i 0 = 0)
    (ksame : ∀ j, 2 ≤ j → j < 8 → j ≠ i → report2.getD j 0 = report.getD j 0) :
    (tuh_hid_report_received_cb s s.kbd_addr s.kbd_inst report).calls = s.calls ++ (if ((report.getD 0 0 &&& 0x1) ≠ 0 ∨ (report.getD 0 0 &&& 0x10) ≠ 0) then
        [0xe0, 0x7e, 0xe0, 0xf0, 0x7e]
      else [0xe1, 0x14, 0x77, 0xe1, 0xf0, 0x14, 0xf0, 0x77]) ∧
    (s.lines = [] → (tuh_hid_report_received_cb s s.kbd_addr s.kbd_inst report).tx = s.tx ++ (if ((report.getD 0 0 &&& 0x1) ≠ 0 ∨ (report.getD 0 0 &&& 0x10) ≠ 0) then
        [0xe0, 0x7e, 0xe0, 0xf0, 0x7e]
      else [0xe1, 0x14, 0x77, 0xe1, 0xf0, 0x14, 0xf0, 0x77])) ∧
    (tuh_hid_report_received_cb s s.kbd_addr s.kbd_inst report).repeat_key = s.repeat_key ∧
    (tuh_hid_report_received_cb (tuh_hid_report_received_cb s s.kbd_addr s.kbd_inst report) s.kbd_addr s.kbd_inst report2).calls =
      (tuh_hid_report_received_cb s s.kbd_addr s.kbd_inst report).calls ∧
    (tuh_hid_report_received_cb (tuh_hid_report_received_cb s s.kbd_addr s.kbd_inst report) s.kbd_addr s.kbd_inst report2).tx =
      (tuh_hid_report_received_cb s s.kbd_addr s.kbd_inst report).tx := by
  obtain ⟨hc, hrk, hpr, hke, hka, hki⟩ :=
    key_slot_pause report (board_led_write s true) i hp hr habs
  have hfold := fold_single report (board_led_write s true) i h2 h8
    (fun j a b c => (hsame j a b c).symm) (fun j _ => by rw [hpr])
  have hcb := cb_keys s report hen h1 h0
  rw [hfold] at hcb
  have hcalls : (tuh_hid_report_received_cb s s.kbd_addr s.kbd_inst report).calls = s.calls ++
      (if ((report.getD 0 0 &&& 0x1) ≠ 0 ∨ (report.getD 0 0 &&& 0x10) ≠ 0) then
        [0xe0, 0x7e, 0xe0, 0xf0, 0x7e]
      else [0xe1, 0x14, 0x77, 0xe1, 0xf0, 0x14, 0xf0, 0x77]) := by
    rw [hcb, Proj.tuh_rx_calls, Proj.led_write_calls, hc, Proj.led_write_calls]
  have e1 : (tuh_hid_report_received_cb s s.kbd_addr s.kbd_inst report).kbd_enabled = true := by
    rw [hcb, Proj.tuh_rx_kbd_enabled, Proj.led_write_kbd_enabled, hke, Proj.led_write_kbd_enabled,
      hen]
  have e2 : (tuh_hid_report_received_cb s s.kbd_addr s.kbd_inst report).kbd_addr = s.kbd_addr := by
    rw [hcb, Proj.tuh_rx_kbd_addr, Proj.led_write_kbd_addr, hka, Proj.led_write_kbd_addr]
  have e3 : (tuh_hid_report_received_cb s s.kbd_addr s.kbd_inst report).kbd_inst = s.kbd_inst := by
    rw [hcb, Proj.tuh_rx_kbd_inst, Proj.led_write_kbd_inst, hki, Proj.led_write_kbd_inst]
  have e4 : (tuh_hid_report_received_cb s s.kbd_addr s.kbd_inst report).prev_rpt = s.prev_rpt := by
    rw [hcb, Proj.tuh_rx_prev_rpt, Proj.led_write_prev_rpt, hpr, Proj.led_write_prev_rpt]
  have hsecond := cb_same (tuh_hid_report_received_cb s s.kbd_addr s.kbd_inst report) report2 e1 k1 (by rw [e4, k0, h0])
    (fun j a b => by
      rw [e4]
      by_cases c : j = i
      · subst c
        rw [hp, ki]
      · rw [ksame j a b c, hsame j a b c])
  rw [e2, e3] at hsecond
  refine ⟨hcalls, fun hl => sync_tx s _ _ (sync_cb s _ _ report hl) hcalls, ?_, ?_, ?_⟩
  · rw [hcb, Proj.tuh_rx_repeat_key, Proj.led_write_repeat_key, hrk, Proj.led_write_repeat_key]
  · rw [hsecond, Proj.tuh_rx_calls, Proj.led_write_calls, Proj.led_write_calls]
  · rw [hsecond, Proj.tuh_rx_tx, Proj.led_write_tx, Proj.led_write_tx]

/-- Witness of C9: Pause pressed with no modifier held, on an empty snapshot. -/
theorem pause_event_witness :
    (tuh_hid_report_received_cb (init []) 0 0 [0, 0, 0x48, 0, 0, 0, 0, 0]).calls =
      [0xe1, 0x14, 0x77, 0xe1, 0xf0, 0x14, 0xf0, 0x77] :=
  (pause_event (init []) [0, 0, 0x48, 0, 0, 0, 0, 0] [0, 0, 0, 0, 0, 0, 0, 0] 2
    rfl rfl rfl (by decide) (by decide)
    (fun j a b c => by interval_cases j <;> first | rfl | exact absurd rfl c)
    rfl rfl (fun j a b => by interval_cases j <;> decide)
    rfl rfl rfl
    (fun j a b c => by interval_cases j <;> first | rfl | exact absurd rfl c)).1

/-! ### Modifier byte -/

theorem untouched_trans (a b c : State) (h1 : Send.Untouched a b) (h2 : Send.Untouched b c) :
    Send.Untouched a c := by
  simp only [Send.Untouched] at h1 h2 ⊢
  simp [h1, h2]

theorem mod_loop_calls (n : Nat) (s : State) (j rbits pbits : Nat) :
    (mod_loop n s j rbits pbits).calls = s.calls ++ mod_bytes n j rbits pbits ∧
      Send.Untouched (mod_loop n s j rbits pbits) s := by
  induction n generalizing s j rbits pbits with
  | zero => exact ⟨by simp [mod_loop, mod_bytes], Send.untouched_refl s⟩
  | succ n ih =>
    rw [mod_loop, mod_bytes]
    simp only []
    split_ifs with c1 c2 c3 c3 <;>
      (obtain ⟨ha, hb⟩ := ih _ (j + 1) (rbits >>> 1) (pbits >>> 1)
       refine ⟨?_, ?_⟩
       · rw [ha]
         simp
       · refine untouched_trans _ _ _ hb ?_
         first
           | exact Send.untouched_refl s
           | exact Send.send_untouched _ _
           | exact untouched_trans _ _ _ (Send.send_untouched _ _) (Send.send_untouched _ _)
           | exact untouched_trans _ _ _ (Send.send_untouched _ _)
               (untouched_trans _ _ _ (Send.send_untouched _ _) (Send.send_untouched _ _)))

set_option maxRecDepth 1000000 in
theorem mod_bytes_one_bit : ∀ p : Nat, p < 256 → ∀ j : Nat, j < 8 →
    mod_bytes 8 0 (p ^^^ (1 <<< j)) p =
      (if j = 3 ∨ j = 4 ∨ j = 6 ∨ j = 7 then [0xe0] else []) ++
        (if (p ^^^ (1 <<< j)).testBit j then [mod2ps2.getD j 0]
         else [0xf0, mod2ps2.getD j 0]) := by
  decide

set_option maxRecDepth 1000000 in
theorem mod_bytes_same : ∀ q : Nat, q < 256 → mod_bytes 8 0 q q = [] := by
  decide

/-- The report callback on a report of the mounted keyboard that passes the
guard of line 289 and changes the modifier byte. -/
theorem cb_mods (s : State) (report : List Nat) (hen : s.kbd_enabled = true)
    (h1 : report.getD 1 0 = 0) (h0 : report.getD 0 0 ≠ s.prev_rpt.getD 0 0) :
    tuh_hid_report_received_cb s s.kbd_addr s.kbd_inst report =
      tuh_hid_receive_report (board_led_write
        ((List.range' 2 6).foldl (key_slot report)
          { mod_loop 8 (board_led_write s true) 0 (report.getD 0 0) (s.prev_rpt.getD 0 0) with
            prev_rpt := (mod_loop 8 (board_led_write s true) 0 (report.getD 0 0)
              (s.prev_rpt.getD 0 0)).prev_rpt.set 0 (report.getD 0 0) }) false) := by
  unfold tuh_hid_report_received_cb
  simp only [beq_self_eq_true, Bool.and_self, if_true, hen, Bool.not_true, h1, bne_self_eq_false,
    Bool.or_self, Bool.false_eq_true, if_false]
  have hne : (report.getD 0 0 != (board_led_write s true).prev_rpt.getD 0 0) = true := by
    rw [bne_iff_ne]
    exact h0
  rw [if_pos hne]
  rfl

/-- C10 (amended). For an accepted report whose modifier byte differs from the
one of the snapshot in exactly one bit `j` and whose key slots are unchanged,
the bytes handed to `ps2_send` are `[mod2ps2[j]]` when the bit became 1 and
`[0xF0, mod2ps2[j]]` when it became 0, preceded by `0xE0` exactly when `j` is
3 (left GUI), 4 (right control), 6 (right alt) or 7 (right GUI), as the guard
`j > 2 && j != 5` says; on an idle bus these are the bytes transmitted;
afterwards the modifier byte of the snapshot equals that of the report. -/
theorem modifier_event (s : State) (report : List Nat) (j p : Nat)
    (hen : s.kbd_enabled = true) (h1 : report.getD 1 0 = 0)
    (hlen : 0 < s.prev_rpt.length)
    (hp : s.prev_rpt.getD 0 0 = p) (hp256 : p < 256) (hj : j < 8)
    (hr : report.getD 0 0 = p ^^^ (1 <<< j))
    (hkeys : ∀ k, 2 ≤ k → k < 8 → report.getD k 0 = s.prev_rpt.getD k 0) :
    (tuh_hid_report_received_cb s s.kbd_addr s.kbd_inst report).calls = s.calls ++
      ((if j = 3 ∨ j = 4 ∨ j = 6 ∨ j = 7 then [0xe0] else []) ++
        (if (report.getD 0 0).testBit j then [mod2ps2.getD j 0]
         else [0xf0, mod2ps2.getD j 0])) ∧
    (s.lines = [] → (tuh_hid_report_received_cb s s.kbd_addr s.kbd_inst report).tx = s.tx ++
      ((if j = 3 ∨ j = 4 ∨ j = 6 ∨ j = 7 then [0xe0] else []) ++
        (if (report.getD 0 0).testBit j then [mod2ps2.getD j 0]
         else [0xf0, mod2ps2.getD j 0]))) ∧
    (tuh_hid_report_received_cb s s.kbd_addr s.kbd_inst report).prev_rpt.getD 0 0 = report.getD 0 0 := by
  have hne : report.getD 0 0 ≠ s.prev_rpt.getD 0 0 := by
    rw [hr, hp]
    intro he
    have hb := mod_bytes_one_bit p hp256 j hj
    rw [he] at hb
    revert hb
    rw [mod_bytes_same p hp256]
    split_ifs <;> simp
  obtain ⟨hmc, hmu⟩ := mod_loop_calls 8 (board_led_write s true) 0 (report.getD 0 0)
    (s.prev_rpt.getD 0 0)
  have hmp : (mod_loop 8 (board_led_write s true) 0 (report.getD 0 0)
      (s.prev_rpt.getD 0 0)).prev_rpt = s.prev_rpt := by
    simp only [Send.Untouched] at hmu
    exact hmu.2.2.2.2.2.2.2.2.2.1
  have hcb := cb_mods s report hen h1 hne
  rw [fold_same report _ (fun k a b => by
    show (List.set _ 0 _).getD k 0 = _
    rw [getD_set_ne _ 0 k _ 0 (by omega), hmp, hkeys k a b])] at hcb
  have hcalls : (tuh_hid_report_received_cb s s.kbd_addr s.kbd_inst report).calls = s.calls ++
      ((if j = 3 ∨ j = 4 ∨ j = 6 ∨ j = 7 then [0xe0] else []) ++
        (if (report.getD 0 0).testBit j then [mod2ps2.getD j 0]
         else [0xf0, mod2ps2.getD j 0])) := by
    rw [hcb, Proj.tuh_rx_calls, Proj.led_write_calls]
    show (mod_loop 8 (board_led_write s true) 0 (report.getD 0 0) (s.prev_rpt.getD 0 0)).calls = _
    rw [hmc, Proj.led_write_calls, hp, hr, mod_bytes_one_bit p hp256 j hj]
  refine ⟨hcalls, fun hl => sync_tx s _ _ (sync_cb s _ _ report hl) hcalls, ?_⟩
  rw [hcb, Proj.tuh_rx_prev_rpt, Proj.led_write_prev_rpt]
  show (List.set _ 0 _).getD 0 0 = _
  rw [getD_set_self _ 0 _ 0 (by rw [hmp]; exact hlen)]

/-- Witness of C10: right control (bit 4) pressed on the initial snapshot. -/
theorem modifier_event_witness :
    (tuh_hid_report_received_cb (init []) 0 0 [0x10, 0, 0, 0, 0, 0, 0, 0]).calls =
      [0xe0, 0x14] :=
  (modifier_event (init []) [0x10, 0, 0, 0, 0, 0, 0, 0] 4 0 rfl rfl (by decide) rfl (by decide)
    (by decide) rfl (fun k a b => by interval_cases k <;> rfl)).1

set_option maxRecDepth 1000000 in
/-- Counterexample to C10 as stated: left GUI (bit 3) pressed on the initial
snapshot is sent with the byte `0xE0` in front, although 3 is none of 4, 6, 7. -/
theorem modifier_left_gui_extended :
    (tuh_hid_report_received_cb (init []) 0 0 [0x08, 0, 0, 0, 0, 0, 0, 0]).calls =
      [0xe0, 0x1f] ∧
    (tuh_hid_report_received_cb (init []) 0 0 [0x08, 0, 0, 0, 0, 0, 0, 0]).tx =
      [0xe0, 0x1f] ∧
    (tuh_hid_report_received_cb (init []) 0 0 [0x08, 0, 0, 0, 0, 0, 0, 0]).calls ≠
      [mod2ps2.getD 3 0] := by
  decide

/-! ### Unmapped and out of range key codes -/

/-- An accepted report with one new key `K` other than Pause, `K < 116`, in a
slot that is empty in the snapshot: all effects of the callback. -/
theorem cb_make (s : State) (report : List Nat) (i K : Nat)
    (hen : s.kbd_enabled = true) (h1 : report.getD 1 0 = 0)
    (h0 : report.getD 0 0 = s.prev_rpt.getD 0 0) (h2 : 2 ≤ i) (h8 : i < 8)
    (hsame : ∀ j, 2 ≤ j → j < 8 → j ≠ i → report.getD j 0 = s.prev_rpt.getD j 0)
    (hp : s.prev_rpt.getD i 0 = 0) (hr : report.getD i 0 = K)
    (hKp : K ≠ 0x48) (hK : K < 116)
    (habs : ∀ j, 2 ≤ j → j < 8 → s.prev_rpt.getD j 0 ≠ K) :
    (tuh_hid_report_received_cb s s.kbd_addr s.kbd_inst report).calls =
      s.calls ++ (if is_e0 K then [0xe0] else []) ++ [hid2ps2.getD K 0] ∧
    (tuh_hid_report_received_cb s s.kbd_addr s.kbd_inst report).repeat_key = K ∧
    (tuh_hid_report_received_cb s s.kbd_addr s.kbd_inst report).prev_rpt = s.prev_rpt.set i K := by
  have hK0 : K ≠ 0 := fun hz => habs i h2 h8 (hp.trans hz.symm)
  obtain ⟨hc, hrk, hpr, -⟩ := key_slot_make report (board_led_write s true) i K hp hr hK0 hK hKp habs
  have hfold := fold_single report (board_led_write s true) i h2 h8
    (fun j a b c => (hsame j a b c).symm)
    (fun j c => by rw [hpr]; exact getD_set_ne _ i j K 0 (Ne.symm c))
  have hcb := cb_keys s report hen h1 h0
  rw [hfold] at hcb
  refine ⟨?_, ?_, ?_⟩
  · rw [hcb, Proj.tuh_rx_calls, Proj.led_write_calls, hc, Proj.led_write_calls, hid2ps2_mod K hK]
  · rw [hcb, Proj.tuh_rx_repeat_key, Proj.led_write_repeat_key, hrk]
  · rw [hcb, Proj.tuh_rx_prev_rpt, Proj.led_write_prev_rpt, hpr, Proj.led_write_prev_rpt]

/-- C11 (amended). For every key code `K` with `0 < K < 116` whose entry in
`hid2ps2` is zero, an accepted report that newly holds `K` in a key slot that
is empty in the snapshot hands the single byte `0x00` to `ps2_send` (it is
transmitted on an idle bus), arms `K` as the repeat key and updates the slot
of the snapshot to `K`. -/
theorem zero_entry_is_sent (s : State) (report : List Nat) (i K : Nat)
    (hen : s.kbd_enabled = true) (h1 : report.getD 1 0 = 0)
    (h0 : report.getD 0 0 = s.prev_rpt.getD 0 0) (h2 : 2 ≤ i) (h8 : i < 8)
    (hlen : s.prev_rpt.length = 8)
    (hsame : ∀ j, 2 ≤ j → j < 8 → j ≠ i → report.getD j 0 = s.prev_rpt.getD j 0)
    (hp : s.prev_rpt.getD i 0 = 0) (hr : report.getD i 0 = K)
    (hK0 : 0 < K) (hK : K < 116) (hz : hid2ps2.getD K 0 = 0)
    (habs : ∀ j, 2 ≤ j → j < 8 → s.prev_rpt.getD j 0 ≠ K) :
    (tuh_hid_report_received_cb s s.kbd_addr s.kbd_inst report).calls = s.calls ++ [0x00] ∧
    (s.lines = [] → (tuh_hid_report_received_cb s s.kbd_addr s.kbd_inst report).tx = s.tx ++ [0x00]) ∧
    (tuh_hid_report_received_cb s s.kbd_addr s.kbd_inst report).repeat_key = K ∧
    (tuh_hid_report_received_cb s s.kbd_addr s.kbd_inst report).prev_rpt.getD i 0 = K := by
  have hk13 : ∀ K : Nat, K < 116 → hid2ps2.getD K 0 = 0 → K = 0 ∨ K = 1 ∨ K = 3 := by
    decide
  have hcases : K = 1 ∨ K = 3 := by
    rcases hk13 K hK hz with h | h | h
    · omega
    · exact Or.inl h
    · exact Or.inr h
  have hKp : K ≠ 0x48 := by omega
  have he : is_e0 K = false := by
    rcases hcases with h | h <;> subst h <;> decide
  obtain ⟨hc, hrk, hpr⟩ := cb_make s report i K hen h1 h0 h2 h8 hsame hp hr hKp hK habs
  have hcalls : (tuh_hid_report_received_cb s s.kbd_addr s.kbd_inst report).calls = s.calls ++ [0x00] := by
    rw [hc, he, hz]
    simp
  refine ⟨hcalls, fun hl => sync_tx s _ _ (sync_cb s _ _ report hl) hcalls, hrk, ?_⟩
  rw [hpr, getD_set_self _ i K 0 (by omega)]

/-- Witness of C11 (amended): the code 0x01 pressed on the initial snapshot. -/
theorem zero_entry_is_sent_witness :
    (tuh_hid_report_received_cb (init []) 0 0 [0, 0, 0x01, 0, 0, 0, 0, 0]).calls = [0x00] :=
  (zero_entry_is_sent (init []) [0, 0, 0x01, 0, 0, 0, 0, 0] 2 1 rfl rfl rfl (by decide)
    (by decide) rfl
    (fun j a b c => by interval_cases j <;> first | rfl | exact absurd rfl c)
    rfl rfl (by decide) (by decide) (by decide)
    (fun j a b => by interval_cases j <;> decide)).1

set_option maxRecDepth 1000000 in
/-- Counterexample to C11 as stated: the code 0x01, whose entry in `hid2ps2`
is zero, pressed on the initial snapshot makes one call of `ps2_send`, one
byte is transmitted, and 0x01 becomes the repeat key. -/
theorem zero_entry_not_ignored :
    hid2ps2.getD 0x01 0 = 0 ∧
    (tuh_hid_report_received_cb (init []) 0 0 [0, 0, 0x01, 0, 0, 0, 0, 0]).calls = [0x00] ∧
    (tuh_hid_report_received_cb (init []) 0 0 [0, 0, 0x01, 0, 0, 0, 0, 0]).tx = [0x00] ∧
    (tuh_hid_report_received_cb (init []) 0 0 [0, 0, 0x01, 0, 0, 0, 0, 0]).repeat_key = 0x01 := by
  decide

set_option maxRecDepth 1000000 in
/-- C12, evaluation at the failing input: the key code 0x7F (not below 116) is
pressed on the initial snapshot, which sends nothing and records 0x7F in the
snapshot; the next report has the slot back at 0, and then the break path,
whose bound check of line 332 looks at `report[i]` (0) and not at
`prev_rpt[i]` (0x7F), calls `ps2_send` twice and reads `hid2ps2` at the index
0x7F, beyond its 116 entries. -/
theorem out_of_range_release_reads_past_table :
    (tuh_hid_report_received_cb (init []) 0 0 [0, 0, 0x7f, 0, 0, 0, 0, 0]).calls = [] ∧
    (tuh_hid_report_received_cb (init []) 0 0 [0, 0, 0x7f, 0, 0, 0, 0, 0]).prev_rpt =
      [0, 0, 0x7f, 0, 0, 0, 0, 0] ∧
    (tuh_hid_report_received_cb
      (tuh_hid_report_received_cb (init []) 0 0 [0, 0, 0x7f, 0, 0, 0, 0, 0]) 0 0
      [0, 0, 0, 0, 0, 0, 0, 0]).calls = [0xf0, hid2ps2.getD 0x7f 0] ∧
    (tuh_hid_report_received_cb
      (tuh_hid_report_received_cb (init []) 0 0 [0, 0, 0x7f, 0, 0, 0, 0, 0]) 0 0
      [0, 0, 0, 0, 0, 0, 0, 0]).reads = [0x7f] ∧
    hid2ps2.length = 116 := by
  decide

set_option maxRecDepth 1000000 in
/-- C13, evaluation at the failing input: after the accepted report
`[0, 0, 0x48, 0, 0, 0, 0, 0]` (Pause pressed) on the initial state, the
`continue` of line 362 has skipped `prev_rpt[i] = report[i]`, and the snapshot
is still all zero, not the report. -/
theorem pause_not_recorded :
    (tuh_hid_report_received_cb (init []) 0 0 [0, 0, 0x48, 0, 0, 0, 0, 0]).prev_rpt =
      [0, 0, 0, 0, 0, 0, 0, 0] ∧
    (tuh_hid_report_received_cb (init []) 0 0 [0, 0, 0x48, 0, 0, 0, 0, 0]).prev_rpt ≠
      [0, 0, 0x48, 0, 0, 0, 0, 0] := by
  decide

end Translate

/-! ## Frame codec: bus busy -/

namespace Busy

theorem loop_busy (busy : List (Bool × Bool)) (hbusy : ∀ x ∈ busy, (x.1 && x.2) = false)
    (n : Nat) (s : State) (data : Nat) (tl : List (Bool × Bool)) (h : s.lines = busy ++ tl) :
    ps2_send_loop (busy.length + n) s data =
      ps2_send_loop n { s with lines := tl, checks := s.checks + busy.length,
                               slept_ms := s.slept_ms + busy.length } data := by
  induction busy generalizing s with
  | nil =>
    simp only [List.nil_append] at h
    simp only [List.length_nil, Nat.zero_add, Nat.add_zero, ← h]
  | cons x xs ih =>
    have hx : (x.1 && x.2) = false := hbusy x (List.mem_cons_self x xs)
    have hxs : ∀ y ∈ xs, (y.1 && y.2) = false := fun y hy => hbusy y (List.mem_cons_of_mem x hy)
    have hl : (x :: xs).length + n = (xs.length + n) + 1 := by
      simp only [List.length_cons]
      omega
    have hs : gpio_sample s = (x, { s with lines := xs ++ tl }) := by
      unfold gpio_sample
      rw [h]
      rfl
    rw [hl, ps2_send_loop]
    simp only [hs, hx, Bool.false_eq_true, if_false]
    rw [ih hxs _ rfl]
    congr 1
    cases s
    simp only [List.length_cons, State.mk.injEq, true_and, and_true]
    omega

/-- C14. If the first 100 reads of the lines by `ps2_send B` never find clock
and data both idle, `ps2_send B` ends after exactly 100 idle checks, each
followed by a wait of 1 ms, hands no bit to `ps2_set_bit`, transmits no byte
and leaves `resend` and `irq_enabled` unchanged. If the lines are busy at the
first `busy.length < 100` checks and idle at the next one, the frame of `B`
is sent at that check, number `busy.length + 1`, and no further check is
made. -/
theorem ps2_send_busy_timeout (s : State) (B : Nat) (busy tl : List (Bool × Bool))
    (hB : B < 256) (hbusy : ∀ x ∈ busy, (x.1 && x.2) = false) (h : s.lines = busy ++ tl) :
    (busy.length = 100 →
      (ps2_send s B).checks = s.checks + 100 ∧
      (ps2_send s B).slept_ms = s.slept_ms + 100 ∧
      (ps2_send s B).wire = s.wire ∧
      (ps2_send s B).tx = s.tx ∧
      (ps2_send s B).resend = s.resend ∧
      (ps2_send s B).irq_enabled = s.irq_enabled ∧
      (ps2_send s B).lines = tl) ∧
    (busy.length < 100 → (tl = [] ∨ tl.head? = some (true, true)) →
      (ps2_send s B).checks = s.checks + (busy.length + 1) ∧
      (ps2_send s B).slept_ms = s.slept_ms + busy.length ∧
      (ps2_send s B).wire = s.wire ++ frame B ∧
      (ps2_send s B).tx = s.tx ++ [B] ∧
      (ps2_send s B).resend = B ∧
      (ps2_send s B).irq_enabled = true ∧
      (ps2_send s B).lines = tl.tail) := by
  have hm : B % 256 = B := Nat.mod_eq_of_lt hB
  constructor
  · intro hlen
    have e : ps2_send s B =
        ps2_send_loop 0
          { s with
            calls := s.calls ++ [B]
            lines := tl
            checks := s.checks + busy.length
            slept_ms := s.slept_ms + busy.length } B := by
      unfold ps2_send
      simp only [hm]
      rw [show (100 : Nat) = busy.length + 0 from by omega,
        loop_busy busy hbusy 0 { s with calls := s.calls ++ [B] } B tl h]
    rw [e, ps2_send_loop, hlen]
    exact ⟨rfl, rfl, rfl, rfl, rfl, rfl, rfl⟩
  · intro hlen hidle
    have e : ps2_send s B =
        ps2_send_loop (99 - busy.length + 1)
          { s with
            calls := s.calls ++ [B]
            lines := tl
            checks := s.checks + busy.length
            slept_ms := s.slept_ms + busy.length } B := by
      unfold ps2_send
      simp only [hm]
      rw [show (100 : Nat) = busy.length + (99 - busy.length + 1) from by omega,
        loop_busy busy hbusy _ { s with calls := s.calls ++ [B] } B tl h]
    have hi : (gpio_sample
        { s with
          calls := s.calls ++ [B]
          lines := tl
          checks := s.checks + busy.length
          slept_ms := s.slept_ms + busy.length }).1 = (true, true) := by
      rcases hidle with hidle | hidle
      · subst hidle
        rfl
      · cases tl with
        | nil => rfl
        | cons x xs =>
          simp only [List.head?_cons, Option.some.injEq] at hidle
          subst hidle
          rfl
    rw [e, Send.loop_first_idle _ _ _ hi]
    refine ⟨?_, rfl, rfl, rfl, rfl, rfl, rfl⟩
    show s.checks + busy.length + 1 = _
    omega

/-- Witness of C14: the host holds the clock line low during 100 reads. -/
theorem ps2_send_busy_timeout_witness :
    (ps2_send (init (List.replicate 100 (false, true))) 0xaa).checks = 100 ∧
    (ps2_send (init (List.replicate 100 (false, true))) 0xaa).wire = [] :=
  ⟨((ps2_send_busy_timeout (init (List.replicate 100 (false, true))) 0xaa
      (List.replicate 100 (false, true)) [] (by decide)
      (fun x hx => by rw [List.eq_of_mem_replicate hx]; rfl) (by simp [init])).1
      (by simp)).1.trans (by simp [init]),
   ((ps2_send_busy_timeout (init (List.replicate 100 (false, true))) 0xaa
      (List.replicate 100 (false, true)) [] (by decide)
      (fun x hx => by rw [List.eq_of_mem_replicate hx]; rfl) (by simp [init])).1
      (by simp)).2.2.1⟩

end Busy

/-! ## LED report and Otrona key codes -/

namespace Leds

/-- C15 (amended). `kbd_set_leds(M)` sends the USB keyboard exactly one output
report byte `v`. For every `M` in 0..7, bit 0 of `v` (num lock) is bit 1 of
`M`, bit 1 of `v` (caps lock) is bit 2 of `M`, bit 2 of `v` (scroll lock) is
bit 0 of `M`, and the other bits of `v` are 0. For every `M` above 7 the
`else` branch of line 139 sends `v = 0`, all LEDs off, whatever the low bits
of `M` are. -/
theorem kbd_set_leds_report (s : State) (M : Nat) :
    ∃ v, (kbd_set_leds s M).usb_out = s.usb_out ++ [v] ∧
      (kbd_set_leds s M).led_calls = s.led_calls ++ [M] ∧
      (M ≤ 7 → v.testBit 0 = M.testBit 1 ∧ v.testBit 1 = M.testBit 2 ∧
        v.testBit 2 = M.testBit 0 ∧ v < 8) ∧
      (7 < M → v = 0) := by
  refine ⟨led_value M, Proj.kbd_set_leds_usb_out s M, Proj.kbd_set_leds_led_calls s M, ?_, ?_⟩
  · intro h
    interval_cases M <;> decide
  · intro h
    unfold led_value
    have h1 : (M == 1) = false := by rw [beq_eq_false_iff_ne]; omega
    have h2 : (M == 2) = false := by rw [beq_eq_false_iff_ne]; omega
    have h3 : (M == 3) = false := by rw [beq_eq_false_iff_ne]; omega
    have h4 : (M == 4) = false := by rw [beq_eq_false_iff_ne]; omega
    have h5 : (M == 5) = false := by rw [beq_eq_false_iff_ne]; omega
    have h6 : (M == 6) = false := by rw [beq_eq_false_iff_ne]; omega
    have h7 : (M == 7) = false := by rw [beq_eq_false_iff_ne]; omega
    simp only [h1, h2, h3, h4, h5, h6, h7, Bool.false_eq_true, if_false]

/-- Witness of C15 (amended): the mask 5 (scroll and caps lock) gives a
report byte with bits 1 and 2 set. -/
theorem kbd_set_leds_report_witness :
    ∃ v, (kbd_set_leds (init []) 5).usb_out = [v] ∧
      (v.testBit 0 = false ∧ v.testBit 1 = true ∧ v.testBit 2 = true ∧ v < 8) :=
  (kbd_set_leds_report (init []) 5).imp (fun _ h => ⟨h.1, h.2.2.1 (by decide)⟩)

/-- Counterexample to C15 as stated: the mask 9 has bit 3 set and the same
low 3 bits as the mask 1, but 9 switches all LEDs off (report byte 0) while 1
lights scroll lock (report byte 4). -/
theorem kbd_set_leds_high_bits :
    (9 : Nat) &&& 7 = 1 ∧
    (kbd_set_leds (init []) 9).usb_out = [0] ∧
    (kbd_set_leds (init []) 1).usb_out = [4] := by
  decide

theorem toOtrona_eq (key m : Nat) :
    toOtrona key m =
      if toOtrona_base key == INVALID_OTRONA_KEY then toOtrona_base key
      else toOtrona_mods key (toOtrona_base key)
        ((m &&& (KEYBOARD_MODIFIER_LEFTSHIFT ||| KEYBOARD_MODIFIER_RIGHTSHIFT)) == 0)
        ((m &&& (KEYBOARD_MODIFIER_LEFTCTRL ||| KEYBOARD_MODIFIER_RIGHTCTRL)) != 0) := rfl

set_option maxRecDepth 1000000 in
theorem otrona_base_mappable : ∀ key : Nat, key < 256 →
    (((0x04 ≤ key ∧ key ≤ 0x38 ∧ hid2otrona.getD (key - 0x04) 0 ≠ 0x03) ∨ key = 0x4c ∨
        key = 0x4d ∨ key = 0x4f ∨ key = 0x50 ∨ key = 0x51 ∨ key = 0x52 ∨ key = 0x39) ↔
      toOtrona_base key ≠ INVALID_OTRONA_KEY) := by
  decide

set_option maxRecDepth 1000000 in
theorem otrona_mods_bits : ∀ key : Nat, key < 256 → ∀ noshift ctrl : Bool,
    toOtrona_base key ≠ INVALID_OTRONA_KEY →
      toOtrona_mods key (toOtrona_base key) noshift ctrl ≠ 0x03 ∧
      (toOtrona_mods key (toOtrona_base key) noshift ctrl).testBit 7 = noshift ∧
      (toOtrona_mods key (toOtrona_base key) noshift ctrl).testBit 6 = ctrl := by
  decide

set_option maxRecDepth 1000000 in
theorem modifier_tests : ∀ m : Nat, m < 256 →
    (((m &&& (KEYBOARD_MODIFIER_LEFTSHIFT ||| KEYBOARD_MODIFIER_RIGHTSHIFT)) == 0) = true ↔
      (m &&& 0x02 = 0 ∧ m &&& 0x20 = 0)) ∧
    (((m &&& (KEYBOARD_MODIFIER_LEFTCTRL ||| KEYBOARD_MODIFIER_RIGHTCTRL)) != 0) = true ↔
      (m &&& 0x01 ≠ 0 ∨ m &&& 0x10 ≠ 0)) := by
  decide

/-- C16. `toOtrona(key, modifiers)` follows its documented encoding for every
key and every modifier byte: a key that is not mappable (not in 0x04..0x38
with a table entry other than 0x03, and none of 0x4C, 0x4D, 0x4F, 0x50, 0x51,
0x52, 0x39) gives 0x03 whatever the modifiers; for a mappable key the result
is never 0x03, its bit 7 is set if and only if no shift modifier (0x02, 0x20)
is held and its bit 6 is set if and only if a control modifier (0x01, 0x10)
is held. The index `key - 0x04` of the table lookup is always below the 53
entries of `hid2otrona`. -/
theorem toOtrona_encoding (key m : Nat) (hk : key < 256) (hm : m < 256) :
    (¬ ((0x04 ≤ key ∧ key ≤ 0x38 ∧ hid2otrona.getD (key - 0x04) 0 ≠ 0x03) ∨ key = 0x4c ∨
        key = 0x4d ∨ key = 0x4f ∨ key = 0x50 ∨ key = 0x51 ∨ key = 0x52 ∨ key = 0x39) → toOtrona key m = 0x03) ∧
    (((0x04 ≤ key ∧ key ≤ 0x38 ∧ hid2otrona.getD (key - 0x04) 0 ≠ 0x03) ∨ key = 0x4c ∨
        key = 0x4d ∨ key = 0x4f ∨ key = 0x50 ∨ key = 0x51 ∨ key = 0x52 ∨ key = 0x39) →
      toOtrona key m ≠ 0x03 ∧
      ((toOtrona key m).testBit 7 = true ↔ (m &&& 0x02 = 0 ∧ m &&& 0x20 = 0)) ∧
      ((toOtrona key m).testBit 6 = true ↔ (m &&& 0x01 ≠ 0 ∨ m &&& 0x10 ≠ 0))) ∧
    (0x04 ≤ key ∧ key ≤ 0x38 → key - 0x04 < hid2otrona.length) ∧
    hid2otrona.length = 53 := by
  have hmap := otrona_base_mappable key hk
  obtain ⟨hs, hc⟩ := modifier_tests m hm
  refine ⟨?_, ?_, ?_, by decide⟩
  · intro hn
    have hb : toOtrona_base key = INVALID_OTRONA_KEY := by
      by_contra hne
      exact hn (hmap.2 hne)
    rw [toOtrona_eq, hb]
    rfl
  · intro hy
    have hb : toOtrona_base key ≠ INVALID_OTRONA_KEY := hmap.1 hy
    have hbe : (toOtrona_base key == INVALID_OTRONA_KEY) = false := by
      rw [beq_eq_false_iff_ne]
      exact hb
    obtain ⟨h3, h7, h6⟩ := otrona_mods_bits key hk
      ((m &&& (KEYBOARD_MODIFIER_LEFTSHIFT ||| KEYBOARD_MODIFIER_RIGHTSHIFT)) == 0)
      ((m &&& (KEYBOARD_MODIFIER_LEFTCTRL ||| KEYBOARD_MODIFIER_RIGHTCTRL)) != 0) hb
    rw [toOtrona_eq, hbe]
    simp only [Bool.false_eq_true, if_false]
    refine ⟨h3, ?_, ?_⟩
    · rw [h7]
      exact hs
    · rw [h6]
      exact hc
  · intro hr
    have : hid2otrona.length = 53 := by decide
    omega

/-- Witness of C16: the key A (0x04) with left shift and right control held
gives 0x61: bit 7 clear, bit 6 set. -/
theorem toOtrona_encoding_witness : toOtrona 0x04 0x12 ≠ 0x03 :=
  ((toOtrona_encoding 0x04 0x12 (by decide) (by decide)).2.1 (by decide)).1

end Leds

/-! ## Dropped reports and reachable states -/

namespace Reach

/-- C19. A report is dropped whole when scanning is disabled or its reserved
byte is not 0: for every state with `kbd_enabled` false, and for every report
whose byte 1 is not 0, the callback does nothing but (for the mounted
keyboard) ask for the next report: no call of `ps2_send`, no byte and no bit
transmitted, and the snapshot `prev_rpt` (modifier byte included), `repeat`,
`repeat_us`, `delay_ms` and `kbd_enabled` keep their values, so that the next
accepted report is compared with the snapshot from before. -/
theorem report_dropped (s : State) (dev_addr inst : Nat) (report : List Nat)
    (h : s.kbd_enabled = false ∨ report.getD 1 0 ≠ 0) :
    (tuh_hid_report_received_cb s dev_addr inst report = s ∨
      tuh_hid_report_received_cb s dev_addr inst report = tuh_hid_receive_report s) ∧
    (tuh_hid_report_received_cb s dev_addr inst report).calls = s.calls ∧
    (tuh_hid_report_received_cb s dev_addr inst report).tx = s.tx ∧
    (tuh_hid_report_received_cb s dev_addr inst report).wire = s.wire ∧
    (tuh_hid_report_received_cb s dev_addr inst report).prev_rpt = s.prev_rpt ∧
    (tuh_hid_report_received_cb s dev_addr inst report).repeat_key = s.repeat_key ∧
    (tuh_hid_report_received_cb s dev_addr inst report).repeat_us = s.repeat_us ∧
    (tuh_hid_report_received_cb s dev_addr inst report).delay_ms = s.delay_ms ∧
    (tuh_hid_report_received_cb s dev_addr inst report).kbd_enabled = s.kbd_enabled := by
  have hg : (!s.kbd_enabled || report.getD 1 0 != 0) = true := by
    rcases h with h | h
    · rw [h]
      rfl
    · rw [Bool.or_eq_true, bne_iff_ne]
      exact Or.inr h
  have hcases : tuh_hid_report_received_cb s dev_addr inst report = s ∨
      tuh_hid_report_received_cb s dev_addr inst report = tuh_hid_receive_report s := by
    unfold tuh_hid_report_received_cb
    by_cases ha : (dev_addr == s.kbd_addr && inst == s.kbd_inst) = true
    · rw [if_pos ha, if_pos hg]
      exact Or.inr rfl
    · rw [if_neg ha]
      exact Or.inl rfl
  refine ⟨hcases, ?_⟩
  rcases hcases with e | e <;> rw [e] <;> exact ⟨rfl, rfl, rfl, rfl, rfl, rfl, rfl, rfl⟩

/-- Witness of C19: a report with a key, received while scanning is disabled,
sends nothing. -/
theorem report_dropped_witness :
    (tuh_hid_report_received_cb { init [] with kbd_enabled := false } 0 0
      [0, 0, 4, 0, 0, 0, 0, 0]).calls = [] :=
  (report_dropped { init [] with kbd_enabled := false } 0 0 [0, 0, 4, 0, 0, 0, 0, 0]
    (Or.inl rfl)).2.1

/-! ### Operations that leave the key state alone -/

theorem same_of_untouched (a b : State) (h : Send.Untouched a b) : SameKeys a b := by
  simp only [Send.Untouched] at h
  exact ⟨h.2.2.2.2.2.2.2.2.2.1, h.2.2.2.2.2.2.2.2.2.2.2.1⟩

theorem same_trans (a b c : State) (h1 : SameKeys a b) (h2 : SameKeys b c) : SameKeys a c :=
  ⟨h1.1.trans h2.1, h1.2.trans h2.2⟩

theorem same_send (s : State) (data : Nat) : SameKeys (ps2_send s data) s :=
  same_of_untouched _ _ (Send.send_untouched s data)

theorem same_sample (s : State) : SameKeys (gpio_sample s).2 s :=
  same_of_untouched _ _ (Send.sample_untouched s)

theorem same_e0 (s : State) (data : Nat) : SameKeys (maybe_send_e0 s data) s := by
  unfold maybe_send_e0
  split
  · exact same_send s _
  · exact ⟨rfl, rfl⟩

theorem same_leds (s : State) (data : Nat) : SameKeys (kbd_set_leds s data) s := by
  rw [Proj.kbd_set_leds_eq]
  exact ⟨rfl, rfl⟩

theorem same_receive_bits (fuel : Nat) (s : State) (bit data parity : Nat) :
    SameKeys (ps2_receive_bits fuel s bit data parity).1 s := by
  induction fuel generalizing s bit data parity with
  | zero => exact ⟨rfl, rfl⟩
  | succ n ih =>
    rw [ps2_receive_bits]
    split
    · exact same_trans _ _ _ (ih _ _ _ _)
        (same_trans _ (gpio_sample s).2 _ ⟨rfl, rfl⟩ (same_sample s))
    · exact ⟨rfl, rfl⟩

theorem same_receive_frame (s : State) : SameKeys (ps2_receive_frame s).1 s := by
  have h1 := same_receive_bits 16
    (ps2_cycle_clock (board_led_write { s with irq_enabled := false } true)) 1 0 1
  have h2 := same_sample (ps2_receive_bits 16
    (ps2_cycle_clock (board_led_write { s with irq_enabled := false } true)) 1 0 1).1
  exact same_trans _ _ _ (same_trans _ (gpio_sample (ps2_receive_bits 16
    (ps2_cycle_clock (board_led_write { s with irq_enabled := false } true)) 1 0 1).1).2 _
    ⟨rfl, rfl⟩ h2) (same_trans _ _ _ h1 ⟨rfl, rfl⟩)

theorem same_switch (s : State) (data : Nat) : SameKeys (ps2_switch_data s data).1 s := by
  unfold ps2_switch_data
  split_ifs
  · exact same_trans _ _ _ (same_send _ _)
      (same_trans _ (ps2_send s 0xfa) _ ⟨rfl, rfl⟩ (same_send _ _))
  · exact same_send _ _
  · exact same_send _ _
  · exact same_trans _ _ _ (same_send _ _) (same_trans _ _ _ (same_send _ _) (same_send _ _))
  · exact ⟨rfl, rfl⟩
  · exact ⟨rfl, rfl⟩
  · exact same_trans _ _ _ (same_leds _ _) ⟨rfl, rfl⟩
  · exact ⟨rfl, rfl⟩

theorem same_command (s : State) (data : Nat) : SameKeys (ps2_command s data) s := by
  unfold ps2_command
  simp only []
  split_ifs
  all_goals first
    | exact same_trans _ _ _ (same_send _ _) (same_trans _ _ _ (same_leds _ _) ⟨rfl, rfl⟩)
    | exact same_trans _ _ _ (same_send _ _) ⟨rfl, rfl⟩
    | exact same_switch s data
    | exact same_trans _ _ _ (same_send _ _) (same_switch s data)

theorem same_receive (s : State) : SameKeys (ps2_receive s) s := by
  unfold ps2_receive
  simp only []
  split
  · exact same_trans _ _ _ (same_send _ _) (same_receive_frame s)
  · exact same_trans _ _ _ (same_command _ _) (same_receive_frame s)

/-! ### The key loop keeps the invariant -/

theorem key_break_keys (t : State) (report : List Nat) (i : Nat) :
    (key_break t report i).1.prev_rpt = t.prev_rpt ∧
    ((key_break t report i).1.repeat_key = t.repeat_key ∨
      (key_break t report i).1.repeat_key = 0) ∧
    ((key_break t report i).2 = true → t.prev_rpt.getD i 0 = 0x48) := by
  unfold key_break
  simp only []
  split_ifs with h1 h2 h3
  · exact ⟨rfl, Or.inl rfl, fun _ => by simpa using h3⟩
  · refine ⟨?_, Or.inr ?_, fun h => by simp at h⟩
    · simp
    · simp
  · exact ⟨rfl, Or.inl rfl, fun h => by simp at h⟩
  · exact ⟨rfl, Or.inl rfl, fun h => by simp at h⟩

theorem key_make_keys (t : State) (report : List Nat) (i : Nat) :
    (key_make t report i).1.prev_rpt = t.prev_rpt ∧
    ((key_make t report i).1.repeat_key = t.repeat_key ∨
      ((key_make t report i).1.repeat_key = report.getD i 0 ∧ report.getD i 0 < 116 ∧
        report.getD i 0 ≠ 0x48)) ∧
    (absent 0x48 t.prev_rpt = true → report.getD i 0 = 0x48 →
      (key_make t report i).2 = true) := by
  unfold key_make
  simp only []
  by_cases h1 : (report.getD i 0 != 0) = true
  · rw [if_pos h1]
    by_cases h2 : (absent (report.getD i 0) t.prev_rpt && decide (report.getD i 0 < maparray)) = true
    · rw [if_pos h2]
      by_cases h3 : (report.getD i 0 == 0x48) = true
      · rw [if_pos h3]
        split <;> exact ⟨by simp, Or.inl (by simp), fun _ _ => rfl⟩
      · rw [if_neg h3]
        have hlt : report.getD i 0 < 116 := by
          rw [Bool.and_eq_true, decide_eq_true_eq, Translate.maparray_eq] at h2
          exact h2.2
        have hne : report.getD i 0 ≠ 0x48 := by simpa using h3
        refine ⟨?_, Or.inr ⟨?_, hlt, hne⟩, fun _ h => absurd h hne⟩
        · by_cases hrep : t.repeater = 0 <;>
            simp [hrep, add_alarm_in_ms, cancel_alarm, -List.getD_eq_getElem?_getD]
        · by_cases hrep : t.repeater = 0 <;>
            simp [hrep, add_alarm_in_ms, cancel_alarm, -List.getD_eq_getElem?_getD]
    · rw [if_neg h2]
      refine ⟨rfl, Or.inl rfl, fun ha h => ?_⟩
      exfalso
      apply h2
      rw [h, ha]
      decide
  · rw [if_neg h1]
    refine ⟨rfl, Or.inl rfl, fun _ h => ?_⟩
    exfalso
    apply h1
    rw [h]
    decide

theorem getD_set_cases (l : List Nat) (i j v d : Nat) :
    (l.set i v).getD j d = v ∨ (l.set i v).getD j d = l.getD j d := by
  by_cases hij : i = j
  · subst hij
    by_cases hl : i < l.length
    · exact Or.inl (Translate.getD_set_self l i v d hl)
    · right
      rw [List.set_eq_of_length_le (by omega)]
  · exact Or.inr (Translate.getD_set_ne l i j v d hij)

theorem no_pause_of_same (a b : State) (h : SameKeys a b) (hb : NoPause b) : NoPause a := by
  unfold NoPause at hb ⊢
  rw [h.1, h.2]
  exact hb

/-- In a state that satisfies the invariant, the break half of a key slot
never ends in the `continue` of line 333. -/
theorem break_never_skips (t : State) (report : List Nat) (i : Nat) (h2 : 2 ≤ i) (h8 : i < 8)
    (ht : NoPause t) : (key_break t report i).2 = false := by
  cases hb : (key_break t report i).2 with
  | false => rfl
  | true => exact absurd ((key_break_keys t report i).2.2 hb) (ht.1 i h2 h8)

theorem key_slot_inv (report : List Nat) (t : State) (i : Nat) (ht : NoPause t) :
    NoPause (key_slot report t i) := by
  obtain ⟨hb1, hb2, -⟩ := key_break_keys t report i
  obtain ⟨hm1, hm2, hm3⟩ := key_make_keys (key_break t report i).1 report i
  have hB : NoPause (key_break t report i).1 := by
    refine ⟨fun j a b => by rw [hb1]; exact ht.1 j a b, ?_⟩
    rcases hb2 with h | h
    · rw [h]
      exact ht.2
    · exact Or.inl h
  have hM : NoPause (key_make (key_break t report i).1 report i).1 := by
    refine ⟨fun j a b => by rw [hm1]; exact hB.1 j a b, ?_⟩
    rcases hm2 with h | h
    · rw [h]
      exact hB.2
    · rw [h.1]
      exact Or.inr ⟨h.2.1, h.2.2⟩
  unfold key_slot
  simp only []
  split
  · exact hB
  · split
    · exact hM
    · rename_i hcont
      have hne : report.getD i 0 ≠ 0x48 := by
        intro h
        exact hcont (hm3 ((Translate.absent_iff 0x48 _).2 hB.1) h)
      refine ⟨fun j a b => ?_, hM.2⟩
      show (List.set _ i _).getD j 0 ≠ 0x48
      rcases getD_set_cases (key_make (key_break t report i).1 report i).1.prev_rpt i j
        (report.getD i 0) 0 with h | h
      · rw [h]
        exact hne
      · rw [h]
        exact hM.1 j a b

theorem fold_inv (report : List Nat) (l : List Nat) (t : State) (ht : NoPause t) :
    NoPause (l.foldl (key_slot report) t) := by
  induction l generalizing t with
  | nil => exact ht
  | cons i l ih => exact ih _ (key_slot_inv report t i ht)

theorem entry_inv (s : State) (report : List Nat) (hs : NoPause s) :
    NoPause (keys_entry s report) := by
  unfold keys_entry
  simp only []
  split
  · have hm := same_of_untouched _ _ (Translate.mod_loop_calls 8 (board_led_write s true) 0
      (report.getD 0 0) ((board_led_write s true).prev_rpt.getD 0 0)).2
    refine ⟨fun j a b => ?_, ?_⟩
    · show (List.set _ 0 _).getD j 0 ≠ 0x48
      rw [Translate.getD_set_ne _ 0 j _ 0 (by omega), hm.1]
      exact hs.1 j a b
    · show (mod_loop 8 (board_led_write s true) 0 (report.getD 0 0)
        ((board_led_write s true).prev_rpt.getD 0 0)).repeat_key = 0 ∨ _
      rw [hm.2]
      exact hs.2
  · exact hs

theorem cb_eq_entry (s : State) (dev_addr inst : Nat) (report : List Nat) :
    tuh_hid_report_received_cb s dev_addr inst report =
      if dev_addr == s.kbd_addr && inst == s.kbd_inst then
        if !s.kbd_enabled || report.getD 1 0 != 0 then tuh_hid_receive_report s
        else tuh_hid_receive_report (board_led_write
          ((List.range' 2 6).foldl (key_slot report) (keys_entry s report)) false)
      else s := rfl

theorem cb_inv (s : State) (dev_addr inst : Nat) (report : List Nat) (hs : NoPause s) :
    NoPause (tuh_hid_report_received_cb s dev_addr inst report) := by
  rw [cb_eq_entry]
  split
  · split
    · exact no_pause_of_same _ s ⟨Proj.tuh_rx_prev_rpt s, Proj.tuh_rx_repeat_key s⟩ hs
    · refine no_pause_of_same _ ((List.range' 2 6).foldl (key_slot report) (keys_entry s report))
        ⟨?_, ?_⟩ (fold_inv report _ _ (entry_inv s report hs))
      · rw [Proj.tuh_rx_prev_rpt, Proj.led_write_prev_rpt]
      · rw [Proj.tuh_rx_repeat_key, Proj.led_write_repeat_key]
  · exact hs

theorem turn_repeat_inv (u : State) (hu : NoPause u) :
    NoPause (if u.repeating = true then
      if ({ u with repeating := false }.repeat_key != 0) = true then
        ps2_send
          { maybe_send_e0 { u with repeating := false } { u with repeating := false }.repeat_key
            with reads := (maybe_send_e0 { u with repeating := false }
              { u with repeating := false }.repeat_key).reads ++
                [(maybe_send_e0 { u with repeating := false }
                  { u with repeating := false }.repeat_key).repeat_key] }
          (hid2ps2.getD (maybe_send_e0 { u with repeating := false }
            { u with repeating := false }.repeat_key).repeat_key 0)
      else { u with repeating := false }
    else u) := by
  split
  · split
    · exact no_pause_of_same _ u
        (same_trans _ _ _ (same_send _ _) (same_trans _ (maybe_send_e0 _ _) _ ⟨rfl, rfl⟩
          (same_trans _ _ _ (same_e0 _ _) ⟨rfl, rfl⟩))) hu
    · exact no_pause_of_same _ u ⟨rfl, rfl⟩ hu
  · exact hu

theorem turn_inv (s : State) (hs : NoPause s) : NoPause (main_turn s) := by
  by_cases hr : s.receiving = true
  · exact turn_repeat_inv (if s.receiving = true then ps2_receive { s with receiving := false }
      else s) (by rw [if_pos hr]; exact no_pause_of_same _ _ (same_receive _) hs)
  · exact turn_repeat_inv (if s.receiving = true then ps2_receive { s with receiving := false }
      else s) (by rw [if_neg hr]; exact hs)

theorem reachable_inv (s : State) (h : Reachable s) : NoPause s := by
  induction h with
  | start lines =>
    exact ⟨fun j a b => by interval_cases j <;> exact (by decide : (0 : Nat) ≠ 0x48), Or.inl rfl⟩
  | report s dev_addr inst report _ ih => exact cb_inv s dev_addr inst report ih
  | command s _ ih => exact no_pause_of_same _ _ (same_receive s) ih
  | mount s dev_addr inst is_keyboard _ ih =>
    unfold tuh_hid_mount_cb
    split
    · exact ih
    · exact ih
  | umount s dev_addr inst _ ih =>
    unfold tuh_hid_umount_cb
    split
    · exact ih
    · exact ih
  | repeat_alarm s _ ih =>
    unfold repeat_callback
    split
    · exact ih
    · exact ih
  | blink_alarm s _ ih =>
    unfold blink_callback
    split
    · split
      · exact no_pause_of_same _ _ (same_trans _ (kbd_set_leds s 7) _ ⟨rfl, rfl⟩ (same_leds s 7)) ih
      · exact no_pause_of_same _ _ (same_leds s 0) ih
    · exact ih
  | irq s _ ih =>
    unfold irq_callback
    split
    · have hsm := same_sample s
      simp only []
      split
      · exact no_pause_of_same _ _ (same_trans _ (gpio_sample s).2 _ ⟨rfl, rfl⟩ hsm) ih
      · exact no_pause_of_same _ _ hsm ih
    · exact ih
  | turn s _ ih => exact turn_inv s ih

/-- C20. In every state reachable from the initial state by any sequence of
reports and host commands (and of the other callbacks and control loop
turns), no key slot of the snapshot holds Pause (0x48) and `repeat` is 0 or a
code below 116 other than 0x48; hence, in every iteration of the key loop of
any report, the break half never takes the Pause `continue` of line 333, and
the lookup `hid2ps2[repeat]` of the control loop is within the table. -/
theorem reachable_no_pause (s : State) (h : Reachable s) :
    (∀ j, 2 ≤ j → j < 8 → s.prev_rpt.getD j 0 ≠ 0x48) ∧
    (s.repeat_key = 0 ∨ (s.repeat_key < 116 ∧ s.repeat_key ≠ 0x48)) ∧
    (∀ (report : List Nat) (k i : Nat), 2 ≤ i → i < 8 →
      (key_break ((List.range' 2 k).foldl (key_slot report) (keys_entry s report))
        report i).2 = false) ∧
    s.repeat_key < hid2ps2.length := by
  have hs := reachable_inv s h
  refine ⟨hs.1, hs.2, fun report k i h2 h8 =>
    break_never_skips _ report i h2 h8 (fold_inv report _ _ (entry_inv s report hs)), ?_⟩
  have hl : hid2ps2.length = 116 := by decide
  rw [hl]
  rcases hs.2 with h0 | h1
  · rw [h0]
    decide
  · exact h1.1

/-- Witness of C20: the state after a report that holds Pause and the key A. -/
theorem reachable_no_pause_witness :
    (tuh_hid_report_received_cb (init []) 0 0 [0, 0, 0x48, 0x04, 0, 0, 0, 0]).repeat_key <
      hid2ps2.length :=
  (reachable_no_pause _ (Reachable.report (init []) 0 0 [0, 0, 0x48, 0x04, 0, 0, 0, 0]
    (Reachable.start []))).2.2.2

end Reach

/-! ## Order of the events of one report -/

namespace Order

/-- A key slot whose snapshot key is still in the report and whose report key
is in the snapshot only overwrites the slot of the snapshot. -/
theorem key_slot_quiet (report : List Nat) (t : State) (i : Nat)
    (ha : t.prev_rpt.getD i 0 = 0 ∨ absent (t.prev_rpt.getD i 0) report = false)
    (hb : report.getD i 0 = 0 ∨ absent (report.getD i 0) t.prev_rpt = false) :
    key_slot report t i = { t with prev_rpt := t.prev_rpt.set i (report.getD i 0) } := by
  have hbk : key_break t report i = (t, false) := by
    unfold key_break
    rcases ha with h | h <;> simp [h, -List.getD_eq_getElem?_getD]
  have hmk : key_make t report i = (t, false) := by
    unfold key_make
    rcases hb with h | h <;> simp [h, -List.getD_eq_getElem?_getD]
  unfold key_slot
  simp only [hbk, hmk, Bool.false_eq_true, if_false]

theorem fold_quiet (report : List Nat) (n : Nat) : ∀ (i : Nat) (t : State), i + n = 8 → 2 ≤ i →
    (∀ j, i ≤ j → j < 8 → t.prev_rpt.getD j 0 ≠ 0 →
      ∃ m, 2 ≤ m ∧ m < 8 ∧ report.getD m 0 = t.prev_rpt.getD j 0) →
    (∀ j, i ≤ j → j < 8 → report.getD j 0 ≠ 0 →
      ∃ m, j ≤ m ∧ m < 8 ∧ t.prev_rpt.getD m 0 = report.getD j 0) →
    ((List.range' i n).foldl (key_slot report) t).calls = t.calls ∧
    ((List.range' i n).foldl (key_slot report) t).tx = t.tx ∧
    ((List.range' i n).foldl (key_slot report) t).wire = t.wire ∧
    ((List.range' i n).foldl (key_slot report) t).repeat_key = t.repeat_key := by
  induction n with
  | zero =>
    intro i t _ _ _ _
    exact ⟨rfl, rfl, rfl, rfl⟩
  | succ n ih =>
    intro i t hin h2 hA hB
    have ha : t.prev_rpt.getD i 0 = 0 ∨ absent (t.prev_rpt.getD i 0) report = false := by
      by_cases hz : t.prev_rpt.getD i 0 = 0
      · exact Or.inl hz
      · obtain ⟨m, m2, m8, hm⟩ := hA i (Nat.le_refl i) (by omega) hz
        exact Or.inr (Translate.absent_of_mem _ report m m2 m8 hm)
    have hb : report.getD i 0 = 0 ∨ absent (report.getD i 0) t.prev_rpt = false := by
      by_cases hz : report.getD i 0 = 0
      · exact Or.inl hz
      · obtain ⟨m, mi, m8, hm⟩ := hB i (Nat.le_refl i) (by omega) hz
        exact Or.inr (Translate.absent_of_mem _ t.prev_rpt m (by omega) m8 hm)
    rw [List.range'_succ, List.foldl_cons, key_slot_quiet report t i ha hb]
    have hstep := ih (i + 1) { t with prev_rpt := t.prev_rpt.set i (report.getD i 0) }
      (by omega) (by omega)
      (fun j hj j8 hne => by
        have e : (t.prev_rpt.set i (report.getD i 0)).getD j 0 = t.prev_rpt.getD j 0 :=
          Translate.getD_set_ne _ i j _ 0 (by omega)
        have hne2 : t.prev_rpt.getD j 0 ≠ 0 := by
          rw [← e]
          exact hne
        obtain ⟨m, m2, m8, hm⟩ := hA j (by omega) j8 hne2
        exact ⟨m, m2, m8, hm.trans e.symm⟩)
      (fun j hj j8 hne => by
        obtain ⟨m, mj, m8, hm⟩ := hB j (by omega) j8 hne
        have e : (t.prev_rpt.set i (report.getD i 0)).getD m 0 = t.prev_rpt.getD m 0 :=
          Translate.getD_set_ne _ i m _ 0 (by omega)
        exact ⟨m, mj, m8, e.trans hm⟩)
    exact hstep

/-- The part of the rearrangements of held keys on which the key loop does
send nothing: for every snapshot and every accepted report with the same
modifier byte, in which every key of the snapshot still occurs in the report
and every key of the report occupies in the snapshot the same slot or a later
one (the same keys, merely moved towards the first slot), the callback makes
no call of `ps2_send`, transmits no byte and no bit, and leaves `repeat`
unchanged. A key that moves to a later slot is outside this part, see
`swapped_keys_send_make`. -/
theorem moved_keys_send_nothing (s : State) (report : List Nat)
    (hen : s.kbd_enabled = true) (h1 : report.getD 1 0 = 0)
    (h0 : report.getD 0 0 = s.prev_rpt.getD 0 0)
    (hA : ∀ j, 2 ≤ j → j < 8 → s.prev_rpt.getD j 0 ≠ 0 →
      ∃ m, 2 ≤ m ∧ m < 8 ∧ report.getD m 0 = s.prev_rpt.getD j 0)
    (hB : ∀ j, 2 ≤ j → j < 8 → report.getD j 0 ≠ 0 →
      ∃ m, j ≤ m ∧ m < 8 ∧ s.prev_rpt.getD m 0 = report.getD j 0) :
    (tuh_hid_report_received_cb s s.kbd_addr s.kbd_inst report).calls = s.calls ∧
    (tuh_hid_report_received_cb s s.kbd_addr s.kbd_inst report).tx = s.tx ∧
    (tuh_hid_report_received_cb s s.kbd_addr s.kbd_inst report).wire = s.wire ∧
    (tuh_hid_report_received_cb s s.kbd_addr s.kbd_inst report).repeat_key = s.repeat_key := by
  obtain ⟨q1, q2, q3, q4⟩ := fold_quiet report 6 2 (board_led_write s true) rfl (Nat.le_refl 2)
    hA hB
  rw [Translate.cb_keys s report hen h1 h0]
  refine ⟨?_, ?_, ?_, ?_⟩
  · rw [Proj.tuh_rx_calls, Proj.led_write_calls, q1, Proj.led_write_calls]
  · rw [Proj.tuh_rx_tx, Proj.led_write_tx, q2, Proj.led_write_tx]
  · rw [Proj.tuh_rx_wire, Proj.led_write_wire, q3, Proj.led_write_wire]
  · rw [Proj.tuh_rx_repeat_key, Proj.led_write_repeat_key, q4, Proj.led_write_repeat_key]

/-- Instance of `moved_keys_send_nothing`: the key A moves from the second key
slot to the first one. -/
theorem moved_keys_send_nothing_witness :
    (tuh_hid_report_received_cb { init [] with prev_rpt := [0, 0, 0, 4, 0, 0, 0, 0] } 0 0
      [0, 0, 4, 0, 0, 0, 0, 0]).calls = [] :=
  (moved_keys_send_nothing { init [] with prev_rpt := [0, 0, 0, 4, 0, 0, 0, 0] }
    [0, 0, 4, 0, 0, 0, 0, 0] rfl rfl rfl
    (fun j a b hne => by
      interval_cases j <;> first
        | exact absurd rfl hne
        | exact ⟨2, by decide, by decide, rfl⟩)
    (fun j a b hne => by
      interval_cases j <;> first
        | exact absurd rfl hne
        | exact ⟨3, by decide, by decide, rfl⟩)).1

set_option maxRecDepth 1000000 in
/-- C17, evaluation at the failing input: the keys A (0x04) and B (0x05) are
pressed, then a report holds the same two keys in swapped slots; the second
report hands the make code of A (0x1C), a key that is already down, to
`ps2_send` again and frames it on the bus, because line 374 overwrote slot 2
of the snapshot before the make test of slot 3 scanned it. The break test of
the same loop scans `report`, which is never written, and does not misfire. -/
theorem swapped_keys_send_make :
    (tuh_hid_report_received_cb (init []) 0 0 [0, 0, 4, 5, 0, 0, 0, 0]).calls = [0x1c, 0x32] ∧
    (tuh_hid_report_received_cb (init []) 0 0 [0, 0, 4, 5, 0, 0, 0, 0]).prev_rpt =
      [0, 0, 4, 5, 0, 0, 0, 0] ∧
    (tuh_hid_report_received_cb
      (tuh_hid_report_received_cb (init []) 0 0 [0, 0, 4, 5, 0, 0, 0, 0]) 0 0
      [0, 0, 5, 4, 0, 0, 0, 0]).calls = [0x1c, 0x32, 0x1c] ∧
    (tuh_hid_report_received_cb
      (tuh_hid_report_received_cb (init []) 0 0 [0, 0, 4, 5, 0, 0, 0, 0]) 0 0
      [0, 0, 5, 4, 0, 0, 0, 0]).tx = [0x1c, 0x32, 0x1c] := by
  decide

end Order

end Ps2pico
